import Mathlib

/-!
Verification of the Othello MCTS engine (`board.py`, `players/mcts_ai.py`).

The board and the engine are shallowly embedded: Python's mutable grid becomes
a value of type `OthelloBoard`, mutation becomes functions returning new
boards, the mutable search tree with parent pointers becomes an inductive tree
addressed by paths of child indices (the parent chain of a node is exactly the
chain of prefixes of its path), and the seeded `random.Random` source becomes
an explicitly threaded Mersenne-Twister state.  Rewards (Python floats drawn
from {0.0, 0.5, 1.0} and their sums) are represented exactly as rationals.
-/

namespace Othello

/-- `PlayerType` from `enums.py`: the three cell values. -/
inductive Cell where
  | black
  | white
  | empty
deriving DecidableEq, Repr, Inhabited

/-- `PlayerType.opponent`.  The source raises on `EMPTY`; the engine only ever
calls it on `BLACK`/`WHITE`, and the value at `empty` is never used. -/
def Cell.opponent : Cell → Cell
  | .black => .white
  | .white => .black
  | .empty => .empty

/-- The board of `board.py`: a `size` by `size` grid stored row-major as a
list of rows, exactly like the Python list-of-lists. -/
structure OthelloBoard where
  size : Nat
  board : List (List Cell)
deriving DecidableEq, Repr, Inhabited

/-- `OthelloBoard.DIRECTIONS`, in source order. -/
def directions : List (Int × Int) :=
  [(-1, -1), (-1, 0), (-1, 1), (0, -1), (0, 1), (1, -1), (1, 0), (1, 1)]

/-- Read a cell (`self.board[r][c]` at an in-bounds index). -/
def OthelloBoard.getCell (b : OthelloBoard) (r c : Nat) : Cell :=
  (b.board.getD r []).getD c .empty

/-- Read a cell at integer coordinates (used by the directional walk, which
only dereferences in-bounds positions). -/
def OthelloBoard.getCellI (b : OthelloBoard) (r c : Int) : Cell :=
  b.getCell r.toNat c.toNat

/-- `in_bounds`. -/
def OthelloBoard.inBounds (b : OthelloBoard) (r c : Int) : Bool :=
  0 ≤ r && r < (b.size : Int) && 0 ≤ c && c < (b.size : Int)

/-- `self.board[r][c] = v` (a no-op at out-of-range indices, which the source
never produces). -/
def OthelloBoard.setCell (b : OthelloBoard) (r c : Nat) (v : Cell) : OthelloBoard :=
  ⟨b.size, b.board.set r ((b.board.getD r []).set c v)⟩

/-- The `while` loop of `_discs_to_flip_in_direction`, with the accumulated
`discs` list and explicit fuel.  Starting from an in-bounds origin the walk
leaves the board after at most `size` steps in the direction `(dr, dc)`, so
fuel `size + 1` is never exhausted. -/
def OthelloBoard.discsWalk (b : OthelloBoard) (color : Cell) (dr dc : Int) :
    Nat → Int → Int → List (Int × Int) → List (Int × Int)
  | 0, _, _, _ => []
  | fuel + 1, r, c, discs =>
    if b.inBounds r c then
      let cell := b.getCellI r c
      if cell = .empty then []
      else if cell = color then discs
      else b.discsWalk color dr dc fuel (r + dr) (c + dc) (discs ++ [(r, c)])
    else []

/-- `_discs_to_flip_in_direction`. -/
def OthelloBoard.discsToFlipInDirection (b : OthelloBoard) (row col : Nat) (color : Cell)
    (dr dc : Int) : List (Int × Int) :=
  b.discsWalk color dr dc (b.size + 1) ((row : Int) + dr) ((col : Int) + dc) []

/-- `discs_to_flip`. -/
def OthelloBoard.discsToFlip (b : OthelloBoard) (row col : Nat) (color : Cell) :
    List (Int × Int) :=
  if b.getCell row col ≠ .empty then []
  else directions.flatMap fun d => b.discsToFlipInDirection row col color d.1 d.2

/-- `is_valid_move`. -/
def OthelloBoard.isValidMove (b : OthelloBoard) (row col : Nat) (color : Cell) : Bool :=
  (b.discsToFlip row col color).length > 0

/-- `get_valid_moves`: row-major scan collecting the valid coordinates. -/
def OthelloBoard.getValidMoves (b : OthelloBoard) (color : Cell) : List (Nat × Nat) :=
  (List.range b.size).flatMap fun r =>
    (List.range b.size).filterMap fun c =>
      if b.isValidMove r c color then some (r, c) else none

/-- `make_move`: the Boolean result paired with the (possibly unchanged)
resulting board. -/
def OthelloBoard.makeMove (b : OthelloBoard) (row col : Nat) (color : Cell) :
    Bool × OthelloBoard :=
  let flips := b.discsToFlip row col color
  if flips = [] then (false, b)
  else
    (true, flips.foldl (fun acc rc => acc.setCell rc.1.toNat rc.2.toNat color)
      (b.setCell row col color))

/-- All coordinates `(r, c)` with `r, c < n`, in the row-major order of the
source's nested `for r … for c` loops. -/
def coordList (n : Nat) : List (Nat × Nat) :=
  (List.range n).flatMap fun r => (List.range n).map fun c => (r, c)

/-- `get_score`: `(black, white)` disc counts, tallied over the row-major
index loops of the source. -/
def OthelloBoard.getScore (b : OthelloBoard) : Nat × Nat :=
  ((coordList b.size).countP (fun rc => b.getCell rc.1 rc.2 = Cell.black),
   (coordList b.size).countP (fun rc => b.getCell rc.1 rc.2 = Cell.white))

/-- Total number of discs on the board. -/
def OthelloBoard.discCount (b : OthelloBoard) : Nat :=
  b.getScore.1 + b.getScore.2

/-- `is_full`. -/
def OthelloBoard.isFull (b : OthelloBoard) : Bool :=
  b.board.all fun row => row.all (· ≠ Cell.empty)

/-- `is_game_over`. -/
def OthelloBoard.isGameOver (b : OthelloBoard) : Bool :=
  b.isFull || ((b.getValidMoves .black).isEmpty && (b.getValidMoves .white).isEmpty)

/-- `__init__`: the fresh board with the centre block placed (the source also
validates `size ∈ {4, 6, 8}`, a construction-time check the claims do not
touch). -/
def OthelloBoard.init (size : Nat) : OthelloBoard :=
  let empty : OthelloBoard := ⟨size, List.replicate size (List.replicate size .empty)⟩
  let mid := size / 2
  (((empty.setCell (mid - 1) (mid - 1) .white).setCell (mid - 1) mid .black).setCell
      mid (mid - 1) .black).setCell mid mid .white

/-- A board's stored grid really is `size` by `size` (true of every board the
source constructs). -/
def OthelloBoard.WF (b : OthelloBoard) : Prop :=
  b.board.length = b.size ∧ ∀ row ∈ b.board, row.length = b.size

instance (b : OthelloBoard) : Decidable b.WF := by
  unfold OthelloBoard.WF
  infer_instance

/-- Row-major (lexicographic) order on coordinates. -/
def rowMajorLt (a b : Nat × Nat) : Prop :=
  a.1 < b.1 ∨ (a.1 = b.1 ∧ a.2 < b.2)

instance (a b : Nat × Nat) : Decidable (rowMajorLt a b) := by
  unfold rowMajorLt
  infer_instance

/-- Spec-side legality predicate for claim C2, written from the spec's words:
placing `color` on the empty cell `(row, col)` produces, in at least one of
the 8 directions, a run of `k ≥ 1` opposing discs starting immediately next
to the cell, followed (with no gap and no intervening board edge) by a disc
of `color`. -/
def SpecValidMove (b : OthelloBoard) (row col : Nat) (color : Cell) : Prop :=
  b.getCell row col = Cell.empty ∧
  ∃ d ∈ directions, ∃ k : Nat, 1 ≤ k ∧
    (∀ j : Nat, 1 ≤ j → j ≤ k →
      b.inBounds ((row : Int) + j * d.1) ((col : Int) + j * d.2) = true ∧
      b.getCellI ((row : Int) + j * d.1) ((col : Int) + j * d.2) = color.opponent) ∧
    b.inBounds ((row : Int) + (k + 1) * d.1) ((col : Int) + (k + 1) * d.2) = true ∧
    b.getCellI ((row : Int) + (k + 1) * d.1) ((col : Int) + (k + 1) * d.2) = color

/-- Declarative description of one directional scan: starting at `(r0, c0)`
and stepping by `(dr, dc)`, the first `m` cells are in-bounds non-empty
non-`color` discs and the `(m+1)`-st cell is in-bounds and holds `color`.
This is the exit condition of the `while` loop in
`_discs_to_flip_in_direction` that returns a (possibly empty) flip run. -/
def WalkSpec (b : OthelloBoard) (color : Cell) (dr dc r0 c0 : Int) (m : Nat) : Prop :=
  (∀ i : Nat, i < m →
      b.inBounds (r0 + i * dr) (c0 + i * dc) = true ∧
      b.getCellI (r0 + i * dr) (c0 + i * dc) ≠ Cell.empty ∧
      b.getCellI (r0 + i * dr) (c0 + i * dc) ≠ color) ∧
  b.inBounds (r0 + m * dr) (c0 + m * dc) = true ∧
  b.getCellI (r0 + m * dr) (c0 + m * dc) = color

/-! ## The MCTS engine (`players/mcts_ai.py`) -/

/-- A node of the search tree (`MCTSNode`).  The Python object's mutable
fields become constructor fields.  The `parent` back-pointer is represented
positionally: a node is addressed by its path of child indices from the root,
and its parent chain is exactly the chain of proper prefixes of that path.
`wins` (Python float sums of rewards drawn from {0.0, 0.5, 1.0}) is an exact
rational. -/
inductive MCTSNode where
  | mk (move : Option (Nat × Nat)) (playerToMove : Cell)
      (untried : List (Nat × Nat)) (children : List MCTSNode)
      (visits : Nat) (wins : ℚ) : MCTSNode

instance : Inhabited MCTSNode := ⟨.mk none .empty [] [] 0 0⟩

def MCTSNode.move : MCTSNode → Option (Nat × Nat)
  | .mk m _ _ _ _ _ => m

def MCTSNode.playerToMove : MCTSNode → Cell
  | .mk _ p _ _ _ _ => p

def MCTSNode.untried : MCTSNode → List (Nat × Nat)
  | .mk _ _ u _ _ _ => u

def MCTSNode.children : MCTSNode → List MCTSNode
  | .mk _ _ _ cs _ _ => cs

def MCTSNode.visits : MCTSNode → Nat
  | .mk _ _ _ _ v _ => v

def MCTSNode.wins : MCTSNode → ℚ
  | .mk _ _ _ _ _ w => w

/-- `MCTSNode.update`: one statistics update. -/
def MCTSNode.update : MCTSNode → ℚ → MCTSNode
  | .mk m p u cs v w, reward => .mk m p u cs (v + 1) (w + reward)

/-- `MCTSNode.add_child`: remove the move from the untried list (first
occurrence, like `list.remove`) and append the new child. -/
def MCTSNode.addChild (n : MCTSNode) (mv : Nat × Nat) (playerToMove : Cell)
    (untriedMoves : List (Nat × Nat)) : MCTSNode :=
  match n with
  | .mk m p u cs v w =>
    .mk m p (u.erase mv) (cs ++ [.mk (some mv) playerToMove untriedMoves [] 0 0]) v w

/-- The node reached from `n` by following a path of child indices. -/
def MCTSNode.getAt : MCTSNode → List Nat → Option MCTSNode
  | n, [] => some n
  | n, i :: is =>
    match n.children[i]? with
    | some c => c.getAt is
    | none => none

/-- Rebuild the tree with `f` applied to the node at `path` (used for
expansion, which mutates the selected node in place in the source). -/
def MCTSNode.modifyAt : MCTSNode → List Nat → (MCTSNode → MCTSNode) → MCTSNode
  | n, [], f => f n
  | .mk m p u cs v w, i :: is, f =>
    .mk m p u (cs.set i ((cs.getD i default).modifyAt is f)) v w

/-- `_backpropagate`: the source walks from the node at `path` up through
parent references to the root, calling `update(reward)` on every node of the
chain.  In path form that is: update every node on the path from the root
down to (and including) the target, with the same reward at every depth. -/
def backpropagate : MCTSNode → List Nat → ℚ → MCTSNode
  | n, [], reward => n.update reward
  | .mk m p u cs v w, i :: is, reward =>
    .mk m p u (cs.set i (backpropagate (cs.getD i default) is reward)) (v + 1) (w + reward)

/-- Values compared by `max(self.children, key=uct_score)`: `inf` is the
`float("inf")` returned for a zero-visit child. -/
inductive UctScore where
  | inf
  | val (q : ℚ)

/-- Strict comparison of scores, as used by Python's `max` (`inf > inf` is
false). -/
def UctScore.gtb : UctScore → UctScore → Bool
  | .inf, .inf => false
  | .inf, .val _ => true
  | .val _, .inf => false
  | .val a, .val b => a > b

/-- Python's `max(xs, key=f)`: scan left to right, replacing the current best
only when the key is strictly greater, so ties keep the earliest element. -/
def pyMaxBy {α β : Type} (key : α → β) (gt : β → β → Bool) : α → List α → α
  | best, [] => best
  | best, x :: xs =>
    if gt (key x) (key best) then pyMaxBy key gt x xs else pyMaxBy key gt best xs

/-- Strict `>` on naturals as a Bool, for `max(..., key=lambda c: c.visits)`. -/
def natGtb (a b : Nat) : Bool := b < a

/-- Abstraction of the floating-point transcendentals `math.log` and
`math.sqrt` used only inside the UCB1 formula.  The claims under verification
do not depend on their values (they require only that selection is a
deterministic function of the node statistics), so the engine is parametric
in them; the remaining UCB1 arithmetic is exact rational arithmetic. -/
structure FloatOps where
  flog : ℚ → ℚ
  fsqrt : ℚ → ℚ

/-- The UCB1 score of a child: `wins/visits + C·sqrt(2·ln(parent)/visits)`,
infinite for an unvisited child. -/
def uctScore (ops : FloatOps) (c logParent : ℚ) (child : MCTSNode) : UctScore :=
  if child.visits = 0 then .inf
  else .val (child.wins / child.visits + c * ops.fsqrt (2 * logParent / child.visits))

/-- `uct_select_child`, also returning the index of the chosen child.  The
source asserts `children ≠ []`; the `[]` case is unreachable under that
guard. -/
def MCTSNode.uctSelectIdx (ops : FloatOps) (c : ℚ) (n : MCTSNode) : Nat × MCTSNode :=
  let logParent := ops.flog (n.visits : ℚ)
  match n.children.enum with
  | [] => (0, default)
  | p :: ps => pyMaxBy (fun q : Nat × MCTSNode => uctScore ops c logParent q.2) UctScore.gtb p ps

/-- A deterministic random source threaded through the engine: `choiceIdx s n`
models `self.rng.choice` on a sequence of length `n`, returning the chosen
index (always `< n` for `n > 0`, as CPython's `_randbelow` guarantees)
together with the advanced generator state.  `mtRandSource` below instantiates
it with the exact CPython Mersenne Twister. -/
structure RandSource (σ : Type) where
  choiceIdx : σ → Nat → Nat × σ
  choiceIdx_lt : ∀ s n, 0 < n → (choiceIdx s n).1 < n

/-- The constructor configuration of `MCTSPlayer`. -/
structure MCTSConfig (σ : Type) where
  color : Cell
  iterations : Nat
  explorationConst : ℚ
  ops : FloatOps
  rand : RandSource σ

/-- The mutable attributes of an `MCTSPlayer` instance: the retained tree
root (`self.root`) and the random-generator state (`self.rng`). -/
structure MCTSState (σ : Type) where
  root : Option MCTSNode
  rng : σ

/-- `notify_move_played`: re-root onto the first child reached by the played
move, else discard the tree.  (Clearing the promoted child's parent pointer
is implicit here: the child subtree value itself becomes the root.) -/
def notifyMovePlayed {σ : Type} (st : MCTSState σ) (mv : Option (Nat × Nat)) :
    MCTSState σ :=
  match st.root, mv with
  | none, _ => { st with root := none }
  | some _, none => { st with root := none }
  | some r, some m =>
    match r.children.find? (fun c => c.move = some m) with
    | some c => { st with root := some c }
    | none => { st with root := none }

/-- Number of empty cells of a board. -/
def OthelloBoard.emptyCount (b : OthelloBoard) : Nat :=
  (coordList b.size).countP fun rc => b.getCell rc.1 rc.2 = Cell.empty

/-- Termination measure for the rollout loop: every non-pass ply removes an
empty cell, and a pass (current side has no move) is immediately followed by
a move or by loop exit. -/
def rolloutMeasure (board : OthelloBoard) (current : Cell) : Nat :=
  2 * board.emptyCount + (if board.getValidMoves current = [] then 1 else 0)

/-- The `while not board.is_game_over()` loop of `_rollout`, with explicit
fuel; returns the final board, the advanced random state and the number of
loop iterations (plies, passes included), or `none` if the fuel runs out
(shown impossible for well-formed boards in `rolloutLoop_total`). -/
def rolloutLoop {σ : Type} (cfg : MCTSConfig σ) :
    Nat → OthelloBoard → Cell → σ → Option (OthelloBoard × σ × Nat)
  | 0, _, _, _ => none
  | fuel + 1, board, current, s =>
    if board.isGameOver then some (board, s, 0)
    else
      let moves := board.getValidMoves current
      if moves ≠ [] then
        let pick := cfg.rand.choiceIdx s moves.length
        let mv := moves.getD pick.1 (0, 0)
        let board2 := (board.makeMove mv.1 mv.2 current).2
        match rolloutLoop cfg fuel board2 current.opponent pick.2 with
        | some (bf, sf, n) => some (bf, sf, n + 1)
        | none => none
      else if board.getValidMoves current.opponent ≠ [] then
        match rolloutLoop cfg fuel board current.opponent s with
        | some (bf, sf, n) => some (bf, sf, n + 1)
        | none => none
      else some (board, s, 1)

/-- The terminal reward of `_rollout`: 1 / 0 / ½ for win / loss / tie,
always measured for the engine's own fixed color. -/
def rolloutReward (color : Cell) (board : OthelloBoard) : ℚ :=
  let score := board.getScore
  if color = Cell.black then
    if score.1 > score.2 then 1 else if score.1 < score.2 then 0 else 1 / 2
  else
    if score.2 > score.1 then 1 else if score.2 < score.1 then 0 else 1 / 2

/-- `_rollout`: random playout to a terminal board, returning the reward and
the advanced random state.  Fuel `2·size² + 2` exceeds the maximum number of
loop iterations from any well-formed board (`rolloutLoop_total`). -/
def rollout {σ : Type} (cfg : MCTSConfig σ) (board : OthelloBoard) (current : Cell)
    (s : σ) : ℚ × σ :=
  match rolloutLoop cfg (2 * board.size * board.size + 2) board current s with
  | some (bf, sf, _) => (rolloutReward cfg.color bf, sf)
  | none => (0, s)

/-- The SELECTION phase: `while node.untried_moves == [] and node.children`,
descending via UCB1, applying each traversed move to the working board and
alternating the color to move.  The accumulated `path` addresses the current
node from the root.  Fuel bounds the descent depth; `sizeOf root` strictly
exceeds the length of any descending chain, so the `0` case is never taken
when called with that fuel. -/
def selectLoop (ops : FloatOps) (c : ℚ) :
    Nat → MCTSNode → List Nat → OthelloBoard → Cell →
      List Nat × MCTSNode × OthelloBoard × Cell
  | 0, node, path, board, player => (path, node, board, player)
  | fuel + 1, node, path, board, player =>
    if node.untried.isEmpty && !node.children.isEmpty then
      let pick := node.uctSelectIdx ops c
      let board2 := match pick.2.move with
        | some rc => (board.makeMove rc.1 rc.2 player).2
        | none => board
      selectLoop ops c fuel pick.2 (path ++ [pick.1]) board2 player.opponent
    else (path, node, board, player)

mutual

/-- The number of nodes of a tree: an upper bound (hence sufficient fuel)
for the length of any strictly descending selection chain. -/
def MCTSNode.treeSize : MCTSNode → Nat
  | .mk _ _ _ cs _ _ => 1 + treeSizeList cs

def treeSizeList : List MCTSNode → Nat
  | [] => 0
  | c :: cs => c.treeSize + treeSizeList cs

end

/-- One full MCTS iteration: selection, expansion (when the reached node has
untried moves), simulation, backpropagation. -/
def mctsIteration {σ : Type} (cfg : MCTSConfig σ) (board : OthelloBoard)
    (root : MCTSNode) (s : σ) : MCTSNode × σ :=
  let sel := selectLoop cfg.ops cfg.explorationConst root.treeSize root [] board cfg.color
  let path := sel.1
  let node := sel.2.1
  let simBoard := sel.2.2.1
  let player := sel.2.2.2
  if node.untried ≠ [] then
    let pick := cfg.rand.choiceIdx s node.untried.length
    let mv := node.untried.getD pick.1 (0, 0)
    let simBoard2 := (simBoard.makeMove mv.1 mv.2 player).2
    let nextPlayer := player.opponent
    let nextMoves := simBoard2.getValidMoves nextPlayer
    let childIdx := node.children.length
    let root2 := root.modifyAt path (fun n => n.addChild mv nextPlayer nextMoves)
    let sim := rollout cfg simBoard2 nextPlayer pick.2
    (backpropagate root2 (path ++ [childIdx]) sim.1, sim.2)
  else
    let sim := rollout cfg simBoard player s
    (backpropagate root path sim.1, sim.2)

/-- `best_child = max(root.children, key=lambda c: c.visits)`, `None` when
there are no children. -/
def bestMoveFrom (root : MCTSNode) : Option (Nat × Nat) :=
  match root.children with
  | [] => none
  | c :: cs => (pyMaxBy MCTSNode.visits natGtb c cs).move

/-- `choose_move`: returns the chosen move (or `None`), the updated engine
state, and the ordered list of `(done, total)` progress-callback calls. -/
def chooseMove {σ : Type} (cfg : MCTSConfig σ) (st : MCTSState σ)
    (board : OthelloBoard) : Option (Nat × Nat) × MCTSState σ × List (Nat × Nat) :=
  let rootMoves := board.getValidMoves cfg.color
  if rootMoves = [] then (none, st, [])
  else
    let root0 := match st.root with
      | none => MCTSNode.mk none cfg.color rootMoves [] 0 0
      | some r => r
    let remaining := cfg.iterations - root0.visits
    if remaining = 0 then
      (bestMoveFrom root0, { root := some root0, rng := st.rng },
        [(cfg.iterations, cfg.iterations)])
    else
      let final := (List.range remaining).foldl
        (fun (acc : MCTSNode × σ) _ => mctsIteration cfg board acc.1 acc.2) (root0, st.rng)
      (bestMoveFrom final.1, { root := some final.1, rng := final.2 },
        (List.range remaining).map fun i => (i + 1, remaining))

/-! ## CPython's Mersenne Twister (`random.Random`), modelled exactly

The 624-word generator state is packed into a single natural number, 32 bits
per word (word `i` occupies bits `32·i … 32·i+31`); this keeps kernel
evaluation of the concrete runs below shallow and fast while remaining a
bit-exact model of the C implementation. -/

/-- Word `i` of a packed state. -/
def mtGet (mt i : Nat) : Nat := (mt >>> (32 * i)) &&& 4294967295

/-- Replace word `i` of a packed state (the stored word is always `< 2³²`). -/
def mtSet (mt i v : Nat) : Nat := mt ^^^ ((mtGet mt i ^^^ v) <<< (32 * i))

/-- The packed generator state plus the output index. -/
structure MTState where
  mt : Nat
  index : Nat

/-- One step of `init_genrand`: append word
`mt[i] = 1812433253·(mt[i-1] ⊕ (mt[i-1] ≫ 30)) + i` (mod 2³²); the state is
the packed words so far paired with the previous word. -/
def mtInitStep (st : Nat × Nat) (i : Nat) : Nat × Nat :=
  let w := (1812433253 * (st.2 ^^^ (st.2 >>> 30)) + i) % 4294967296
  (st.1 ||| (w <<< (32 * i)), w)

/-- `init_genrand`: `mt[0] = s`, then the loop for `i = 1 … 623`. -/
def mtInitGenrand (s : Nat) : Nat :=
  ((List.range' 1 623).foldl mtInitStep (s % 4294967296, s % 4294967296)).1

/-- One step of the first mixing loop of `init_by_array`. -/
def mtMixStep1 (key : List Nat) (st : Nat × Nat × Nat) : Nat × Nat × Nat :=
  let mt := st.1
  let i := st.2.1
  let j := st.2.2
  let prev := mtGet mt (i - 1)
  let v := ((mtGet mt i) ^^^ ((prev ^^^ (prev >>> 30)) * 1664525)) + key.getD j 0 + j
  let mt2 := mtSet mt i (v % 4294967296)
  let i2 := i + 1
  let next := if i2 ≥ 624 then (mtSet mt2 0 (mtGet mt2 623), 1) else (mt2, i2)
  let j2 := if j + 1 ≥ key.length then 0 else j + 1
  (next.1, next.2, j2)

/-- One step of the second mixing loop of `init_by_array` (the `- i` is
32-bit unsigned subtraction). -/
def mtMixStep2 (st : Nat × Nat) : Nat × Nat :=
  let mt := st.1
  let i := st.2
  let prev := mtGet mt (i - 1)
  let v := ((mtGet mt i) ^^^ ((prev ^^^ (prev >>> 30)) * 1566083941)) + 4294967296 - i
  let mt2 := mtSet mt i (v % 4294967296)
  let i2 := i + 1
  if i2 ≥ 624 then (mtSet mt2 0 (mtGet mt2 623), 1) else (mt2, i2)

/-- `init_by_array`. -/
def mtInitByArray (key : List Nat) : Nat :=
  let k := max 624 key.length
  let first := (List.range k).foldl (fun st _ => mtMixStep1 key st) (mtInitGenrand 19650218, 1, 0)
  let second := (List.range 623).foldl (fun st _ => mtMixStep2 st) (first.1, first.2.1)
  mtSet second.1 0 2147483648

/-- Split a seed into 32-bit little-endian words (`[0]` for seed 0), as
`random.Random(int)` keys the generator. -/
def mtKeyAux : Nat → Nat → List Nat
  | 0, _ => []
  | fuel + 1, n => if n = 0 then [] else n % 4294967296 :: mtKeyAux fuel (n / 4294967296)

def mtKey (n : Nat) : List Nat :=
  if n = 0 then [0] else mtKeyAux (n + 1) n

/-- One step of the in-place twist (later entries read already-twisted
earlier entries, as in the C code). -/
def mtTwistStep (mt kk : Nat) : Nat :=
  let y := ((mtGet mt kk) &&& 2147483648) ||| ((mtGet mt ((kk + 1) % 624)) &&& 2147483647)
  let mag := if y % 2 = 1 then 2567483615 else 0
  mtSet mt kk ((mtGet mt ((kk + 397) % 624)) ^^^ (y >>> 1) ^^^ mag)

def mtTwist (mt : Nat) : Nat :=
  (List.range 624).foldl mtTwistStep mt

/-- The tempering of one 32-bit output. -/
def mtTemper (y : Nat) : Nat :=
  let y1 := y ^^^ (y >>> 11)
  let y2 := y1 ^^^ ((y1 <<< 7) &&& 2636928640)
  let y3 := y2 ^^^ ((y2 <<< 15) &&& 4022730752)
  (y3 ^^^ (y3 >>> 18)) &&& 4294967295

/-- `random.Random(seed)` for a non-negative integer seed.  CPython leaves
the fresh state untwisted with `index = 624`, so that the first draw performs
the first twist; here the first twist is performed eagerly at seeding time,
which generates the identical output stream (`mtGenrand_on_624`) while
keeping concrete evaluation shallow. -/
def mtSeed (seed : Nat) : MTState :=
  { mt := mtTwist (mtInitByArray (mtKey seed)), index := 0 }

/-- `genrand_uint32`. -/
def mtGenrand (st : MTState) : Nat × MTState :=
  let st2 := if st.index ≥ 624 then MTState.mk (mtTwist st.mt) 0 else st
  (mtTemper (mtGet st2.mt st2.index), MTState.mk st2.mt (st2.index + 1))

/-- `getrandbits(k)` for `1 ≤ k ≤ 32`. -/
def mtGetrandbits (st : MTState) (k : Nat) : Nat × MTState :=
  let g := mtGenrand st
  (g.1 >>> (32 - k), g.2)

/-- `int.bit_length`: 0 for 0, otherwise `⌊log₂ n⌋ + 1`, with structural
fuel (`n` halvings always suffice). -/
def bitLenAux : Nat → Nat → Nat
  | 0, _ => 0
  | fuel + 1, n => if n = 0 then 0 else bitLenAux fuel (n / 2) + 1

def bitLen (n : Nat) : Nat := bitLenAux (n + 1) n

/-- `_randbelow_with_getrandbits`: draw `bit_length(n)` bits, rejecting
values `≥ n`.  The rejection loop carries fuel; each round rejects with
probability `< 1/2`, so fuel 64 is never exhausted in the concrete runs
below (the fallback 0 keeps the `< n` bound). -/
def mtRandbelow : Nat → MTState → Nat → Nat × MTState
  | 0, st, _ => (0, st)
  | fuel + 1, st, n =>
    if n = 0 then (0, st)
    else
      let g := mtGetrandbits st (bitLen n)
      if g.1 < n then g else mtRandbelow fuel g.2 n

theorem mtRandbelow_lt : ∀ (fuel : Nat) (st : MTState) (n : Nat), 0 < n →
    (mtRandbelow fuel st n).1 < n
  | 0, _, _, hn => hn
  | fuel + 1, st, n, hn => by
    unfold mtRandbelow
    rw [if_neg (by omega)]
    by_cases hlt : (mtGetrandbits st (bitLen n)).1 < n
    · rw [if_pos hlt]
      exact hlt
    · rw [if_neg hlt]
      exact mtRandbelow_lt fuel _ n hn

/-- `self.rng.choice` on a sequence of length `n`, as a `RandSource`. -/
def mtRandSource : RandSource MTState :=
  { choiceIdx := fun st n => mtRandbelow 64 st n
    choiceIdx_lt := fun st n hn => mtRandbelow_lt 64 st n hn }

/-- An `MCTSPlayer(color, iterations, seed=seed)` configuration: the seeded
CPython Mersenne Twister, the default exploration constant `1.4`, and
abstracted float transcendentals (not exercised by any run proven here,
since every concrete run below stays within the expansion phase). -/
def mtConfig (color : Cell) (iterations : Nat) : MCTSConfig MTState :=
  { color := color
    iterations := iterations
    explorationConst := 7 / 5
    ops := { flog := id, fsqrt := id }
    rand := mtRandSource }

/-- The freshly constructed engine state (`root = None`, seeded rng). -/
def freshState (seed : Nat) : MCTSState MTState :=
  { root := none, rng := mtSeed seed }

/-- Spec-side tie-break for claim C1, from the claim's words: among the root
children sharing the highest visit count, the move that comes first in
canonical (row-major) order. -/
def rowMajorLtb (a b : Nat × Nat) : Bool :=
  a.1 < b.1 || (a.1 = b.1 && a.2 < b.2)

def specRowMajorTieBreak (children : List MCTSNode) : Option (Nat × Nat) :=
  let maxV := (children.map MCTSNode.visits).foldl max 0
  let tied := children.filterMap fun c => if c.visits = maxV then c.move else none
  tied.foldl (fun acc mv =>
    match acc with
    | none => some mv
    | some m => if rowMajorLtb mv m then some mv else some m) none

end Othello

namespace Othello

/-! ### Basic cell/grid lemmas -/

theorem getCell_setCell_ne (b : OthelloBoard) (r c r' c' : Nat) (v : Cell)
    (h : (r', c') ≠ (r, c)) : (b.setCell r c v).getCell r' c' = b.getCell r' c' := by
  unfold OthelloBoard.setCell OthelloBoard.getCell
  simp only [List.getD_eq_getElem?_getD]
  rcases eq_or_ne r' r with rfl | hr
  · have hc : c' ≠ c := by
      intro hcc
      exact h (by simp [hcc])
    by_cases hr : r' < b.board.length
    · rw [List.getElem?_set_self hr]
      simp only [Option.getD_some]
      rw [List.getElem?_set_ne (Ne.symm hc)]
    · rw [List.set_eq_of_length_le (by omega)]
  · rw [List.getElem?_set_ne (Ne.symm hr)]

theorem getCell_setCell_self (b : OthelloBoard) (r c : Nat) (v : Cell)
    (hr : r < b.board.length) (hc : c < (b.board.getD r []).length) :
    (b.setCell r c v).getCell r c = v := by
  unfold OthelloBoard.setCell OthelloBoard.getCell
  simp only [List.getD_eq_getElem?_getD] at hc ⊢
  rw [List.getElem?_set_self hr]
  simp only [Option.getD_some]
  rw [List.getElem?_set_self]
  · simp
  · exact hc

theorem getCell_setCell_cases (b : OthelloBoard) (r c r' c' : Nat) (v : Cell) :
    (b.setCell r c v).getCell r' c' = b.getCell r' c' ∨
      (b.setCell r c v).getCell r' c' = v := by
  by_cases h : (r', c') = (r, c)
  · obtain ⟨rfl, rfl⟩ := Prod.mk.injEq .. ▸ h
    by_cases hr : r' < b.board.length
    · by_cases hc : c' < (b.board.getD r' []).length
      · exact Or.inr (getCell_setCell_self b r' c' v hr hc)
      · left
        have hrow : (b.board.getD r' []).set c' v = b.board.getD r' [] :=
          List.set_eq_of_length_le (by omega)
        unfold OthelloBoard.setCell OthelloBoard.getCell
        rw [hrow]
        simp only [List.getD_eq_getElem?_getD]
        rw [List.getElem?_set_self hr]
        simp
    · left
      unfold OthelloBoard.setCell OthelloBoard.getCell
      rw [List.set_eq_of_length_le (by omega)]
  · exact Or.inl (getCell_setCell_ne b r c r' c' v h)

theorem OthelloBoard.WF.setCell_wf {b : OthelloBoard} (hb : b.WF) (r c : Nat) (v : Cell) :
    (b.setCell r c v).WF := by
  obtain ⟨hlen, hrows⟩ := hb
  constructor
  · simpa [OthelloBoard.setCell] using hlen
  · intro row hrow
    show row.length = b.size
    simp only [OthelloBoard.setCell] at hrow
    by_cases hr : r < b.board.length
    · rcases List.mem_or_eq_of_mem_set hrow with h | rfl
      · exact hrows _ h
      · rw [List.length_set]
        have : b.board.getD r [] = b.board[r] := by
          rw [List.getD_eq_getElem?_getD, List.getElem?_eq_getElem hr]
          rfl
        rw [this]
        exact hrows _ (List.getElem_mem hr)
    · rw [List.set_eq_of_length_le (by omega)] at hrow
      exact hrows _ hrow

/-! ### Counting lemmas for the disc tally -/

theorem countP_le_of_agree (p q : Nat × Nat → Bool) (x : Nat × Nat) :
    ∀ l : List (Nat × Nat), (∀ y ∈ l, y ≠ x → p y = q y) →
      l.countP p ≤ l.countP q + l.count x
  | [], _ => by simp
  | a :: t, h => by
    have ht := countP_le_of_agree p q x t fun y hy => h y (List.mem_cons_of_mem a hy)
    rw [List.countP_cons, List.countP_cons, List.count_cons]
    by_cases hax : a = x
    · have hone : (if (a == x) = true then 1 else 0) = 1 := by simp [hax]
      rw [hone]
      split <;> split <;> omega
    · rw [show p a = q a from h a (List.mem_cons_self a t) hax]
      have hbeq : (a == x) = false := by simpa using hax
      rw [hbeq]
      split <;> omega

theorem countP_add_countP_disjoint (p q : α → Bool) (hpq : ∀ a, ¬(p a = true ∧ q a = true)) :
    ∀ l : List α, l.countP p + l.countP q = l.countP fun a => p a || q a
  | [] => by simp
  | a :: t => by
    have ht := countP_add_countP_disjoint p q hpq t
    rw [List.countP_cons, List.countP_cons, List.countP_cons]
    have := hpq a
    by_cases hp : p a <;> by_cases hq : q a <;> simp_all <;> omega

theorem mem_coordList {n : Nat} {x : Nat × Nat} :
    x ∈ coordList n ↔ x.1 < n ∧ x.2 < n := by
  unfold coordList
  simp only [List.mem_flatMap, List.mem_map, List.mem_range]
  constructor
  · rintro ⟨r, hr, c, hc, rfl⟩
    exact ⟨hr, hc⟩
  · rintro ⟨h1, h2⟩
    exact ⟨x.1, h1, x.2, h2, rfl⟩

theorem coordList_nodup (n : Nat) : (coordList n).Nodup := by
  unfold coordList
  rw [List.nodup_flatMap]
  constructor
  · intro r _
    exact (List.nodup_range n).map fun a b hab => by simpa using hab
  · refine (List.pairwise_lt_range n).imp ?_
    intro r1 r2 hlt y hy1 hy2
    simp only [List.mem_map, List.mem_range] at hy1 hy2
    obtain ⟨c1, _, rfl⟩ := hy1
    obtain ⟨c2, _, h⟩ := hy2
    have : r1 = r2 := by simpa using congrArg Prod.fst h.symm
    omega

theorem count_le_one_of_nodup {α} [BEq α] [LawfulBEq α] {l : List α} (h : l.Nodup) (x : α) :
    l.count x ≤ 1 := by
  induction l with
  | nil => simp
  | cons a t ih =>
    rcases List.nodup_cons.mp h with ⟨hna, hnd⟩
    rw [List.count_cons]
    have ht := ih hnd
    by_cases hx : a = x
    · have hz : t.count x = 0 := List.count_eq_zero.mpr (hx ▸ hna)
      split <;> omega
    · have hbeq : (a == x) = false := by simpa using hx
      rw [hbeq]
      simpa using ht

theorem count_coordList_le_one (n : Nat) (x : Nat × Nat) : (coordList n).count x ≤ 1 :=
  count_le_one_of_nodup (coordList_nodup n) x

/-! ### The directional scan -/

theorem discsWalk_zero (b : OthelloBoard) (color : Cell) (dr dc r0 c0 : Int)
    (acc : List (Int × Int)) : b.discsWalk color dr dc 0 r0 c0 acc = [] := rfl

theorem discsWalk_succ (b : OthelloBoard) (color : Cell) (dr dc : Int) (fuel : Nat)
    (r0 c0 : Int) (acc : List (Int × Int)) :
    b.discsWalk color dr dc (fuel + 1) r0 c0 acc =
      if b.inBounds r0 c0 then
        if b.getCellI r0 c0 = Cell.empty then []
        else if b.getCellI r0 c0 = color then acc
        else b.discsWalk color dr dc fuel (r0 + dr) (c0 + dc) (acc ++ [(r0, c0)])
      else [] := rfl

theorem cell_ne_iff {cell color : Cell} (hcol : color ≠ Cell.empty) :
    (cell ≠ Cell.empty ∧ cell ≠ color) ↔ cell = color.opponent := by
  cases cell <;> cases color <;> simp_all [Cell.opponent]

theorem opponent_ne_empty {color : Cell} (hcol : color ≠ Cell.empty) :
    color.opponent ≠ Cell.empty := by
  cases color <;> simp_all [Cell.opponent]

theorem opponent_ne_self {color : Cell} (hcol : color ≠ Cell.empty) :
    color.opponent ≠ color := by
  cases color <;> simp_all [Cell.opponent]

theorem walk_color_empty (b : OthelloBoard) (dr dc : Int) :
    ∀ (fuel : Nat) (r0 c0 : Int) (acc : List (Int × Int)),
      b.discsWalk Cell.empty dr dc fuel r0 c0 acc = [] := by
  intro fuel
  induction fuel with
  | zero => intro r0 c0 acc; rfl
  | succ f ih =>
    intro r0 c0 acc
    rw [discsWalk_succ]
    by_cases hb : b.inBounds r0 c0 = true
    · rw [if_pos hb]
      by_cases he : b.getCellI r0 c0 = Cell.empty
      · rw [if_pos he]
      · rw [if_neg he, if_neg he, ih]
    · rw [if_neg (by simpa using hb)]

theorem walk_found (b : OthelloBoard) (color : Cell) (hcol : color ≠ Cell.empty) (dr dc : Int) :
    ∀ (m fuel : Nat) (r0 c0 : Int) (acc : List (Int × Int)), m < fuel →
      WalkSpec b color dr dc r0 c0 m →
      b.discsWalk color dr dc fuel r0 c0 acc =
        acc ++ (List.range m).map fun i : Nat =>
          ((r0 + (i : Int) * dr, c0 + (i : Int) * dc) : Int × Int) := by
  intro m
  induction m with
  | zero =>
    intro fuel r0 c0 acc hf hspec
    obtain ⟨_, hin, hcell⟩ := hspec
    simp only [Nat.cast_zero, zero_mul, add_zero] at hin hcell
    obtain ⟨f, rfl⟩ : ∃ f, fuel = f + 1 := ⟨fuel - 1, by omega⟩
    rw [discsWalk_succ, if_pos hin, if_neg (by rw [hcell]; exact hcol), if_pos hcell]
    simp
  | succ m ih =>
    intro fuel r0 c0 acc hf hspec
    obtain ⟨f, rfl⟩ : ∃ f, fuel = f + 1 := ⟨fuel - 1, by omega⟩
    have h0 := hspec.1 0 (Nat.succ_pos m)
    simp only [Nat.cast_zero, zero_mul, add_zero] at h0
    obtain ⟨hin0, hne0, hnc0⟩ := h0
    have hshift : WalkSpec b color dr dc (r0 + dr) (c0 + dc) m := by
      obtain ⟨hall, hin, hcell⟩ := hspec
      have epos : ∀ i : Nat, (r0 + dr + (i : Int) * dr, c0 + dc + (i : Int) * dc) =
          (r0 + ((i + 1 : Nat) : Int) * dr, c0 + ((i + 1 : Nat) : Int) * dc) := by
        intro i
        simp only [Prod.mk.injEq]
        push_cast
        constructor <;> ring
      refine ⟨fun i hi => ?_, ?_, ?_⟩
      · have h := hall (i + 1) (by omega)
        have e := congrArg Prod.fst (epos i)
        have e2 := congrArg Prod.snd (epos i)
        simp only at e e2
        rw [e, e2]
        exact h
      · have e := congrArg Prod.fst (epos m)
        have e2 := congrArg Prod.snd (epos m)
        simp only at e e2
        rw [e, e2]
        exact hin
      · have e := congrArg Prod.fst (epos m)
        have e2 := congrArg Prod.snd (epos m)
        simp only at e e2
        rw [e, e2]
        exact hcell
    rw [discsWalk_succ, if_pos hin0, if_neg hne0, if_neg hnc0,
      ih f (r0 + dr) (c0 + dc) (acc ++ [(r0, c0)]) (by omega) hshift]
    rw [List.range_succ_eq_map, List.map_cons, List.map_map]
    simp only [Nat.cast_zero, zero_mul, add_zero, List.append_assoc, List.singleton_append]
    congr 1
    congr 1
    apply List.map_congr_left
    intro i _
    simp only [Function.comp_apply, Prod.mk.injEq]
    push_cast
    constructor <;> ring

theorem walk_terminated (b : OthelloBoard) (color : Cell) (dr dc : Int) :
    ∀ (fuel : Nat) (r0 c0 : Int) (acc : List (Int × Int)),
      b.discsWalk color dr dc fuel r0 c0 acc ≠ [] →
      ∃ m : Nat, WalkSpec b color dr dc r0 c0 m ∧ (m = 0 → acc ≠ []) := by
  intro fuel
  induction fuel with
  | zero => intro r0 c0 acc h; exact absurd (discsWalk_zero b color dr dc r0 c0 acc) h
  | succ f ih =>
    intro r0 c0 acc h
    rw [discsWalk_succ] at h
    by_cases hb : b.inBounds r0 c0 = true
    · rw [if_pos hb] at h
      by_cases he : b.getCellI r0 c0 = Cell.empty
      · rw [if_pos he] at h
        exact absurd rfl h
      · rw [if_neg he] at h
        by_cases hc : b.getCellI r0 c0 = color
        · rw [if_pos hc] at h
          refine ⟨0, ⟨fun i hi => absurd hi (Nat.not_lt_zero i), ?_, ?_⟩, fun _ => h⟩
          · simpa using hb
          · simpa using hc
        · rw [if_neg hc] at h
          obtain ⟨m, hm, _⟩ := ih (r0 + dr) (c0 + dc) (acc ++ [(r0, c0)]) h
          have epos : ∀ i : Nat, (r0 + dr + (i : Int) * dr, c0 + dc + (i : Int) * dc) =
              (r0 + ((i + 1 : Nat) : Int) * dr, c0 + ((i + 1 : Nat) : Int) * dc) := by
            intro i
            simp only [Prod.mk.injEq]
            push_cast
            constructor <;> ring
          refine ⟨m + 1, ⟨fun i hi => ?_, ?_, ?_⟩, by omega⟩
          · cases i with
            | zero => simpa using ⟨hb, he, hc⟩
            | succ j =>
              have h' := hm.1 j (by omega)
              have e := congrArg Prod.fst (epos j)
              have e2 := congrArg Prod.snd (epos j)
              simp only at e e2
              rw [e, e2] at h'
              exact h'
          · have h' := hm.2.1
            have e := congrArg Prod.fst (epos m)
            have e2 := congrArg Prod.snd (epos m)
            simp only at e e2
            rw [e, e2] at h'
            exact h'
          · have h' := hm.2.2
            have e := congrArg Prod.fst (epos m)
            have e2 := congrArg Prod.snd (epos m)
            simp only at e e2
            rw [e, e2] at h'
            exact h'
    · rw [if_neg (by simpa using hb)] at h
      exact absurd rfl h

theorem walk_sound (b : OthelloBoard) (color : Cell) (dr dc : Int) :
    ∀ (fuel : Nat) (r0 c0 : Int) (acc : List (Int × Int)) (x : Int × Int),
      x ∈ b.discsWalk color dr dc fuel r0 c0 acc →
      x ∈ acc ∨ (b.inBounds x.1 x.2 = true ∧ b.getCellI x.1 x.2 ≠ Cell.empty ∧
        b.getCellI x.1 x.2 ≠ color) := by
  intro fuel
  induction fuel with
  | zero =>
    intro r0 c0 acc x hx
    rw [discsWalk_zero] at hx
    cases hx
  | succ f ih =>
    intro r0 c0 acc x hx
    rw [discsWalk_succ] at hx
    by_cases hb : b.inBounds r0 c0 = true
    · rw [if_pos hb] at hx
      by_cases he : b.getCellI r0 c0 = Cell.empty
      · rw [if_pos he] at hx
        cases hx
      · rw [if_neg he] at hx
        by_cases hc : b.getCellI r0 c0 = color
        · rw [if_pos hc] at hx
          exact Or.inl hx
        · rw [if_neg hc] at hx
          rcases ih (r0 + dr) (c0 + dc) (acc ++ [(r0, c0)]) x hx with hmem | hP
          · rcases List.mem_append.mp hmem with h1 | h2
            · exact Or.inl h1
            · have : x = (r0, c0) := by simpa using h2
              subst this
              exact Or.inr ⟨hb, he, hc⟩
          · exact Or.inr hP
    · rw [if_neg (by simpa using hb)] at hx
      cases hx

theorem discCount_setCell_le (b : OthelloBoard) (r c : Nat) (v : Cell) :
    (b.setCell r c v).discCount ≤ b.discCount + 1 := by
  have hdisj : ∀ bb : OthelloBoard, bb.discCount =
      (coordList bb.size).countP fun rc =>
        (bb.getCell rc.1 rc.2 = Cell.black) || (bb.getCell rc.1 rc.2 = Cell.white) := by
    intro bb
    unfold OthelloBoard.discCount OthelloBoard.getScore
    exact countP_add_countP_disjoint _ _ (by intro a; cases h : bb.getCell a.1 a.2 <;> simp [h]) _
  rw [hdisj, hdisj]
  have hsz : (b.setCell r c v).size = b.size := rfl
  rw [hsz]
  calc ((coordList b.size).countP fun rc =>
          ((b.setCell r c v).getCell rc.1 rc.2 = Cell.black) ||
          ((b.setCell r c v).getCell rc.1 rc.2 = Cell.white))
      ≤ ((coordList b.size).countP fun rc =>
          (b.getCell rc.1 rc.2 = Cell.black) || (b.getCell rc.1 rc.2 = Cell.white)) +
          (coordList b.size).count (r, c) := by
        apply countP_le_of_agree
        intro y _ hy
        rw [getCell_setCell_ne b r c y.1 y.2 v (by simpa using hy)]
    _ ≤ _ := by have := count_coordList_le_one b.size (r, c); omega


theorem int_shift (r0 dr : Int) (i : Nat) :
    r0 + dr + (i : Int) * dr = r0 + ((i + 1 : Nat) : Int) * dr := by
  push_cast
  ring

theorem dir_step_bound (b : OthelloBoard) {d : Int × Int} (hd : d ∈ directions)
    {row col : Nat} (hr : row < b.size) (hc : col < b.size) {k : Nat}
    (hin : b.inBounds ((row : Int) + ((k : Int) + 1) * d.1)
      ((col : Int) + ((k : Int) + 1) * d.2) = true) :
    k + 1 ≤ b.size := by
  simp only [OthelloBoard.inBounds, Bool.and_eq_true, decide_eq_true_eq] at hin
  fin_cases hd <;> simp only at hin <;> omega

theorem discsToFlipInDirection_ne_nil_iff (b : OthelloBoard) {color : Cell}
    (hcol : color ≠ Cell.empty) {row col : Nat} (hr : row < b.size) (hc : col < b.size)
    {d : Int × Int} (hd : d ∈ directions) :
    b.discsToFlipInDirection row col color d.1 d.2 ≠ [] ↔
      ∃ k : Nat, 1 ≤ k ∧
        (∀ j : Nat, 1 ≤ j → j ≤ k →
          b.inBounds ((row : Int) + j * d.1) ((col : Int) + j * d.2) = true ∧
          b.getCellI ((row : Int) + j * d.1) ((col : Int) + j * d.2) = color.opponent) ∧
        b.inBounds ((row : Int) + (k + 1) * d.1) ((col : Int) + (k + 1) * d.2) = true ∧
        b.getCellI ((row : Int) + (k + 1) * d.1) ((col : Int) + (k + 1) * d.2) = color := by
  unfold OthelloBoard.discsToFlipInDirection
  constructor
  · intro h
    obtain ⟨m, hspec, hm0⟩ := walk_terminated b color d.1 d.2 (b.size + 1)
      ((row : Int) + d.1) ((col : Int) + d.2) [] h
    have hm : 1 ≤ m := by
      rcases Nat.eq_zero_or_pos m with rfl | h1
      · exact absurd rfl (hm0 rfl)
      · exact h1
    refine ⟨m, hm, fun j hj1 hjm => ?_, ?_, ?_⟩
    · obtain ⟨i, rfl⟩ : ∃ i, j = i + 1 := ⟨j - 1, by omega⟩
      have h' := hspec.1 i (by omega)
      rw [int_shift ((row : Int)) d.1 i, int_shift ((col : Int)) d.2 i] at h'
      obtain ⟨hb', hne, hnc⟩ := h'
      refine ⟨by push_cast at hb' ⊢; exact hb', ?_⟩
      have := (cell_ne_iff hcol).mp ⟨hne, hnc⟩
      push_cast at this ⊢
      exact this
    · have h' := hspec.2.1
      rw [int_shift ((row : Int)) d.1 m, int_shift ((col : Int)) d.2 m] at h'
      push_cast at h' ⊢
      exact h'
    · have h' := hspec.2.2
      rw [int_shift ((row : Int)) d.1 m, int_shift ((col : Int)) d.2 m] at h'
      push_cast at h' ⊢
      exact h'
  · rintro ⟨k, hk1, hall, hin, hcell⟩
    have hspec : WalkSpec b color d.1 d.2 ((row : Int) + d.1) ((col : Int) + d.2) k := by
      refine ⟨fun i hi => ?_, ?_, ?_⟩
      · have h' := hall (i + 1) (by omega) (by omega)
        rw [int_shift ((row : Int)) d.1 i, int_shift ((col : Int)) d.2 i]
        obtain ⟨hb', hcell'⟩ := h'
        refine ⟨by push_cast at hb' ⊢; exact hb', ?_, ?_⟩
        · have hne := opponent_ne_empty hcol
          push_cast at hcell' ⊢
          rw [hcell']
          exact hne
        · have hns := opponent_ne_self hcol
          push_cast at hcell' ⊢
          rw [hcell']
          exact hns
      · rw [int_shift ((row : Int)) d.1 k, int_shift ((col : Int)) d.2 k]
        push_cast at hin ⊢
        exact hin
      · rw [int_shift ((row : Int)) d.1 k, int_shift ((col : Int)) d.2 k]
        push_cast at hcell ⊢
        exact hcell
    have hbound : k + 1 ≤ b.size :=
      dir_step_bound b hd hr hc (by push_cast at hin ⊢; exact hin)
    rw [walk_found b color hcol d.1 d.2 k (b.size + 1) _ _ [] (by omega) hspec]
    simp only [List.nil_append, ne_eq, List.map_eq_nil_iff, List.range_eq_nil]
    omega

theorem discsToFlip_color_empty (b : OthelloBoard) (row col : Nat) :
    b.discsToFlip row col Cell.empty = [] := by
  unfold OthelloBoard.discsToFlip
  split
  · rfl
  · rw [List.flatMap_eq_nil_iff]
    intro d _
    exact walk_color_empty b d.1 d.2 (b.size + 1) _ _ []

theorem discsToFlip_sound (b : OthelloBoard) (color : Cell) (row col : Nat) :
    ∀ x ∈ b.discsToFlip row col color,
      b.inBounds x.1 x.2 = true ∧ b.getCellI x.1 x.2 ≠ Cell.empty ∧
        b.getCellI x.1 x.2 ≠ color := by
  intro x hx
  unfold OthelloBoard.discsToFlip at hx
  split at hx
  · cases hx
  · obtain ⟨d, _, hmem⟩ := List.mem_flatMap.mp hx
    rcases walk_sound b color d.1 d.2 (b.size + 1) _ _ [] x hmem with h | h
    · cases h
    · exact h

theorem mem_getValidMoves {b : OthelloBoard} {color : Cell} {x : Nat × Nat} :
    x ∈ b.getValidMoves color ↔
      x.1 < b.size ∧ x.2 < b.size ∧ b.isValidMove x.1 x.2 color = true := by
  unfold OthelloBoard.getValidMoves
  simp only [List.mem_flatMap, List.mem_filterMap, List.mem_range]
  constructor
  · rintro ⟨r, hr, c, hc, hx⟩
    by_cases hv : b.isValidMove r c color = true
    · rw [if_pos hv] at hx
      cases hx
      exact ⟨hr, hc, hv⟩
    · rw [if_neg hv] at hx
      cases hx
  · rintro ⟨h1, h2, h3⟩
    exact ⟨x.1, h1, x.2, h2, by rw [if_pos h3]⟩

theorem getValidMoves_pairwise (b : OthelloBoard) (color : Cell) :
    List.Pairwise rowMajorLt (b.getValidMoves color) := by
  unfold OthelloBoard.getValidMoves
  rw [List.pairwise_flatMap]
  constructor
  · intro r _
    rw [List.pairwise_filterMap]
    refine (List.pairwise_lt_range b.size).imp ?_
    intro c1 c2 hlt x hx y hy
    split at hx
    · cases hx
      split at hy
      · cases hy
        exact Or.inr ⟨rfl, hlt⟩
      · cases hy
    · cases hx
  · refine (List.pairwise_lt_range b.size).imp ?_
    intro r1 r2 hlt x hx y hy
    rw [List.mem_filterMap] at hx hy
    obtain ⟨c1, _, hx'⟩ := hx
    obtain ⟨c2, _, hy'⟩ := hy
    have hx1 : x.1 = r1 := by
      split at hx' <;> cases hx' <;> rfl
    have hy1 : y.1 = r2 := by
      split at hy' <;> cases hy' <;> rfl
    exact Or.inl (by omega)

/-- C2: `get_valid_moves(color)` returns exactly the board coordinates that
are empty and admit, in at least one of the 8 directions, a run of one or
more opposing discs immediately followed by an own-color disc with no gap and
no board edge in between; the returned list is in strictly increasing
row-major order. -/
theorem getValidMoves_correct (b : OthelloBoard) (color : Cell)
    (hcol : color ≠ Cell.empty) :
    (∀ x : Nat × Nat, x ∈ b.getValidMoves color ↔
        x.1 < b.size ∧ x.2 < b.size ∧ SpecValidMove b x.1 x.2 color) ∧
      List.Pairwise rowMajorLt (b.getValidMoves color) := by
  refine ⟨fun x => ?_, getValidMoves_pairwise b color⟩
  rw [mem_getValidMoves]
  constructor
  · rintro ⟨h1, h2, h3⟩
    refine ⟨h1, h2, ?_⟩
    unfold OthelloBoard.isValidMove at h3
    have hne : b.discsToFlip x.1 x.2 color ≠ [] := by
      intro hnil
      rw [hnil] at h3
      simp at h3
    unfold OthelloBoard.discsToFlip at hne
    by_cases hocc : b.getCell x.1 x.2 = Cell.empty
    · rw [if_neg (by simpa using hocc)] at hne
      have hex : ∃ d ∈ directions,
          b.discsToFlipInDirection x.1 x.2 color d.1 d.2 ≠ [] := by
        by_contra hall
        push_neg at hall
        exact hne (List.flatMap_eq_nil_iff.mpr hall)
      obtain ⟨d, hd, hdne⟩ := hex
      exact ⟨hocc, d, hd,
        (discsToFlipInDirection_ne_nil_iff b hcol h1 h2 hd).mp hdne⟩
    · rw [if_pos (by simpa using hocc)] at hne
      exact absurd rfl hne
  · rintro ⟨h1, h2, hemp, d, hd, hk⟩
    refine ⟨h1, h2, ?_⟩
    unfold OthelloBoard.isValidMove
    have hdne : b.discsToFlipInDirection x.1 x.2 color d.1 d.2 ≠ [] :=
      (discsToFlipInDirection_ne_nil_iff b hcol h1 h2 hd).mpr hk
    have hne : b.discsToFlip x.1 x.2 color ≠ [] := by
      unfold OthelloBoard.discsToFlip
      rw [if_neg (by simpa using hemp)]
      intro hnil
      exact hdne (List.flatMap_eq_nil_iff.mp hnil d hd)
    simpa [Nat.pos_iff_ne_zero, List.length_eq_zero] using hne

/-- Witness for `getValidMoves_correct` at the 4×4 initial board, black to
move: `(0, 1)` is among the moves and the list is row-major sorted. -/
theorem getValidMoves_correct_witness :
    Cell.black ≠ Cell.empty ∧
      (((0, 1) : Nat × Nat) ∈ (OthelloBoard.init 4).getValidMoves Cell.black ↔
        0 < (OthelloBoard.init 4).size ∧ 1 < (OthelloBoard.init 4).size ∧
          SpecValidMove (OthelloBoard.init 4) 0 1 Cell.black) ∧
      List.Pairwise rowMajorLt ((OthelloBoard.init 4).getValidMoves Cell.black) :=
  ⟨by decide,
    (getValidMoves_correct (OthelloBoard.init 4) Cell.black (by decide)).1 (0, 1),
    (getValidMoves_correct (OthelloBoard.init 4) Cell.black (by decide)).2⟩


theorem OthelloBoard.WF.row_length {b : OthelloBoard} (hwf : b.WF) {row : Nat} (hr : row < b.size) :
    (b.board.getD row []).length = b.size := by
  obtain ⟨hlen, hrows⟩ := hwf
  have hr' : row < b.board.length := by omega
  rw [List.getD_eq_getElem?_getD, List.getElem?_eq_getElem hr']
  exact hrows _ (List.getElem_mem hr')

theorem getCell_foldl_setCell (color : Cell) :
    ∀ (l : List (Int × Int)) (b0 : OthelloBoard) (r c : Nat), b0.getCell r c = color →
      (l.foldl (fun acc rc => acc.setCell rc.1.toNat rc.2.toNat color) b0).getCell r c =
        color
  | [], b0, r, c, h => h
  | a :: t, b0, r, c, h => by
    rw [List.foldl_cons]
    apply getCell_foldl_setCell color t
    rcases getCell_setCell_cases b0 a.1.toNat a.2.toNat r c color with h' | h'
    · rw [h', h]
    · exact h'

theorem foldl_setCell_changed (color : Cell) :
    ∀ (l : List (Int × Int)) (b0 : OthelloBoard) (r c : Nat),
      (l.foldl (fun acc rc => acc.setCell rc.1.toNat rc.2.toNat color) b0).getCell r c ≠
          b0.getCell r c →
      ∃ rc ∈ l, (rc.1.toNat, rc.2.toNat) = (r, c)
  | [], b0, r, c, h => absurd rfl h
  | a :: t, b0, r, c, h => by
    by_cases ha : ((a.1.toNat, a.2.toNat) : Nat × Nat) = (r, c)
    · exact ⟨a, List.mem_cons_self a t, ha⟩
    · rw [List.foldl_cons] at h
      have hpres := getCell_setCell_ne b0 a.1.toNat a.2.toNat r c color
        (fun hrc => ha (by simpa using hrc.symm))
      have h' : (t.foldl (fun acc rc => acc.setCell rc.1.toNat rc.2.toNat color)
          (b0.setCell a.1.toNat a.2.toNat color)).getCell r c ≠
          (b0.setCell a.1.toNat a.2.toNat color).getCell r c := by
        rw [hpres]
        exact h
      obtain ⟨rc, hrc, heq⟩ := foldl_setCell_changed color t _ r c h'
      exact ⟨rc, List.mem_cons_of_mem a hrc, heq⟩

theorem discCount_foldl_setCell_le (color : Cell) :
    ∀ (l : List (Int × Int)) (b0 : OthelloBoard),
      (l.foldl (fun acc rc => acc.setCell rc.1.toNat rc.2.toNat color) b0).discCount ≤
        b0.discCount + l.length
  | [], b0 => Nat.le_refl _
  | a :: t, b0 => by
    rw [List.foldl_cons]
    have h1 := discCount_foldl_setCell_le color t (b0.setCell a.1.toNat a.2.toNat color)
    have h2 := discCount_setCell_le b0 a.1.toNat a.2.toNat color
    simp only [List.length_cons]
    omega

theorem discsToFlip_eq_nil_iff (b : OthelloBoard) (row col : Nat) (color : Cell) :
    b.discsToFlip row col color = [] ↔
      b.getCell row col ≠ Cell.empty ∨
        ∀ d ∈ directions, b.discsToFlipInDirection row col color d.1 d.2 = [] := by
  unfold OthelloBoard.discsToFlip
  by_cases hocc : b.getCell row col = Cell.empty
  · rw [if_neg (by simpa using hocc)]
    rw [List.flatMap_eq_nil_iff]
    constructor
    · exact Or.inr
    · rintro (h | h)
      · exact absurd hocc h
      · exact h
  · rw [if_pos (by simpa using hocc)]
    constructor
    · intro _
      exact Or.inl hocc
    · intro _
      rfl

/-- C3: for an in-bounds coordinate, `make_move` returns `False` and leaves
every cell unchanged exactly when the target cell is occupied or no direction
yields at least one flip; otherwise it returns `True` and mutates the
board. -/
theorem makeMove_failure_iff (b : OthelloBoard) (hwf : b.WF) (row col : Nat)
    (hr : row < b.size) (hc : col < b.size) (color : Cell) :
    ((b.makeMove row col color).1 = false ∧ (b.makeMove row col color).2 = b ↔
      b.getCell row col ≠ Cell.empty ∨
        ∀ d ∈ directions, b.discsToFlipInDirection row col color d.1 d.2 = []) ∧
    (¬(b.getCell row col ≠ Cell.empty ∨
        ∀ d ∈ directions, b.discsToFlipInDirection row col color d.1 d.2 = []) →
      (b.makeMove row col color).1 = true ∧ (b.makeMove row col color).2 ≠ b) := by
  by_cases hflips : b.discsToFlip row col color = []
  · have hmm : b.makeMove row col color = (false, b) := by
      unfold OthelloBoard.makeMove
      rw [if_pos hflips]
    rw [hmm]
    refine ⟨⟨fun _ => (discsToFlip_eq_nil_iff b row col color).mp hflips, fun _ => ⟨rfl, rfl⟩⟩,
      fun h => absurd ((discsToFlip_eq_nil_iff b row col color).mp hflips) h⟩
  · have hmm : b.makeMove row col color =
        (true, (b.discsToFlip row col color).foldl
          (fun acc rc => acc.setCell rc.1.toNat rc.2.toNat color)
          (b.setCell row col color)) := by
      unfold OthelloBoard.makeMove
      rw [if_neg hflips]
    have hcolne : color ≠ Cell.empty := by
      intro hce
      rw [hce, discsToFlip_color_empty] at hflips
      exact hflips rfl
    have hocc : b.getCell row col = Cell.empty := by
      by_contra hocc
      unfold OthelloBoard.discsToFlip at hflips
      rw [if_pos (by simpa using hocc)] at hflips
      exact hflips rfl
    have hplaced : (b.makeMove row col color).2.getCell row col = color := by
      rw [hmm]
      apply getCell_foldl_setCell
      exact getCell_setCell_self b row col color (by rw [hwf.1]; omega)
        (by rw [hwf.row_length hr]; exact hc)
    have hmut : (b.makeMove row col color).2 ≠ b := by
      intro heq
      have := hplaced
      rw [heq, hocc] at this
      exact hcolne this.symm
    refine ⟨⟨fun hfb => ?_, fun hnil => ?_⟩, fun _ => ⟨by rw [hmm], hmut⟩⟩
    · exact absurd (by rw [hmm] at hfb; exact hfb.1) (by simp)
    · exact absurd ((discsToFlip_eq_nil_iff b row col color).mpr hnil) hflips

/-- C3 witness: concrete instance on the 4×4 initial board at the valid
black move `(0, 1)`. -/
theorem makeMove_failure_iff_witness :
    (OthelloBoard.init 4).WF ∧ (0 : Nat) < (OthelloBoard.init 4).size ∧
      (1 : Nat) < (OthelloBoard.init 4).size ∧
      (((OthelloBoard.init 4).makeMove 0 1 Cell.black).1 = false ∧
          ((OthelloBoard.init 4).makeMove 0 1 Cell.black).2 = OthelloBoard.init 4 ↔
        (OthelloBoard.init 4).getCell 0 1 ≠ Cell.empty ∨
          ∀ d ∈ directions,
            (OthelloBoard.init 4).discsToFlipInDirection 0 1 Cell.black d.1 d.2 = []) :=
  ⟨by decide, by decide, by decide,
    (makeMove_failure_iff (OthelloBoard.init 4) (by decide) 0 1 (by decide) (by decide)
      Cell.black).1⟩

/-- C4: a successful `make_move` raises the total disc count by at most
`1 + number of flips`, and every cell it changes other than the placed one
previously held the opposing color. -/
theorem makeMove_flip_bounds (b : OthelloBoard) (row col : Nat) (color : Cell)
    (hvalid : b.discsToFlip row col color ≠ []) :
    (b.makeMove row col color).2.discCount ≤
        b.discCount + 1 + (b.discsToFlip row col color).length ∧
      ∀ r c : Nat, ((r, c) : Nat × Nat) ≠ (row, col) →
        (b.makeMove row col color).2.getCell r c ≠ b.getCell r c →
        b.getCell r c = color.opponent := by
  have hmm : (b.makeMove row col color).2 =
      (b.discsToFlip row col color).foldl
        (fun acc rc => acc.setCell rc.1.toNat rc.2.toNat color)
        (b.setCell row col color) := by
    unfold OthelloBoard.makeMove
    rw [if_neg hvalid]
  have hcolne : color ≠ Cell.empty := by
    intro hce
    rw [hce, discsToFlip_color_empty] at hvalid
    exact hvalid rfl
  constructor
  · rw [hmm]
    have h1 := discCount_foldl_setCell_le color (b.discsToFlip row col color)
      (b.setCell row col color)
    have h2 := discCount_setCell_le b row col color
    omega
  · intro r c hne hchanged
    rw [hmm] at hchanged
    have hpres := getCell_setCell_ne b row col r c color hne
    have h' : ((b.discsToFlip row col color).foldl
        (fun acc rc => acc.setCell rc.1.toNat rc.2.toNat color)
        (b.setCell row col color)).getCell r c ≠
        (b.setCell row col color).getCell r c := by
      rw [hpres]
      exact hchanged
    obtain ⟨rc, hrc, heq⟩ := foldl_setCell_changed color _ _ r c h'
    obtain ⟨hin, hnemp, hncol⟩ := discsToFlip_sound b color row col rc hrc
    have hcellI : b.getCellI rc.1 rc.2 = b.getCell r c := by
      unfold OthelloBoard.getCellI
      rw [show rc.1.toNat = r from congrArg Prod.fst heq,
        show rc.2.toNat = c from congrArg Prod.snd heq]
    rw [hcellI] at hnemp hncol
    exact (cell_ne_iff hcolne).mp ⟨hnemp, hncol⟩

/-- C4 witness: the successful black move `(0, 1)` on the 4×4 initial
board. -/
theorem makeMove_flip_bounds_witness :
    (OthelloBoard.init 4).discsToFlip 0 1 Cell.black ≠ [] ∧
      (((OthelloBoard.init 4).makeMove 0 1 Cell.black).2.discCount ≤
        (OthelloBoard.init 4).discCount + 1 +
          ((OthelloBoard.init 4).discsToFlip 0 1 Cell.black).length) :=
  ⟨by decide, (makeMove_flip_bounds (OthelloBoard.init 4) 0 1 Cell.black (by decide)).1⟩


/-! ### The search tree: backpropagation and re-rooting -/

theorem MCTSNode.update_visits (n : MCTSNode) (r : ℚ) : (n.update r).visits = n.visits + 1 := by
  cases n
  rfl

theorem MCTSNode.update_wins (n : MCTSNode) (r : ℚ) : (n.update r).wins = n.wins + r := by
  cases n
  rfl

theorem MCTSNode.update_children (n : MCTSNode) (r : ℚ) :
    (n.update r).children = n.children := by
  cases n
  rfl

theorem backpropagate_nil (n : MCTSNode) (r : ℚ) : backpropagate n [] r = n.update r := by
  cases n
  rfl

theorem backpropagate_cons (m : Option (Nat × Nat)) (p : Cell) (u : List (Nat × Nat))
    (cs : List MCTSNode) (v : Nat) (w : ℚ) (i : Nat) (is : List Nat) (r : ℚ) :
    backpropagate (.mk m p u cs v w) (i :: is) r =
      .mk m p u (cs.set i (backpropagate (cs.getD i default) is r)) (v + 1) (w + r) := rfl

theorem getAt_nil (n : MCTSNode) : n.getAt [] = some n := rfl

theorem getAt_cons (n : MCTSNode) (j : Nat) (qs : List Nat) :
    n.getAt (j :: qs) = match n.children[j]? with
      | some c => c.getAt qs
      | none => none := rfl

theorem getAt_cons_some {n : MCTSNode} {j : Nat} {c : MCTSNode}
    (h : n.children[j]? = some c) (qs : List Nat) : n.getAt (j :: qs) = c.getAt qs := by
  rw [getAt_cons, h]

theorem getAt_cons_none {n : MCTSNode} {j : Nat} (h : n.children[j]? = none)
    (qs : List Nat) : n.getAt (j :: qs) = none := by
  rw [getAt_cons, h]

/-- C5: backpropagation updates exactly the nodes on the chain from the root
to the node at `path` (in the source: from that node up through parent
references to the root): every node whose address is a prefix of `path` gains
one visit and the identical reward `r` (no sign flip at any depth), and every
other address resolves to exactly the node it resolved to before. -/
theorem backpropagate_parent_chain :
    ∀ (path : List Nat) (root : MCTSNode) (reward : ℚ) (q : List Nat),
      (q = path.take q.length →
        ∀ nq, root.getAt q = some nq →
          ∃ nq', (backpropagate root path reward).getAt q = some nq' ∧
            nq'.visits = nq.visits + 1 ∧ nq'.wins = nq.wins + reward) ∧
      (q ≠ path.take q.length →
        (backpropagate root path reward).getAt q = root.getAt q)
  | [], root, reward, q => by
    rw [backpropagate_nil]
    constructor
    · intro hq nq hget
      have hq0 : q = [] := by simpa using hq
      subst hq0
      rw [getAt_nil] at hget
      cases hget
      rw [getAt_nil]
      exact ⟨root.update reward, rfl, root.update_visits reward, root.update_wins reward⟩
    · intro hq
      have hq0 : q ≠ [] := by simpa using hq
      match q, hq0 with
      | j :: qs, _ =>
        cases hcj : (root.update reward).children[j]? with
        | some c =>
          rw [getAt_cons_some hcj, getAt_cons_some (root.update_children reward ▸ hcj)]
        | none =>
          rw [getAt_cons_none hcj, getAt_cons_none (root.update_children reward ▸ hcj)]
  | i :: is, root, reward, q => by
    match root with
    | .mk m p u cs v w =>
      rw [backpropagate_cons]
      constructor
      · intro hq nq hget
        match q, hq with
        | [], _ =>
          rw [getAt_nil] at hget
          cases hget
          rw [getAt_nil]
          exact ⟨_, rfl, rfl, rfl⟩
        | j :: qs, hq =>
          simp only [List.length_cons] at hq
          rw [List.take_succ_cons] at hq
          have hj : j = i := by injection hq
          have hqs : qs = is.take qs.length := by injection hq
          subst hj
          by_cases hlt : j < cs.length
          · have hold : ((MCTSNode.mk m p u cs v w).children)[j]? =
                some (cs.getD j default) := by
              show cs[j]? = _
              rw [List.getElem?_eq_getElem hlt, List.getD_eq_getElem?_getD,
                List.getElem?_eq_getElem hlt]
              rfl
            have hset : ((MCTSNode.mk m p u
                (cs.set j (backpropagate (cs.getD j default) is reward))
                (v + 1) (w + reward)).children)[j]? =
                some (backpropagate (cs.getD j default) is reward) := by
              show (cs.set j _)[j]? = _
              rw [List.getElem?_set_self hlt]
            rw [getAt_cons_some hold] at hget
            rw [getAt_cons_some hset]
            exact (backpropagate_parent_chain is (cs.getD j default) reward qs).1 hqs nq hget
          · have hnone : ((MCTSNode.mk m p u cs v w).children)[j]? = none := by
              show cs[j]? = none
              exact List.getElem?_eq_none (by omega)
            rw [getAt_cons_none hnone] at hget
            cases hget
      · intro hq
        match q with
        | [] => exact absurd (by simp) hq
        | j :: qs =>
          by_cases hji : j = i
          · subst hji
            have hqs : qs ≠ is.take qs.length := by
              intro h
              apply hq
              simp only [List.length_cons]
              rw [List.take_succ_cons, ← h]
            by_cases hlt : j < cs.length
            · have hold : ((MCTSNode.mk m p u cs v w).children)[j]? =
                  some (cs.getD j default) := by
                show cs[j]? = _
                rw [List.getElem?_eq_getElem hlt, List.getD_eq_getElem?_getD,
                  List.getElem?_eq_getElem hlt]
                rfl
              have hset : ((MCTSNode.mk m p u
                  (cs.set j (backpropagate (cs.getD j default) is reward))
                  (v + 1) (w + reward)).children)[j]? =
                  some (backpropagate (cs.getD j default) is reward) := by
                show (cs.set j _)[j]? = _
                rw [List.getElem?_set_self hlt]
              rw [getAt_cons_some hold, getAt_cons_some hset]
              exact (backpropagate_parent_chain is (cs.getD j default) reward qs).2 hqs
            · have hnone : ((MCTSNode.mk m p u cs v w).children)[j]? = none := by
                show cs[j]? = none
                exact List.getElem?_eq_none (by omega)
              have hnone2 : ((MCTSNode.mk m p u
                  (cs.set j (backpropagate (cs.getD j default) is reward))
                  (v + 1) (w + reward)).children)[j]? = none := by
                show (cs.set j _)[j]? = none
                exact List.getElem?_eq_none (by rw [List.length_set]; omega)
              rw [getAt_cons_none hnone, getAt_cons_none hnone2]
          · have hne : ((MCTSNode.mk m p u
                (cs.set i (backpropagate (cs.getD i default) is reward))
                (v + 1) (w + reward)).children)[j]? =
                ((MCTSNode.mk m p u cs v w).children)[j]? := by
              show (cs.set i _)[j]? = cs[j]?
              exact List.getElem?_set_ne (fun h => hji h.symm)
            cases hcj : ((MCTSNode.mk m p u cs v w).children)[j]? with
            | some c => rw [getAt_cons_some hcj, getAt_cons_some (hne.trans hcj)]
            | none => rw [getAt_cons_none hcj, getAt_cons_none (hne.trans hcj)]

/-- C5 witness: a two-level tree, updated along the path to its only
grandchild. -/
theorem backpropagate_parent_chain_witness :
    (([0] : List Nat) = ([0, 0] : List Nat).take 1 →
      ∀ nq, (MCTSNode.mk none Cell.black [] [MCTSNode.mk (some (0, 1)) Cell.white []
          [MCTSNode.mk (some (1, 0)) Cell.black [] [] 1 0] 2 1] 3 2).getAt [0] = some nq →
        ∃ nq', (backpropagate (MCTSNode.mk none Cell.black [] [MCTSNode.mk (some (0, 1))
            Cell.white [] [MCTSNode.mk (some (1, 0)) Cell.black [] [] 1 0] 2 1] 3 2)
            [0, 0] (1 / 2)).getAt [0] = some nq' ∧
          nq'.visits = nq.visits + 1 ∧ nq'.wins = nq.wins + 1 / 2) := by
  exact (backpropagate_parent_chain [0, 0]
    (MCTSNode.mk none Cell.black [] [MCTSNode.mk (some (0, 1)) Cell.white []
      [MCTSNode.mk (some (1, 0)) Cell.black [] [] 1 0] 2 1] 3 2) (1 / 2) [0]).1

/-- C7: `notify_move_played` on a retained tree re-roots onto the first child
reached by the played move — the child subtree value itself, with every
descendant's statistics untouched, becomes the root (which is what clearing
the promoted child's parent reference amounts to in this representation) —
and discards the tree entirely when no child matches. -/
theorem notifyMovePlayed_some {σ : Type} (rng : σ) (r : MCTSNode) (mv : Nat × Nat) :
    notifyMovePlayed (⟨some r, rng⟩ : MCTSState σ) (some mv) =
      match r.children.find? (fun c => c.move = some mv) with
      | some c => ⟨some c, rng⟩
      | none => ⟨none, rng⟩ := rfl

theorem notifyMovePlayed_correct {σ : Type} (st : MCTSState σ) (r : MCTSNode)
    (mv : Nat × Nat) (hroot : st.root = some r) :
    (notifyMovePlayed st (some mv)).root =
      r.children.find? (fun c => c.move = some mv) ∧
    ∀ c, r.children.find? (fun c => c.move = some mv) = some c →
      c ∈ r.children ∧ c.move = some mv ∧
      ∀ q : List Nat,
        ((notifyMovePlayed st (some mv)).root.bind fun n => n.getAt q) = c.getAt q := by
  obtain ⟨ro, rng⟩ := st
  replace hroot : ro = some r := hroot
  subst hroot
  constructor
  · rw [notifyMovePlayed_some rng r mv]
    cases h : r.children.find? (fun c => c.move = some mv) with
    | some c => rfl
    | none => rfl
  · intro c hfind
    refine ⟨List.mem_of_find?_eq_some hfind, ?_, ?_⟩
    · have := List.find?_some hfind
      simpa using this
    · intro q
      rw [notifyMovePlayed_some rng r mv, hfind]
      rfl

/-- C7 witness: a root with one matching child. -/
theorem notifyMovePlayed_correct_witness :
    (notifyMovePlayed (σ := MTState)
        ⟨some (MCTSNode.mk none Cell.black []
          [MCTSNode.mk (some (2, 3)) Cell.white [] [] 4 2] 5 3), mtSeed 0⟩
        (some (2, 3))).root =
      (MCTSNode.mk none Cell.black []
        [MCTSNode.mk (some (2, 3)) Cell.white [] [] 4 2] 5 3).children.find?
        (fun c => c.move = some (2, 3)) :=
  (notifyMovePlayed_correct
    ⟨some (MCTSNode.mk none Cell.black []
      [MCTSNode.mk (some (2, 3)) Cell.white [] [] 4 2] 5 3), mtSeed 0⟩
    (MCTSNode.mk none Cell.black []
      [MCTSNode.mk (some (2, 3)) Cell.white [] [] 4 2] 5 3) (2, 3) rfl).1


/-! ### `choose_move`: exhausted budgets, zero budgets, determinism -/

theorem chooseMove_budget_exhausted {σ : Type} (cfg : MCTSConfig σ) (st : MCTSState σ)
    (board : OthelloBoard) (root0 : MCTSNode)
    (hmv : board.getValidMoves cfg.color ≠ [])
    (hroot0 : (match st.root with
      | none => MCTSNode.mk none cfg.color (board.getValidMoves cfg.color) [] 0 0
      | some r => r) = root0)
    (hrem : cfg.iterations - root0.visits = 0) :
    chooseMove cfg st board =
      (bestMoveFrom root0, ⟨some root0, st.rng⟩, [(cfg.iterations, cfg.iterations)]) := by
  simp only [chooseMove]
  rw [if_neg hmv, hroot0, hrem]
  rfl

/-- C6: when tree reuse has retained a root whose visit count already meets
the iteration budget, `choose_move` runs zero iterations — the retained tree
(hence every node statistic) is returned unchanged, the random state is
untouched — and fires the progress callback exactly once with
`(iterations, iterations)`. -/
theorem chooseMove_budget_reached {σ : Type} (cfg : MCTSConfig σ) (st : MCTSState σ)
    (board : OthelloBoard) (r : MCTSNode) (hroot : st.root = some r)
    (hvisits : cfg.iterations ≤ r.visits)
    (hmv : board.getValidMoves cfg.color ≠ []) :
    (chooseMove cfg st board).2.1.root = some r ∧
    (chooseMove cfg st board).2.1.rng = st.rng ∧
    (chooseMove cfg st board).2.2 = [(cfg.iterations, cfg.iterations)] := by
  have h := chooseMove_budget_exhausted cfg st board r hmv (by rw [hroot])
    (Nat.sub_eq_zero_of_le hvisits)
  rw [h]
  exact ⟨rfl, rfl, rfl⟩

/-- C6 witness: a retained root with 5 visits against a budget of 3. -/
theorem chooseMove_budget_reached_witness :
    ((OthelloBoard.init 4).getValidMoves Cell.black ≠ []) ∧
    ((chooseMove (mtConfig Cell.black 3)
        ⟨some (MCTSNode.mk none Cell.black []
          [MCTSNode.mk (some (0, 1)) Cell.white [] [] 5 2] 5 2), mtSeed 7⟩
        (OthelloBoard.init 4)).2.1.root =
      some (MCTSNode.mk none Cell.black []
        [MCTSNode.mk (some (0, 1)) Cell.white [] [] 5 2] 5 2)) ∧
    ((chooseMove (mtConfig Cell.black 3)
        ⟨some (MCTSNode.mk none Cell.black []
          [MCTSNode.mk (some (0, 1)) Cell.white [] [] 5 2] 5 2), mtSeed 7⟩
        (OthelloBoard.init 4)).2.2 = [(3, 3)]) := by
  have h := chooseMove_budget_reached (mtConfig Cell.black 3)
    ⟨some (MCTSNode.mk none Cell.black []
      [MCTSNode.mk (some (0, 1)) Cell.white [] [] 5 2] 5 2), mtSeed 7⟩
    (OthelloBoard.init 4)
    (MCTSNode.mk none Cell.black [] [MCTSNode.mk (some (0, 1)) Cell.white [] [] 5 2] 5 2)
    rfl (by decide) (by decide)
  exact ⟨by decide, h.1, h.2.2⟩

/-- C10: a zero-iteration engine with no retained tree returns `None` even
when its color has valid moves, so `None` does not reliably signal a pass at
the public interface. -/
theorem chooseMove_zero_budget {σ : Type} (cfg : MCTSConfig σ) (st : MCTSState σ)
    (board : OthelloBoard) (hiter : cfg.iterations = 0) (hroot : st.root = none)
    (hmv : board.getValidMoves cfg.color ≠ []) :
    (chooseMove cfg st board).1 = none := by
  have h := chooseMove_budget_exhausted cfg st board
    (MCTSNode.mk none cfg.color (board.getValidMoves cfg.color) [] 0 0) hmv
    (by rw [hroot]) (by rw [hiter]; rfl)
  rw [h]
  rfl

/-- C10 witness: a fresh zero-budget engine on the initial 4×4 board, where
black has four valid moves. -/
theorem chooseMove_zero_budget_witness :
    ((mtConfig Cell.black 0).iterations = 0) ∧
    ((OthelloBoard.init 4).getValidMoves Cell.black ≠ []) ∧
    ((chooseMove (mtConfig Cell.black 0) (freshState 11) (OthelloBoard.init 4)).1 =
      none) :=
  ⟨rfl, by decide,
    chooseMove_zero_budget (mtConfig Cell.black 0) (freshState 11) (OthelloBoard.init 4)
      rfl rfl (by decide)⟩

/-- C9: with a fixed seed, iteration budget, color and starting board, two
`choose_move` calls on freshly constructed engines return identical results:
in this embedding the engine is a pure function of its configuration, seeded
Mersenne-Twister state and board, with no other inputs. -/
theorem chooseMove_deterministic (color : Cell) (iterations seed : Nat)
    (b1 b2 : OthelloBoard) (h : b1 = b2) :
    chooseMove (mtConfig color iterations) (freshState seed) b1 =
      chooseMove (mtConfig color iterations) (freshState seed) b2 := by
  rw [h]

/-- C9 witness: two runs on the initial 4×4 board with seed 5. -/
theorem chooseMove_deterministic_witness :
    (OthelloBoard.init 4 = OthelloBoard.init 4) ∧
    chooseMove (mtConfig Cell.black 2) (freshState 5) (OthelloBoard.init 4) =
      chooseMove (mtConfig Cell.black 2) (freshState 5) (OthelloBoard.init 4) :=
  ⟨rfl, chooseMove_deterministic Cell.black 2 5 (OthelloBoard.init 4)
    (OthelloBoard.init 4) rfl⟩


/-! ### `choose_move` returns the first child with maximal visits -/

theorem pyMaxBy_nil {α β : Type} (key : α → β) (gt : β → β → Bool) (best : α) :
    pyMaxBy key gt best [] = best := rfl

theorem pyMaxBy_cons {α β : Type} (key : α → β) (gt : β → β → Bool) (best x : α)
    (xs : List α) :
    pyMaxBy key gt best (x :: xs) =
      if gt (key x) (key best) then pyMaxBy key gt x xs else pyMaxBy key gt best xs := rfl

theorem pyMaxBy_visits_first :
    ∀ (l : List MCTSNode) (best : MCTSNode),
      ∃ l₁ l₂, best :: l = l₁ ++ pyMaxBy MCTSNode.visits natGtb best l :: l₂ ∧
        (∀ y ∈ best :: l, y.visits ≤ (pyMaxBy MCTSNode.visits natGtb best l).visits) ∧
        (∀ y ∈ l₁, y.visits < (pyMaxBy MCTSNode.visits natGtb best l).visits)
  | [], best => by
    rw [pyMaxBy_nil]
    refine ⟨[], [], rfl, ?_, ?_⟩
    · intro y hy
      cases hy with
      | head => exact Nat.le_refl _
      | tail _ h => cases h
    · intro y hy
      cases hy
  | x :: xs, best => by
    rw [pyMaxBy_cons]
    by_cases hgt : best.visits < x.visits
    · rw [if_pos (by simpa [natGtb] using hgt)]
      obtain ⟨l₁, l₂, hsp, hmax, hlt⟩ := pyMaxBy_visits_first xs x
      have hxm : x.visits ≤ (pyMaxBy MCTSNode.visits natGtb x xs).visits :=
        hmax x (List.mem_cons_self x xs)
      refine ⟨best :: l₁, l₂, by rw [List.cons_append, ← hsp], ?_, ?_⟩
      · intro y hy
        cases hy with
        | head => omega
        | tail _ h => exact hmax y h
      · intro y hy
        cases hy with
        | head => omega
        | tail _ h => exact hlt y h
    · rw [if_neg (by simpa [natGtb] using hgt)]
      obtain ⟨l₁, l₂, hsp, hmax, hlt⟩ := pyMaxBy_visits_first xs best
      have hbm : best.visits ≤ (pyMaxBy MCTSNode.visits natGtb best xs).visits :=
        hmax best (List.mem_cons_self best xs)
      match l₁, hsp, hlt with
      | [], hsp, hlt =>
        have hm : pyMaxBy MCTSNode.visits natGtb best xs = best := by
          have := congrArg (fun l => l.head?) hsp
          simpa using this.symm
        have hxs : xs = l₂ := by
          have := congrArg List.tail hsp
          simpa using this
        refine ⟨[], x :: xs, ?_, ?_, fun y hy => by cases hy⟩
        · rw [List.nil_append, hm, hxs]
        · intro y hy
          cases hy with
          | head => exact hbm
          | tail _ h =>
            cases h with
            | head => rw [hm]; omega
            | tail _ h2 => exact hmax y (List.mem_cons_of_mem best h2)
      | a :: l₁x, hsp, hlt =>
        have ha : a = best := by
          have := congrArg (fun l => l.head?) hsp
          simpa using this.symm
        subst ha
        have hxs : xs = l₁x ++ pyMaxBy MCTSNode.visits natGtb a xs :: l₂ := by
          have := congrArg List.tail hsp
          simpa using this
        have habell : a.visits < (pyMaxBy MCTSNode.visits natGtb a xs).visits :=
          hlt a (List.mem_cons_self a l₁x)
        refine ⟨a :: x :: l₁x, l₂, ?_, ?_, ?_⟩
        · rw [show a :: x :: l₁x ++ pyMaxBy MCTSNode.visits natGtb a xs :: l₂ =
              a :: x :: (l₁x ++ pyMaxBy MCTSNode.visits natGtb a xs :: l₂) from rfl,
            ← hxs]
        · intro y hy
          cases hy with
          | head => exact hbm
          | tail _ h =>
            cases h with
            | head => omega
            | tail _ h2 => exact hmax y (List.mem_cons_of_mem a h2)
        · intro y hy
          cases hy with
          | head => exact habell
          | tail _ h =>
            cases h with
            | head => omega
            | tail _ h2 => exact hlt y (List.mem_cons_of_mem a h2)

theorem bestMoveFrom_spec (root : MCTSNode) (hne : root.children ≠ []) :
    ∃ l₁ best l₂, root.children = l₁ ++ best :: l₂ ∧
      bestMoveFrom root = best.move ∧
      (∀ y ∈ root.children, y.visits ≤ best.visits) ∧
      (∀ y ∈ l₁, y.visits < best.visits) := by
  obtain ⟨c, cs, hc⟩ : ∃ c cs, root.children = c :: cs := by
    cases h : root.children with
    | nil => exact absurd h hne
    | cons c cs => exact ⟨c, cs, rfl⟩
  obtain ⟨l₁, l₂, hsp, hmax, hlt⟩ := pyMaxBy_visits_first cs c
  refine ⟨l₁, pyMaxBy MCTSNode.visits natGtb c cs, l₂, hc.trans hsp, ?_,
    fun y hy => hmax y (hc ▸ hy), hlt⟩
  unfold bestMoveFrom
  rw [hc]

theorem children_backpropagate (n : MCTSNode) (p : List Nat) (r : ℚ) :
    (backpropagate n p r).children.length = n.children.length := by
  cases p with
  | nil =>
    rw [backpropagate_nil, n.update_children r]
  | cons i is =>
    match n with
    | .mk m pl u cs v w =>
      rw [backpropagate_cons]
      show (cs.set i _).length = cs.length
      exact List.length_set cs ..

theorem children_addChild (n : MCTSNode) (mv : Nat × Nat) (pl : Cell)
    (um : List (Nat × Nat)) :
    (n.addChild mv pl um).children.length = n.children.length + 1 := by
  match n with
  | .mk m p u cs v w =>
    show (cs ++ [_]).length = cs.length + 1
    simp

theorem modifyAt_nil (n : MCTSNode) (f : MCTSNode → MCTSNode) :
    n.modifyAt [] f = f n := by
  cases n
  rfl

theorem children_modifyAt_addChild (root : MCTSNode) (path : List Nat) (mv : Nat × Nat)
    (pl : Cell) (um : List (Nat × Nat)) :
    root.children.length ≤
      (root.modifyAt path (fun n => n.addChild mv pl um)).children.length := by
  cases path with
  | nil =>
    rw [modifyAt_nil, children_addChild]
    omega
  | cons i is =>
    match root with
    | .mk m p u cs v w =>
      show cs.length ≤ (cs.set i _).length
      rw [List.length_set]

theorem mctsIteration_children_le {σ : Type} (cfg : MCTSConfig σ) (board : OthelloBoard)
    (root : MCTSNode) (s : σ) :
    root.children.length ≤ (mctsIteration cfg board root s).1.children.length := by
  simp only [mctsIteration]
  split
  · rw [children_backpropagate]
    exact children_modifyAt_addChild ..
  · rw [children_backpropagate]

theorem selectLoop_untried_ne (ops : FloatOps) (c : ℚ) (fuel : Nat) (node : MCTSNode)
    (path : List Nat) (board : OthelloBoard) (player : Cell)
    (h : node.untried ≠ []) :
    selectLoop ops c fuel node path board player = (path, node, board, player) := by
  cases fuel with
  | zero => rfl
  | succ f =>
    show (if node.untried.isEmpty && !node.children.isEmpty then _ else _) = _
    rw [if_neg]
    simp [List.isEmpty_iff, h]

theorem mctsIteration_children_pos {σ : Type} (cfg : MCTSConfig σ) (board : OthelloBoard)
    (root : MCTSNode) (s : σ) (hunt : root.untried ≠ []) :
    1 ≤ (mctsIteration cfg board root s).1.children.length := by
  simp only [mctsIteration,
    selectLoop_untried_ne cfg.ops cfg.explorationConst root.treeSize root [] board
      cfg.color hunt]
  rw [if_pos hunt]
  rw [children_backpropagate, modifyAt_nil, children_addChild]
  omega

theorem foldl_iterations_children {σ : Type} (cfg : MCTSConfig σ) (board : OthelloBoard) :
    ∀ (l : List Nat) (acc : MCTSNode × σ), 1 ≤ acc.1.children.length →
      1 ≤ ((l.foldl (fun acc _ => mctsIteration cfg board acc.1 acc.2) acc).1).children.length
  | [], acc, h => h
  | _ :: t, acc, h => by
    rw [List.foldl_cons]
    exact foldl_iterations_children cfg board t _
      (Nat.le_trans h (mctsIteration_children_le cfg board acc.1 acc.2))

/-- C1 (amended): on a fresh engine with at least one legal move and a
positive budget, `choose_move` returns the move of the root child with the
highest visit count; among children sharing the highest count the returned
child is the first in the root's children list (creation = expansion order),
every earlier child having strictly fewer visits. -/
theorem chooseMove_best_child {σ : Type} (cfg : MCTSConfig σ) (st : MCTSState σ)
    (board : OthelloBoard) (hroot : st.root = none)
    (hmv : board.getValidMoves cfg.color ≠ []) (hiter : 1 ≤ cfg.iterations) :
    ∃ root', (chooseMove cfg st board).2.1.root = some root' ∧
      root'.children ≠ [] ∧
      ∃ l₁ best l₂, root'.children = l₁ ++ best :: l₂ ∧
        (chooseMove cfg st board).1 = best.move ∧
        (∀ y ∈ root'.children, y.visits ≤ best.visits) ∧
        (∀ y ∈ l₁, y.visits < best.visits) := by
  simp only [chooseMove]
  rw [if_neg hmv, hroot]
  have hrem : ¬(cfg.iterations -
      (MCTSNode.mk none cfg.color (board.getValidMoves cfg.color) [] 0 0).visits = 0) := by
    show ¬(cfg.iterations - 0 = 0)
    omega
  rw [if_neg hrem]
  obtain ⟨k, hk⟩ : ∃ k, cfg.iterations -
      (MCTSNode.mk none cfg.color (board.getValidMoves cfg.color) [] 0 0).visits =
        k + 1 := ⟨cfg.iterations - 1, by show cfg.iterations - 0 = _; omega⟩
  rw [hk, List.range_succ_eq_map, List.foldl_cons]
  have hpos := foldl_iterations_children cfg board ((List.range k).map Nat.succ)
    (mctsIteration cfg board
      (MCTSNode.mk none cfg.color (board.getValidMoves cfg.color) [] 0 0) st.rng)
    (mctsIteration_children_pos cfg board _ st.rng (by
      show board.getValidMoves cfg.color ≠ []
      exact hmv))
  have hne : (((List.range k).map Nat.succ).foldl
      (fun acc _ => mctsIteration cfg board acc.1 acc.2)
      (mctsIteration cfg board
        (MCTSNode.mk none cfg.color (board.getValidMoves cfg.color) [] 0 0)
        st.rng)).1.children ≠ [] := by
    intro hnil
    rw [hnil] at hpos
    simp at hpos
  obtain ⟨l₁, best, l₂, hsp, hbm, hmax, hlt⟩ := bestMoveFrom_spec _ hne
  exact ⟨_, rfl, hne, l₁, best, l₂, hsp, hbm, hmax, hlt⟩

/-- C1 witness: fresh engine, budget 2, initial 4×4 board, black to move. -/
theorem chooseMove_best_child_witness :
    ((freshState 0).root = none) ∧
    ((OthelloBoard.init 4).getValidMoves Cell.black ≠ []) ∧
    (1 ≤ (mtConfig Cell.black 2).iterations) ∧
    (∃ root', (chooseMove (mtConfig Cell.black 2) (freshState 0)
        (OthelloBoard.init 4)).2.1.root = some root' ∧
      root'.children ≠ [] ∧
      ∃ l₁ best l₂, root'.children = l₁ ++ best :: l₂ ∧
        (chooseMove (mtConfig Cell.black 2) (freshState 0) (OthelloBoard.init 4)).1 =
          best.move ∧
        (∀ y ∈ root'.children, y.visits ≤ best.visits) ∧
        (∀ y ∈ l₁, y.visits < best.visits)) :=
  ⟨rfl, by decide, by decide,
    chooseMove_best_child (mtConfig Cell.black 2) (freshState 0) (OthelloBoard.init 4)
      rfl (by decide) (by decide)⟩


/-! ### Concrete counterexample runs (seed 32338) -/

set_option maxRecDepth 4000 in
/-- The eagerly-twisted seeded state generates exactly the stream CPython
generates from the lazy `index = 624` convention: drawing from the untwisted
state first twists, which is the same computation. -/
theorem mtGenrand_on_624 (mt : Nat) :
    mtGenrand ⟨mt, 624⟩ = mtGenrand ⟨mtTwist mt, 0⟩ := by
  simp only [mtGenrand, ge_iff_le, le_refl, if_true, show ¬((624:Nat) ≤ 0) from by omega,
    if_false]

set_option maxRecDepth 50000 in
/-- The Mersenne-Twister state of `random.Random(32338)` after its first
twist, evaluated in chunks small enough for kernel reduction. -/
theorem mtSeed_32338 : mtSeed 32338 = ⟨69871992397661271873393375161893882534974510099653583861882304169343374962751716618298066281430372623806268748659612129420939679157050253882299084054189844732326671907511078665571109519917803562575813470135056561457133351032769593250576736790582649429820261769069309500726472317663995482980109798685776501872104960426078857638132828133331319084759762891864804371558406563181248831875169609481990361045117240170334309784221501780040994113609986588866760490152099639805240384683519169970152990856304095158084184222368355521961709544607741179410278850906401990160171727764556883937397558385414851839528173101099632943732131485553135090021699226057857684363103402541807998122278108213050222367879993039895930062472898804724413503417558683827675279321827825290526382298355287294033437433129683776076203331960835612201167010693870813974091299479410043866835923009935321634969998885642311262877501061009199547608933334083733282626458650232497831508418752766649337270757230133023795509250423759463052169283976706359870431093861776371508311591791514462457522504381162684453227871152185168610764730064236330616287400084011449886964157617461123901147597596924719495342355569031558208789310517399795978515483021010643497357869808182478847358318385218392570592029560327718657747819817498757528498134963108724947054407145679096212507897284021232083956608108761281398924758387001015979145051805554957854960143459270768440288292662269354297057305623258578361653209786667983827637021560987123887167845927831377054667293127776707486573757941938805553881919034501261782185862855791429287798941255600531207161169715787206323269587378184273740828370192623943349722699829790550884485562664049161428889349012108910870771861206026243497588772439466879864077354512968912982674643486715805618877860831751388277765010059672905239790184810635932162772784178793343170757383252653432943676834555903424790294400189777984233426684542245618223301050273153388285607346900457761518847915367166187540506527516431787055137322944376421212504059207642023175129152991600349363432503603093844319414706125674088858431960274298158328711284659592798943034817349314123856916881326502942788743756515907454455645696681721136710389077894436157550190257579184557290845275456941110860204847446842058033809099289482248046725265092689898887227334949801244543187601536831969595683826987955549336057603866810106716518857017766535338557214703001530719299495781645880934626615026010972585742142013930665447746597650255929423336829767886905344735483552963679726686736459493411716407463871465405670394881055243837112854525109311468731850738693665608796473992058304370408506686094970626689563829142863252854947414429091810973778731484021417487506082435904856708961478373729381809992223859720724554190059152043643808714001576217091606491616442660052328213882456074340716538239625432159509117800514412796111389584406212614082792286028450927630516390235030676893610003965065034963560361043728732278547175717334823812313116365982769014666546208710732936701329415283956990283646115159076477894929916182831800572315063166070005004504829845512507579058615909561746403369256930953072652297734247059685206489114574407273568332986698615077319781598458600851300237013284594475034893048212401047716691467087693148928648555530882540988862560868210031421426438803387744486639944148727791867788042426283124337912932164584676337657909274591988586267790070631718457765576577257759125846508760262904206133259369986439445326249552741422429000628997033996833451683752441456810853230520792086883780620250654329336434412393993517790367149043701936686754675356264459000419891720247512106571304408917050590488004417685048680944921624636077433379561637203413987770604588185910129861746645079324779066326905990071415317532784778271024872589033447045049287325009287534998436569107405097623423327092267995097755071308010938543502208929688342434338401822280286840702484040095216692627723853661472258859498060775205724643115302406133187230979436582396107881829479723794736036621407179495876335309055824537290245021005266283764114375375301258762533603426540414417944147901612116642547518685670281273070166554227536396378731864844453993687436809916913222288022204617054873520672486264209161371416259877382110679499542504178118809719203546789156687313671045396034991106982118941041279200331576543679757952202803590855648615039264929237391989731832490242429865218173065836925099867121320281144150869917506423058769567032995219900413307926863815704229381208701845990682299881425321759803906592302134306531730867168655991636573415338037303039361143566066358084270506951099822341987157401160142730664505404907718739329694582749701862551064351127126708990349195478646890605154610123363146778464734525771489969774434282470514302374283790116034992450958414387446462391571081642818993826886469545319715786778248545347702776182965401750081121924635468507005798407802921613951471979646209888614690374707863314798255945494797169175929371477726759074381128574561503740602708468541476044147817324803232156949083737110315831909595491463995656561703456923891552015758633301966757364306589103488663373946665908644598425466236596322121688258619864740071754130513121420961723806514231888292293956616783253572723587265560965216406105998634501753526113658665461368784022561316992415772125598753165367926247574008702501439122117197647266503738989091201973638346365790977847866481322331470055340093742759895571814109537443641020165037678949745574248317133416980198082905643045257819542202564467218565392924987696220641192597214933284297059750024501004749084669595045012064139845724031186787759008922669812519412112344282011790973631441885139759645127405102639529814073281355980732746449821713047776851701114287005574104749421449510210759718331256282133335936023339990516133618875804185769549530077918357568292323765592097839675310264980752119109732641310185128856945193879159384321215999132952593876717201288599171638925944697397509526290029113202297395665183211484863560307507436600743399051597563899898964017913800458499762, 0⟩ := by
  have hkey : mtKey 32338 = [32338] := by decide
  have hA1 : (List.range' 1 156).foldl mtInitStep (19650218, 19650218) = (1051003669168937840174092018795272339192746317798327910538030579399801258022378402307657604890572486852775857285124622565306229469260776735250744768334774378547984676541891960820741005776210163729257153279155160132186270149162573312697940328421944621607374017230685808946788454587221502386517096679481521625654717224151489684498781891872284256455989341576850643730785160575641935468317859204927784833184460563134107059960174492448450562587325437563547347293169197246913208234717150572359022942312821904916315049564249381722386598772738994010882960532804759919139800904908667785066353531132654122595419045121630754965607215070436655500932850880645534707573411815073262667503714797479298966519664171545567635306615606499758343153011267313653582553386573772061728289521127916505963812377183815836117231443900400247849829968283615750879142680025313425444079964737823555488732151417095555757066964831598664773063185187695316816558997940447734993177639957905006838154872402479852901594896665154078442783660704608531603781688863439184583369331305923099148832453756141847986450217933785599785643208794424023419441719230898053564296870778557932299807173037537444468606144877805261926131645700948130732196045503826146951047095393596550063088302836902182853193143055848953413930146119017544672174855264608456242207942705382900567485238598948042509331760038902716023073753205908703365463034583596949876102097099189184410142501438563703078093302332676597961066351236508338803630283138561837583895218831336258536081776945387178, 1904872348) := by decide
  have hA2 : (List.range' 157 156).foldl mtInitStep (1051003669168937840174092018795272339192746317798327910538030579399801258022378402307657604890572486852775857285124622565306229469260776735250744768334774378547984676541891960820741005776210163729257153279155160132186270149162573312697940328421944621607374017230685808946788454587221502386517096679481521625654717224151489684498781891872284256455989341576850643730785160575641935468317859204927784833184460563134107059960174492448450562587325437563547347293169197246913208234717150572359022942312821904916315049564249381722386598772738994010882960532804759919139800904908667785066353531132654122595419045121630754965607215070436655500932850880645534707573411815073262667503714797479298966519664171545567635306615606499758343153011267313653582553386573772061728289521127916505963812377183815836117231443900400247849829968283615750879142680025313425444079964737823555488732151417095555757066964831598664773063185187695316816558997940447734993177639957905006838154872402479852901594896665154078442783660704608531603781688863439184583369331305923099148832453756141847986450217933785599785643208794424023419441719230898053564296870778557932299807173037537444468606144877805261926131645700948130732196045503826146951047095393596550063088302836902182853193143055848953413930146119017544672174855264608456242207942705382900567485238598948042509331760038902716023073753205908703365463034583596949876102097099189184410142501438563703078093302332676597961066351236508338803630283138561837583895218831336258536081776945387178, 1904872348) = (43451447770933355967655871035138949693569261124825171477259371368242040963630315041640600927062429357342263245072047913504023898976222663001529237181465201772843534221011158941461788237762698589261273801769281502502593118350248735333713311198202497828243017791061617341960439265842889406544782867384102031255415178900271700980034168162099017956864365589687933957192069187376259297852575715811388574171215432492658087185762998133264937618221271755098965785706070432997411298302669325798217537933293030347163471750845422681163572671323163202114877642119962417042471289236322169711500740026105874938956762201603260389777781630279713951086029849345573805932629935728933211559110808097128740387659360937505283811305307347869883257125318992063172672017615398536223451585974537588286022205134009526045686872405388374260265035160946462461317145380067221477742827625033291004988186600847047377754436956112252765415547548408556447351514012263030872155378162443767249075800305742610089963329250678542759130875153917902877000807677462921581614667852151540757676825924685240218932446899250696312449506135479343622804623859202371994529890468382846930685411934794688331648287209458802119989744293689297836832290230577568486221523698209302874511121874762150532638410906132104470889309461291278796138128439899576644934370820510807927041579775331321262853219456273416624914629492046704521098886302371997733497169681590999013636545589526730424048338678309150088059101227216260252295312930593924952910598006343530852486415054899957422866806481309347647590361328438947697292746295807809428922793414666431031814032861628969263850718323415981880030858167528846350251046504303358726259363323070269072187751201049724611599535900338130652159317711611833200261613695454102202814578620205541009402153224278689166045349627866295907532129503895413832810001764573153936452102111555030652334240483122102594841884380674317392563630683854541905006240664521198153740937166191474997625752436218240484367957684741526689649510263592542862349097987484326349923217637403156985861455776990955562277159694815042715216724617281559276212445232985599228436390356449552586460255915535860776483174844518320695425225063695481080178103231631950275973599455300666837807626044694234147242514012101510230019527491077792176108322681805294472844587867838741311282738328647507874489747241806324255865685263010191263492795301111565976750841965370576184466410593308712339528181219905472475204122126760987352893962695606471420148579799216517439021817837338880498212480863841635080417758859006076745928135992556866011781792223422737565911596816399712199640792654318509917637608884290031624551158142734411201386157483991292013621678138939288482992546376894032653839238558962841745275990259484118213751656221934669102001560497906162914383442900645772006269349662366806111990602419656871248887642639965754962717384557626116538075248782173671677328111889848696227829607958952219328265125408926725048538271658360205449107884774215457740765053921576049468809462583970011502335658, 142734034) := by decide
  have hA3 : (List.range' 313 156).foldl mtInitStep (43451447770933355967655871035138949693569261124825171477259371368242040963630315041640600927062429357342263245072047913504023898976222663001529237181465201772843534221011158941461788237762698589261273801769281502502593118350248735333713311198202497828243017791061617341960439265842889406544782867384102031255415178900271700980034168162099017956864365589687933957192069187376259297852575715811388574171215432492658087185762998133264937618221271755098965785706070432997411298302669325798217537933293030347163471750845422681163572671323163202114877642119962417042471289236322169711500740026105874938956762201603260389777781630279713951086029849345573805932629935728933211559110808097128740387659360937505283811305307347869883257125318992063172672017615398536223451585974537588286022205134009526045686872405388374260265035160946462461317145380067221477742827625033291004988186600847047377754436956112252765415547548408556447351514012263030872155378162443767249075800305742610089963329250678542759130875153917902877000807677462921581614667852151540757676825924685240218932446899250696312449506135479343622804623859202371994529890468382846930685411934794688331648287209458802119989744293689297836832290230577568486221523698209302874511121874762150532638410906132104470889309461291278796138128439899576644934370820510807927041579775331321262853219456273416624914629492046704521098886302371997733497169681590999013636545589526730424048338678309150088059101227216260252295312930593924952910598006343530852486415054899957422866806481309347647590361328438947697292746295807809428922793414666431031814032861628969263850718323415981880030858167528846350251046504303358726259363323070269072187751201049724611599535900338130652159317711611833200261613695454102202814578620205541009402153224278689166045349627866295907532129503895413832810001764573153936452102111555030652334240483122102594841884380674317392563630683854541905006240664521198153740937166191474997625752436218240484367957684741526689649510263592542862349097987484326349923217637403156985861455776990955562277159694815042715216724617281559276212445232985599228436390356449552586460255915535860776483174844518320695425225063695481080178103231631950275973599455300666837807626044694234147242514012101510230019527491077792176108322681805294472844587867838741311282738328647507874489747241806324255865685263010191263492795301111565976750841965370576184466410593308712339528181219905472475204122126760987352893962695606471420148579799216517439021817837338880498212480863841635080417758859006076745928135992556866011781792223422737565911596816399712199640792654318509917637608884290031624551158142734411201386157483991292013621678138939288482992546376894032653839238558962841745275990259484118213751656221934669102001560497906162914383442900645772006269349662366806111990602419656871248887642639965754962717384557626116538075248782173671677328111889848696227829607958952219328265125408926725048538271658360205449107884774215457740765053921576049468809462583970011502335658, 142734034) = (208035992059834220210739403860728342738800931043459486417504744921804576107301366385882394524307886925326709696410060582571046786712134496918680416680943980311066992226858813038158927200790845598215711110835894507175269770154890531204982837147618802169414808789689761340145628204325618684484621084722441958161688016912421324099288963862239707572182297748227280386198437174447562714349206330194231572762662762674053155475771665202461967933320018913447100034822422979762921114852233133745576130783196381780778154639938751526666234888584530838691192559067459885896673777031593894819048214030450001105630867808582019623280500818645748904258121605299616105273501469975390354896905351370065909776688882633566671587816910500850860633757388199674372573806022960141881055611948866582181676984992901211490256893552544053009758012815604042798812545932751839558253589243749120015197466527216261562425157060089434385830128221712921455503857981414724425113344425234417175596485899270224729087117754854529668640368446340138470234658099993888506482262882918737993134441175774420907183556006556526463607863094934465644577286327377037704901665089009686910392150759300282925219129503035871976228333770430160588331838335667898481327016830105004452391732752044350994760100926516599261747797281390254840875472538528767606952072030869182689372165871386955618806855235067576949371522032198239108243482701233143359722471448202830282418889507694547069068049773197101950269643427660226477930460568533378109402451791210314724223548313851322707445405534124002909836618286620068740688720762227438159581287608606979007047077319245053726311049863900624117476065832089243771857636626832662494462208127245772121616809155442789567803345765946573885776623664069176100079692189634384236874498656719501747099713977009082214178194971705202420499535057551529394526454211574038125338004498187581943207229472091046419387864450729573875311718378934041315910934674693377240215679983586441793675962165813957731444833946627423718897696178983896216097543480408996341236873686029800250376612942682082158541930206598690252769895348947245827935850549430483346058307848014055692746471339373928433310095514834074296951595754717943542698667398718909644596069252143036430309600858872971617811192664078310864514962828331614094999169920786326614212035776789143458809930508663990371339694271149807886149359711693811784257060711344307409870510493207320521197570493643070670858958055885207907195058910103345731933634800397703514352099817952273312921226080321446945314419529193267302596223066209665065443756642755255078392428758584543857761744476524374920968789096166138902962523083570649994679160976276586424438966943496969322277009454395600483862901564019202531392208093592700957074894522718485026768972550288661890842330424655167038151136012365036361483884514973446614021225448108623147155536215936181888046720453080012952087502092581354243002756331248243040618643785481021927273593332067938825043845604510396868901271281261990701233673381817195650457226690768655258116235663135494321079565151842548931440635388741939242526841972619747224493176243784629238255643119828729300652833451551107903937626346504260079736025996650121886304670342126140670814226971462008306821365184095047305248139834716961531905103022374809384807709539099990535679449363786203451346610419001592763364774384532905686160063821305162526801503935329890150221827120645857326418273027547465798232820534796485028692780345062515746159349045967689025544483589338489820734001859227622232745625708868862026593365493687220286709000573878933116152364531507635011829597319025322595421926559683282460316381945822613402947706812081580193965451605528010892672034869851760051379743483979344756547080682038408844290985335050352181949538449104613619606909510514664006024761547293430236429292852441708059399753500064257268629100166032086594139288096645995169302619349574327908753470249278155073089415324864136382563924908537983625256578397064874182882653799912165995469775796373822152617660669376848382903215502783482985764983475510232371871688353833066436151976891627380613272569881653227217696717075420346785687782629660043321847657674392464730753031162675313033245868503571273896513624174400867503818783040443045808586748316034617559153521274495271341416825989360978789221707637391395475082863475846321885345250031796204469497583492780024578728138648559916876191786179386168238276917298840244955770349716983631505438758557336510397735133651956910061719206852673297701165467794484156922122992283426321124181519735969450, 1238578150) := by decide
  have hA4 : (List.range' 469 155).foldl mtInitStep (208035992059834220210739403860728342738800931043459486417504744921804576107301366385882394524307886925326709696410060582571046786712134496918680416680943980311066992226858813038158927200790845598215711110835894507175269770154890531204982837147618802169414808789689761340145628204325618684484621084722441958161688016912421324099288963862239707572182297748227280386198437174447562714349206330194231572762662762674053155475771665202461967933320018913447100034822422979762921114852233133745576130783196381780778154639938751526666234888584530838691192559067459885896673777031593894819048214030450001105630867808582019623280500818645748904258121605299616105273501469975390354896905351370065909776688882633566671587816910500850860633757388199674372573806022960141881055611948866582181676984992901211490256893552544053009758012815604042798812545932751839558253589243749120015197466527216261562425157060089434385830128221712921455503857981414724425113344425234417175596485899270224729087117754854529668640368446340138470234658099993888506482262882918737993134441175774420907183556006556526463607863094934465644577286327377037704901665089009686910392150759300282925219129503035871976228333770430160588331838335667898481327016830105004452391732752044350994760100926516599261747797281390254840875472538528767606952072030869182689372165871386955618806855235067576949371522032198239108243482701233143359722471448202830282418889507694547069068049773197101950269643427660226477930460568533378109402451791210314724223548313851322707445405534124002909836618286620068740688720762227438159581287608606979007047077319245053726311049863900624117476065832089243771857636626832662494462208127245772121616809155442789567803345765946573885776623664069176100079692189634384236874498656719501747099713977009082214178194971705202420499535057551529394526454211574038125338004498187581943207229472091046419387864450729573875311718378934041315910934674693377240215679983586441793675962165813957731444833946627423718897696178983896216097543480408996341236873686029800250376612942682082158541930206598690252769895348947245827935850549430483346058307848014055692746471339373928433310095514834074296951595754717943542698667398718909644596069252143036430309600858872971617811192664078310864514962828331614094999169920786326614212035776789143458809930508663990371339694271149807886149359711693811784257060711344307409870510493207320521197570493643070670858958055885207907195058910103345731933634800397703514352099817952273312921226080321446945314419529193267302596223066209665065443756642755255078392428758584543857761744476524374920968789096166138902962523083570649994679160976276586424438966943496969322277009454395600483862901564019202531392208093592700957074894522718485026768972550288661890842330424655167038151136012365036361483884514973446614021225448108623147155536215936181888046720453080012952087502092581354243002756331248243040618643785481021927273593332067938825043845604510396868901271281261990701233673381817195650457226690768655258116235663135494321079565151842548931440635388741939242526841972619747224493176243784629238255643119828729300652833451551107903937626346504260079736025996650121886304670342126140670814226971462008306821365184095047305248139834716961531905103022374809384807709539099990535679449363786203451346610419001592763364774384532905686160063821305162526801503935329890150221827120645857326418273027547465798232820534796485028692780345062515746159349045967689025544483589338489820734001859227622232745625708868862026593365493687220286709000573878933116152364531507635011829597319025322595421926559683282460316381945822613402947706812081580193965451605528010892672034869851760051379743483979344756547080682038408844290985335050352181949538449104613619606909510514664006024761547293430236429292852441708059399753500064257268629100166032086594139288096645995169302619349574327908753470249278155073089415324864136382563924908537983625256578397064874182882653799912165995469775796373822152617660669376848382903215502783482985764983475510232371871688353833066436151976891627380613272569881653227217696717075420346785687782629660043321847657674392464730753031162675313033245868503571273896513624174400867503818783040443045808586748316034617559153521274495271341416825989360978789221707637391395475082863475846321885345250031796204469497583492780024578728138648559916876191786179386168238276917298840244955770349716983631505438758557336510397735133651956910061719206852673297701165467794484156922122992283426321124181519735969450, 1238578150) = (62685089405509111925910797243914719854890513935494713084094713797279779630627496305943786046941309007281293105221577504421353501605599255248785149356818580886163074212016138319710181437623915839386196989339984175865611290932895638485827512283879634622589907034847096838980553398268338905605705315464924834076955485269257682765843392777664062904318116756644819538761883164862381873685805923051342196114892111881287659915424456096361326051748180740843339721465950121631833352165428366344241754810081140762710579390137795215443629123183303201044796731629341661542390258966032612552126580439913324626563213547393121217728067632048719897064596438939163041106934301355643192260261867872030533878188557727018817797219012064641958276099544136480610826250078810896212505254064619595899307426216931651016613164877613570296351724055264357110051005104450572173606849938075379012356137114572525910752676385589168436483206759652170097284388598518122222819376116616668668677988651997615236221431416155794821321118852088948452164682783715959922435191327367306488124638818446090532334864386359317233873012285172875896330714873881780586230596002778688422250420590175698633544778262136505069053046737202152515000629854634631225453245996997340762744567896897683212149150732909707719966588817675821630380251456266588599804209831660991462715440400663143017564651072677052296295930367391822676512661642282350234567553218318066651318510488484545671729568971887621684270732981974442582657502555066960418690332945218280990034155505553171409775830458482159957769211244505225186771766058316021949327301666418107251589707938065072144733816368743637495699897181007119363672460040974223449086641663004605507793014252452324150238463715514559124307431648478948480649031081489229583165223570218974125422263886587593014744330199975749832650568652404661542746543584685860761547297457070273167102314576665676644281998277713093924236551494770138725647883566971887853912300960949802636372591951717316415323846182747445131420005722224687602711525724505110953736568981699982016588947035894059736087136235396798804019434387781559696138411966704777989194870090051835909943079457649936020314680876367897457337488804889342331824364904005266943816631681518612047693872607083945336048154993001716858914072302230374294986610531277637599664647525761147514008899238689946802093944865612982597431648203028809043429562401771290925843222821220221381984318518256971016750121270624021542153515130386081256853244444367484914891752438843250797295149886721543902585582757118492217204960123203770309672216674331373413106027454841661967870247822106376003696537006476355273043676224973894002060133928765135363584693312631060562155459381152426642778209514491263275588735458188352331628933634618912177576995916817414488324819680108333628484452298807271017999262374749573133359090629722111402666396222385680310709557844049479865847370371052888681758484468279513921172987571336140289500145715018352119752770038578015899178947425013401300127437407370742417936980607757405410607208376626705322894782663757703548808362869195819947150150865798288136994832911439410269353230208345410503242199606186650417333579047848825834242257112060317620885151293421378661990197161958015730358249113963865616811805417654957899792836277351433146683316643158745577273742588847277405020330699298979666450169324546781433015633218213248018986767013905101885085728066131985273947793365444250280947765884488609302913437528001802423347517836456663978922564542901160075954132077499502061844004777463229898312792357201472450520034421742281215395838957029567457078867297742321364249618062920323524100796395855490398720473188748064226082130624085325443879193454095100721902723688608983702297802922465778395428510531587340343771240068168890882622394112252370643121994567113348850616779414952571984309063927162547038575769391208822294299053225776973195785292510157058775147687493667385905281728614066936870793483631104130486096422866739022254251631022238998824784309871214211336594149372534724828516536519652291847191320934127662041939033266344757810255450761243406685982638804631309022215852991706323223872506356963395668107287976200691035733250165615782065576159415303394415966535152327550107294310945533761757937224536792146711105700674959937207778503501562879445241463662142281185819506210181780721218897488871995890898495582077564387715740371190275817001449471008660140255770382875594805433223352833476546594040372715841292252983175468170554585838014797017976570586587751089146553833551413146641975370517778330202052282190648141351908509904289169596729111939424597802445523234111653813513351586367960175769546506050051493655326103823629699245586418016468660736051425039803522537493270385743437525903109563398688573456345292160567787373069854610200635728800730405759403691875432721043746233636765094325962472698626875833148826372580999341547042531665331710768365982359935219565301595187067772247975847412037958098451506998773182171027695752045356894447709388159633645629545493246019135820915900506906032640701290570506299065346661219735445730896769091171352761432210047450382980030625592142825700677633624952217795344145832513082782540989616413040988227257601039794195623143595351637462190706636535912449334420058581521218743569834717812580171279915160794789675762903718339466089866492140118823551337811927493524761760551434001520245324751568861558716803095718510972066599595072196209156923318071322517301806566620458899402166430591631348363311478802800521980525250372511467674969151489645720009661369785217086930227581405674315978920044798755483144811069077253851302610194739624245401270682864202663540116818822475326676741780611737275972111438408802370422377608919256570335384654037352344114105999356653180812503717835632673409647782213628400383443178293619326757139369589058612122088577237252104060778375287897543799460272211546791798613974575310224299012205778134871255296492395729078221387894808011355820153110205338707003138385845672884757408327786763143168159295742358655797897448897721796416755370, 2905164258) := by decide
  have hG : mtInitGenrand 19650218 = 62685089405509111925910797243914719854890513935494713084094713797279779630627496305943786046941309007281293105221577504421353501605599255248785149356818580886163074212016138319710181437623915839386196989339984175865611290932895638485827512283879634622589907034847096838980553398268338905605705315464924834076955485269257682765843392777664062904318116756644819538761883164862381873685805923051342196114892111881287659915424456096361326051748180740843339721465950121631833352165428366344241754810081140762710579390137795215443629123183303201044796731629341661542390258966032612552126580439913324626563213547393121217728067632048719897064596438939163041106934301355643192260261867872030533878188557727018817797219012064641958276099544136480610826250078810896212505254064619595899307426216931651016613164877613570296351724055264357110051005104450572173606849938075379012356137114572525910752676385589168436483206759652170097284388598518122222819376116616668668677988651997615236221431416155794821321118852088948452164682783715959922435191327367306488124638818446090532334864386359317233873012285172875896330714873881780586230596002778688422250420590175698633544778262136505069053046737202152515000629854634631225453245996997340762744567896897683212149150732909707719966588817675821630380251456266588599804209831660991462715440400663143017564651072677052296295930367391822676512661642282350234567553218318066651318510488484545671729568971887621684270732981974442582657502555066960418690332945218280990034155505553171409775830458482159957769211244505225186771766058316021949327301666418107251589707938065072144733816368743637495699897181007119363672460040974223449086641663004605507793014252452324150238463715514559124307431648478948480649031081489229583165223570218974125422263886587593014744330199975749832650568652404661542746543584685860761547297457070273167102314576665676644281998277713093924236551494770138725647883566971887853912300960949802636372591951717316415323846182747445131420005722224687602711525724505110953736568981699982016588947035894059736087136235396798804019434387781559696138411966704777989194870090051835909943079457649936020314680876367897457337488804889342331824364904005266943816631681518612047693872607083945336048154993001716858914072302230374294986610531277637599664647525761147514008899238689946802093944865612982597431648203028809043429562401771290925843222821220221381984318518256971016750121270624021542153515130386081256853244444367484914891752438843250797295149886721543902585582757118492217204960123203770309672216674331373413106027454841661967870247822106376003696537006476355273043676224973894002060133928765135363584693312631060562155459381152426642778209514491263275588735458188352331628933634618912177576995916817414488324819680108333628484452298807271017999262374749573133359090629722111402666396222385680310709557844049479865847370371052888681758484468279513921172987571336140289500145715018352119752770038578015899178947425013401300127437407370742417936980607757405410607208376626705322894782663757703548808362869195819947150150865798288136994832911439410269353230208345410503242199606186650417333579047848825834242257112060317620885151293421378661990197161958015730358249113963865616811805417654957899792836277351433146683316643158745577273742588847277405020330699298979666450169324546781433015633218213248018986767013905101885085728066131985273947793365444250280947765884488609302913437528001802423347517836456663978922564542901160075954132077499502061844004777463229898312792357201472450520034421742281215395838957029567457078867297742321364249618062920323524100796395855490398720473188748064226082130624085325443879193454095100721902723688608983702297802922465778395428510531587340343771240068168890882622394112252370643121994567113348850616779414952571984309063927162547038575769391208822294299053225776973195785292510157058775147687493667385905281728614066936870793483631104130486096422866739022254251631022238998824784309871214211336594149372534724828516536519652291847191320934127662041939033266344757810255450761243406685982638804631309022215852991706323223872506356963395668107287976200691035733250165615782065576159415303394415966535152327550107294310945533761757937224536792146711105700674959937207778503501562879445241463662142281185819506210181780721218897488871995890898495582077564387715740371190275817001449471008660140255770382875594805433223352833476546594040372715841292252983175468170554585838014797017976570586587751089146553833551413146641975370517778330202052282190648141351908509904289169596729111939424597802445523234111653813513351586367960175769546506050051493655326103823629699245586418016468660736051425039803522537493270385743437525903109563398688573456345292160567787373069854610200635728800730405759403691875432721043746233636765094325962472698626875833148826372580999341547042531665331710768365982359935219565301595187067772247975847412037958098451506998773182171027695752045356894447709388159633645629545493246019135820915900506906032640701290570506299065346661219735445730896769091171352761432210047450382980030625592142825700677633624952217795344145832513082782540989616413040988227257601039794195623143595351637462190706636535912449334420058581521218743569834717812580171279915160794789675762903718339466089866492140118823551337811927493524761760551434001520245324751568861558716803095718510972066599595072196209156923318071322517301806566620458899402166430591631348363311478802800521980525250372511467674969151489645720009661369785217086930227581405674315978920044798755483144811069077253851302610194739624245401270682864202663540116818822475326676741780611737275972111438408802370422377608919256570335384654037352344114105999356653180812503717835632673409647782213628400383443178293619326757139369589058612122088577237252104060778375287897543799460272211546791798613974575310224299012205778134871255296492395729078221387894808011355820153110205338707003138385845672884757408327786763143168159295742358655797897448897721796416755370 := by
    unfold mtInitGenrand
    rw [show List.range' 1 623 =
        List.range' 1 156 ++ (List.range' 157 156 ++ (List.range' 313 156 ++ List.range' 469 155))
      from by decide]
    rw [List.foldl_append, hA1, List.foldl_append, hA2, List.foldl_append, hA3, hA4]
  have hB1 : (List.range' 0 156).foldl (fun st _ => mtMixStep1 [32338] st) (62685089405509111925910797243914719854890513935494713084094713797279779630627496305943786046941309007281293105221577504421353501605599255248785149356818580886163074212016138319710181437623915839386196989339984175865611290932895638485827512283879634622589907034847096838980553398268338905605705315464924834076955485269257682765843392777664062904318116756644819538761883164862381873685805923051342196114892111881287659915424456096361326051748180740843339721465950121631833352165428366344241754810081140762710579390137795215443629123183303201044796731629341661542390258966032612552126580439913324626563213547393121217728067632048719897064596438939163041106934301355643192260261867872030533878188557727018817797219012064641958276099544136480610826250078810896212505254064619595899307426216931651016613164877613570296351724055264357110051005104450572173606849938075379012356137114572525910752676385589168436483206759652170097284388598518122222819376116616668668677988651997615236221431416155794821321118852088948452164682783715959922435191327367306488124638818446090532334864386359317233873012285172875896330714873881780586230596002778688422250420590175698633544778262136505069053046737202152515000629854634631225453245996997340762744567896897683212149150732909707719966588817675821630380251456266588599804209831660991462715440400663143017564651072677052296295930367391822676512661642282350234567553218318066651318510488484545671729568971887621684270732981974442582657502555066960418690332945218280990034155505553171409775830458482159957769211244505225186771766058316021949327301666418107251589707938065072144733816368743637495699897181007119363672460040974223449086641663004605507793014252452324150238463715514559124307431648478948480649031081489229583165223570218974125422263886587593014744330199975749832650568652404661542746543584685860761547297457070273167102314576665676644281998277713093924236551494770138725647883566971887853912300960949802636372591951717316415323846182747445131420005722224687602711525724505110953736568981699982016588947035894059736087136235396798804019434387781559696138411966704777989194870090051835909943079457649936020314680876367897457337488804889342331824364904005266943816631681518612047693872607083945336048154993001716858914072302230374294986610531277637599664647525761147514008899238689946802093944865612982597431648203028809043429562401771290925843222821220221381984318518256971016750121270624021542153515130386081256853244444367484914891752438843250797295149886721543902585582757118492217204960123203770309672216674331373413106027454841661967870247822106376003696537006476355273043676224973894002060133928765135363584693312631060562155459381152426642778209514491263275588735458188352331628933634618912177576995916817414488324819680108333628484452298807271017999262374749573133359090629722111402666396222385680310709557844049479865847370371052888681758484468279513921172987571336140289500145715018352119752770038578015899178947425013401300127437407370742417936980607757405410607208376626705322894782663757703548808362869195819947150150865798288136994832911439410269353230208345410503242199606186650417333579047848825834242257112060317620885151293421378661990197161958015730358249113963865616811805417654957899792836277351433146683316643158745577273742588847277405020330699298979666450169324546781433015633218213248018986767013905101885085728066131985273947793365444250280947765884488609302913437528001802423347517836456663978922564542901160075954132077499502061844004777463229898312792357201472450520034421742281215395838957029567457078867297742321364249618062920323524100796395855490398720473188748064226082130624085325443879193454095100721902723688608983702297802922465778395428510531587340343771240068168890882622394112252370643121994567113348850616779414952571984309063927162547038575769391208822294299053225776973195785292510157058775147687493667385905281728614066936870793483631104130486096422866739022254251631022238998824784309871214211336594149372534724828516536519652291847191320934127662041939033266344757810255450761243406685982638804631309022215852991706323223872506356963395668107287976200691035733250165615782065576159415303394415966535152327550107294310945533761757937224536792146711105700674959937207778503501562879445241463662142281185819506210181780721218897488871995890898495582077564387715740371190275817001449471008660140255770382875594805433223352833476546594040372715841292252983175468170554585838014797017976570586587751089146553833551413146641975370517778330202052282190648141351908509904289169596729111939424597802445523234111653813513351586367960175769546506050051493655326103823629699245586418016468660736051425039803522537493270385743437525903109563398688573456345292160567787373069854610200635728800730405759403691875432721043746233636765094325962472698626875833148826372580999341547042531665331710768365982359935219565301595187067772247975847412037958098451506998773182171027695752045356894447709388159633645629545493246019135820915900506906032640701290570506299065346661219735445730896769091171352761432210047450382980030625592142825700677633624952217795344145832513082782540989616413040988227257601039794195623143595351637462190706636535912449334420058581521218743569834717812580171279915160794789675762903718339466089866492140118823551337811927493524761760551434001520245324751568861558716803095718510972066599595072196209156923318071322517301806566620458899402166430591631348363311478802800521980525250372511467674969151489645720009661369785217086930227581405674315978920044798755483144811069077253851302610194739624245401270682864202663540116818822475326676741780611737275972111438408802370422377608919256570335384654037352344114105999356653180812503717835632673409647782213628400383443178293619326757139369589058612122088577237252104060778375287897543799460272211546791798613974575310224299012205778134871255296492395729078221387894808011355820153110205338707003138385845672884757408327786763143168159295742358655797897448897721796416755370, 1, 0) = (62685089405509111925910797243914719854890513935494713084094713797279779630627496305943786046941309007281293105221577504421353501605599255248785149356818580886163074212016138319710181437623915839386196989339984175865611290932895638485827512283879634622589907034847096838980553398268338905605705315464924834076955485269257682765843392777664062904318116756644819538761883164862381873685805923051342196114892111881287659915424456096361326051748180740843339721465950121631833352165428366344241754810081140762710579390137795215443629123183303201044796731629341661542390258966032612552126580439913324626563213547393121217728067632048719897064596438939163041106934301355643192260261867872030533878188557727018817797219012064641958276099544136480610826250078810896212505254064619595899307426216931651016613164877613570296351724055264357110051005104450572173606849938075379012356137114572525910752676385589168436483206759652170097284388598518122222819376116616668668677988651997615236221431416155794821321118852088948452164682783715959922435191327367306488124638818446090532334864386359317233873012285172875896330714873881780586230596002778688422250420590175698633544778262136505069053046737202152515000629854634631225453245996997340762744567896897683212149150732909707719966588817675821630380251456266588599804209831660991462715440400663143017564651072677052296295930367391822676512661642282350234567553218318066651318510488484545671729568971887621684270732981974442582657502555066960418690332945218280990034155505553171409775830458482159957769211244505225186771766058316021949327301666418107251589707938065072144733816368743637495699897181007119363672460040974223449086641663004605507793014252452324150238463715514559124307431648478948480649031081489229583165223570218974125422263886587593014744330199975749832650568652404661542746543584685860761547297457070273167102314576665676644281998277713093924236551494770138725647883566971887853912300960949802636372591951717316415323846182747445131420005722224687602711525724505110953736568981699982016588947035894059736087136235396798804019434387781559696138411966704777989194870090051835909943079457649936020314680876367897457337488804889342331824364904005266943816631681518612047693872607083945336048154993001716858914072302230374294986610531277637599664647525761147514008899238689946802093944865612982597431648203028809043429562401771290925843222821220221381984318518256971016750121270624021542153515130386081256853244444367484914891752438843250797295149886721543902585582757118492217204960123203770309672216674331373413106027454841661967870247822106376003696537006476355273043676224973894002060133928765135363584693312631060562155459381152426642778209514491263275588735458188352331628933634618912177576995916817414488324819680108333628484452298807271017999262374749573133359090629722111402666396222385680310709557844049479865847370371052888681758484468279513921172987571336140289500145715018352119752770038578015899178947425013401300127437407370742417936980607757405410607208376626705322894782663757703548808362869195819947150150865798288136994832911439410269353230208345410503242199606186650417333579047848825834242257112060317620885151293421378661990197161958015730358249113963865616811805417654957899792836277351433146683316643158745577273742588847277405020330699298979666450169324546781433015633218213248018986767013905101885085728066131985273947793365444250280947765884488609302913437528001802423347517836456663978922564542901160075954132077499502061844004777463229898312792357201472450520034421742281215395838957029567457078867297742321364249618062920323524100796395855490398720473188748064226082130624085325443879193454095100721902723688608983702297802922465778395428510531587340343771240068168890882622394112252370643121994567113348850616779414952571984309063927162547038575769391208822294299053225776973195785292510157058775147687493667385905281728614066936870793483631104130486096422866739022254251631022238998824784309871214211336594149372534724828516536519652291847191320934127662041939033266344757810255450761243406685982638804631309022215852991706323223872506356963395668107287976200691035733250165615782065576159415303394415966535152327550107294310945533761757937224536792146711105700674959937207778503501562879445241463662142281185819506210181780721218897488871995890898495582077564387715740371190275817001449471008660140255770382875594805433223352833476546594040372715841292252983175468170554585838014797017976570586587751089146553833551413147708234371010176056035576244187603626287901131875573768476499553518896277327793358945825974292657799183148029920886840490482939960037385855712431455692312367749010237108770247544527475192297638379790055180028660019057753109135991454339072424273173948741578956796452601777365164492699257092957041693783768488375589661192665221569880156218878771804259234611225719529617687189170189210391956688848290274966646572186288885966081304623495970911716838510853460525331485482059800811509496759166456773452490085409427178356357435365344904350549545398482119589976503408749233634368077629116501599995102153931770175718707086241161566039469602393365300444163828364625567004444223741729059026624031817722379609651641788914234400833791405836646363058533947504741870859242226837510329554537990904971220893233414544683920727395227182569923972953741002802825803221245234630726921001054635906698973549346933751105261968028486691664730283816304462354374404551315751052156805953271754058491194236495515917812125509497782521688818102373053402567067096115053043927471134002880732193338047192303550979202838180991864081083762146885737866676071748420682989352180622600173926898542765817971826712735599500583415167455669700422945595992022235079990081267939080067187433915289425072714513660967999566551904430038456205938591742359853694227134985329066076263043926179935060285206303723512203477651709781172432474424465588988777554091027072137938664573142774567925176844092605220818706351470700084683970283900917843809260312607934993729836714, 157, 0) := by decide
  have hB2 : (List.range' 156 156).foldl (fun st _ => mtMixStep1 [32338] st) (62685089405509111925910797243914719854890513935494713084094713797279779630627496305943786046941309007281293105221577504421353501605599255248785149356818580886163074212016138319710181437623915839386196989339984175865611290932895638485827512283879634622589907034847096838980553398268338905605705315464924834076955485269257682765843392777664062904318116756644819538761883164862381873685805923051342196114892111881287659915424456096361326051748180740843339721465950121631833352165428366344241754810081140762710579390137795215443629123183303201044796731629341661542390258966032612552126580439913324626563213547393121217728067632048719897064596438939163041106934301355643192260261867872030533878188557727018817797219012064641958276099544136480610826250078810896212505254064619595899307426216931651016613164877613570296351724055264357110051005104450572173606849938075379012356137114572525910752676385589168436483206759652170097284388598518122222819376116616668668677988651997615236221431416155794821321118852088948452164682783715959922435191327367306488124638818446090532334864386359317233873012285172875896330714873881780586230596002778688422250420590175698633544778262136505069053046737202152515000629854634631225453245996997340762744567896897683212149150732909707719966588817675821630380251456266588599804209831660991462715440400663143017564651072677052296295930367391822676512661642282350234567553218318066651318510488484545671729568971887621684270732981974442582657502555066960418690332945218280990034155505553171409775830458482159957769211244505225186771766058316021949327301666418107251589707938065072144733816368743637495699897181007119363672460040974223449086641663004605507793014252452324150238463715514559124307431648478948480649031081489229583165223570218974125422263886587593014744330199975749832650568652404661542746543584685860761547297457070273167102314576665676644281998277713093924236551494770138725647883566971887853912300960949802636372591951717316415323846182747445131420005722224687602711525724505110953736568981699982016588947035894059736087136235396798804019434387781559696138411966704777989194870090051835909943079457649936020314680876367897457337488804889342331824364904005266943816631681518612047693872607083945336048154993001716858914072302230374294986610531277637599664647525761147514008899238689946802093944865612982597431648203028809043429562401771290925843222821220221381984318518256971016750121270624021542153515130386081256853244444367484914891752438843250797295149886721543902585582757118492217204960123203770309672216674331373413106027454841661967870247822106376003696537006476355273043676224973894002060133928765135363584693312631060562155459381152426642778209514491263275588735458188352331628933634618912177576995916817414488324819680108333628484452298807271017999262374749573133359090629722111402666396222385680310709557844049479865847370371052888681758484468279513921172987571336140289500145715018352119752770038578015899178947425013401300127437407370742417936980607757405410607208376626705322894782663757703548808362869195819947150150865798288136994832911439410269353230208345410503242199606186650417333579047848825834242257112060317620885151293421378661990197161958015730358249113963865616811805417654957899792836277351433146683316643158745577273742588847277405020330699298979666450169324546781433015633218213248018986767013905101885085728066131985273947793365444250280947765884488609302913437528001802423347517836456663978922564542901160075954132077499502061844004777463229898312792357201472450520034421742281215395838957029567457078867297742321364249618062920323524100796395855490398720473188748064226082130624085325443879193454095100721902723688608983702297802922465778395428510531587340343771240068168890882622394112252370643121994567113348850616779414952571984309063927162547038575769391208822294299053225776973195785292510157058775147687493667385905281728614066936870793483631104130486096422866739022254251631022238998824784309871214211336594149372534724828516536519652291847191320934127662041939033266344757810255450761243406685982638804631309022215852991706323223872506356963395668107287976200691035733250165615782065576159415303394415966535152327550107294310945533761757937224536792146711105700674959937207778503501562879445241463662142281185819506210181780721218897488871995890898495582077564387715740371190275817001449471008660140255770382875594805433223352833476546594040372715841292252983175468170554585838014797017976570586587751089146553833551413147708234371010176056035576244187603626287901131875573768476499553518896277327793358945825974292657799183148029920886840490482939960037385855712431455692312367749010237108770247544527475192297638379790055180028660019057753109135991454339072424273173948741578956796452601777365164492699257092957041693783768488375589661192665221569880156218878771804259234611225719529617687189170189210391956688848290274966646572186288885966081304623495970911716838510853460525331485482059800811509496759166456773452490085409427178356357435365344904350549545398482119589976503408749233634368077629116501599995102153931770175718707086241161566039469602393365300444163828364625567004444223741729059026624031817722379609651641788914234400833791405836646363058533947504741870859242226837510329554537990904971220893233414544683920727395227182569923972953741002802825803221245234630726921001054635906698973549346933751105261968028486691664730283816304462354374404551315751052156805953271754058491194236495515917812125509497782521688818102373053402567067096115053043927471134002880732193338047192303550979202838180991864081083762146885737866676071748420682989352180622600173926898542765817971826712735599500583415167455669700422945595992022235079990081267939080067187433915289425072714513660967999566551904430038456205938591742359853694227134985329066076263043926179935060285206303723512203477651709781172432474424465588988777554091027072137938664573142774567925176844092605220818706351470700084683970283900917843809260312607934993729836714, 157, 0) = (62685089405509111925910797243914719854890513935494713084094713797279779630627496305943786046941309007281293105221577504421353501605599255248785149356818580886163074212016138319710181437623915839386196989339984175865611290932895638485827512283879634622589907034847096838980553398268338905605705315464924834076955485269257682765843392777664062904318116756644819538761883164862381873685805923051342196114892111881287659915424456096361326051748180740843339721465950121631833352165428366344241754810081140762710579390137795215443629123183303201044796731629341661542390258966032612552126580439913324626563213547393121217728067632048719897064596438939163041106934301355643192260261867872030533878188557727018817797219012064641958276099544136480610826250078810896212505254064619595899307426216931651016613164877613570296351724055264357110051005104450572173606849938075379012356137114572525910752676385589168436483206759652170097284388598518122222819376116616668668677988651997615236221431416155794821321118852088948452164682783715959922435191327367306488124638818446090532334864386359317233873012285172875896330714873881780586230596002778688422250420590175698633544778262136505069053046737202152515000629854634631225453245996997340762744567896897683212149150732909707719966588817675821630380251456266588599804209831660991462715440400663143017564651072677052296295930367391822676512661642282350234567553218318066651318510488484545671729568971887621684270732981974442582657502555066960418690332945218280990034155505553171409775830458482159957769211244505225186771766058316021949327301666418107251589707938065072144733816368743637495699897181007119363672460040974223449086641663004605507793014252452324150238463715514559124307431648478948480649031081489229583165223570218974125422263886587593014744330199975749832650568652404661542746543584685860761547297457070273167102314576665676644281998277713093924236551494770138725647883566971887853912300960949802636372591951717316415323846182747445131420005722224687602711525724505110953736568981699982016588947035894059736087136235396798804019434387781559696138411966704777989194870090051835909943079457649936020314680876367897457337488804889342331824364904005266943816631681518612047693872607083945336048154993001716858914072302230374294986610531277637599664647525761147514008899238689946802093944865612982597431648203028809043429562401771290925843222821220221381984318518256971016750121270624021542153515130386081256853244444367484914891752438843250797295149886721543902585582757118492217204960123203770309672216674331373413106027454841661967870247822106376003696537006476355273043676224973894002060133928765135363584693312631060562155459381152426642778209514491263275588735458188352331628933634618912177576995916817414488324819680108333628484452298807271017999262374749573133359090629722111402666396222385680310709557844049479865847370371052888681758484468279513921172987571336140289500145715018352119752770038578015899178947425013401300127437407370742417936980763713208501640117953257955737634509129680799737746331600622138394655862439234593213549551313811736143317582124881079110280984472787219961844281227350539986031114335557655278058439035051756323499269138889821502561921931129925363304378399406379319456105467069984911285666172540936445898670484046283004476022082845848250602332712429832977045694659835519388775282645823690751842993724878069063652712422583194100150252481464926211636714020593717051361702229448235374070568861172384894828550901250266072821550165577529078916709298775478901410449113354121618227478963683891706070173795677113951925009947738836727767813972146215247003689212818088681995369370238403518247252498625291259035948261760994889928171908352901026059833930638950983513518576555575237506903450328624081510715763326609563472085534148774460580403377941446495754889013643333318453596064864208023367361455567091753072904802941980212978153228870345467565592246552169125339927078409559824801579230411113937596862058169398839988763590143357577026127264602706118051880490388789839585099916466174134587594108886637250440990597321367096132094965600268429377234804253895600223110257620934572902669668816301480412225388562830623761245763992235702798859360173123863394601487650093137355527744877748192209775403449528374577926237967081952682885593389661471054180450630683867687088173872813913567732182268307668096138981428446192385164049382230961763514419997481072402237415587320140530413341106099855203682668557496453498639009420824130047958374996781660841202877665241602647642615072102501117425713357267992011699934688398678482744206864920568939292201390554275618332879596409931590962915303298449800977958144631967401732046716381799000431661870182609160750177060302064166179496112818632338549955381413323321203040622920860165450914142041632257472865180982981890470889047070852041404793851467998038851199359136160933691879698164441997340808695021090078088735288018721084807383752218936161444864887313991753799782567081089956783466601703355996383849286760546977191948299290891651269553052723975421011939632046129464957442293400363046468593734844929194196759265460859198893622032521976991909163785293487848336032376481731427942830127239494674733660686871838256701918744318601700239714776499605883465282231334178333076228066581090423343510566265624566581609647716520736951957185473506052070364128807023272370989400560530687911394341500253435159618838046723467175836271064079203892974693254935025577915996048633667979193494098919497105829984337038161300809276983975360153098158173304561476449004677517698215636472029356241494269049535103787522542179244888680325354139752858013521173598427035341647011854860239274632353920235789510293467480483074314992435206741936149864547928069072054855917077816972861562153512970257896171034596318536958559225436836778661159435805583969614192194529197520684990574587601496161249034219735751507691902603330883717650799920595835205414133440491135203546027395918436750718694902660661265494003198354137238011862197731545043015522047658, 313, 0) := by decide
  have hB3 : (List.range' 312 156).foldl (fun st _ => mtMixStep1 [32338] st) (62685089405509111925910797243914719854890513935494713084094713797279779630627496305943786046941309007281293105221577504421353501605599255248785149356818580886163074212016138319710181437623915839386196989339984175865611290932895638485827512283879634622589907034847096838980553398268338905605705315464924834076955485269257682765843392777664062904318116756644819538761883164862381873685805923051342196114892111881287659915424456096361326051748180740843339721465950121631833352165428366344241754810081140762710579390137795215443629123183303201044796731629341661542390258966032612552126580439913324626563213547393121217728067632048719897064596438939163041106934301355643192260261867872030533878188557727018817797219012064641958276099544136480610826250078810896212505254064619595899307426216931651016613164877613570296351724055264357110051005104450572173606849938075379012356137114572525910752676385589168436483206759652170097284388598518122222819376116616668668677988651997615236221431416155794821321118852088948452164682783715959922435191327367306488124638818446090532334864386359317233873012285172875896330714873881780586230596002778688422250420590175698633544778262136505069053046737202152515000629854634631225453245996997340762744567896897683212149150732909707719966588817675821630380251456266588599804209831660991462715440400663143017564651072677052296295930367391822676512661642282350234567553218318066651318510488484545671729568971887621684270732981974442582657502555066960418690332945218280990034155505553171409775830458482159957769211244505225186771766058316021949327301666418107251589707938065072144733816368743637495699897181007119363672460040974223449086641663004605507793014252452324150238463715514559124307431648478948480649031081489229583165223570218974125422263886587593014744330199975749832650568652404661542746543584685860761547297457070273167102314576665676644281998277713093924236551494770138725647883566971887853912300960949802636372591951717316415323846182747445131420005722224687602711525724505110953736568981699982016588947035894059736087136235396798804019434387781559696138411966704777989194870090051835909943079457649936020314680876367897457337488804889342331824364904005266943816631681518612047693872607083945336048154993001716858914072302230374294986610531277637599664647525761147514008899238689946802093944865612982597431648203028809043429562401771290925843222821220221381984318518256971016750121270624021542153515130386081256853244444367484914891752438843250797295149886721543902585582757118492217204960123203770309672216674331373413106027454841661967870247822106376003696537006476355273043676224973894002060133928765135363584693312631060562155459381152426642778209514491263275588735458188352331628933634618912177576995916817414488324819680108333628484452298807271017999262374749573133359090629722111402666396222385680310709557844049479865847370371052888681758484468279513921172987571336140289500145715018352119752770038578015899178947425013401300127437407370742417936980763713208501640117953257955737634509129680799737746331600622138394655862439234593213549551313811736143317582124881079110280984472787219961844281227350539986031114335557655278058439035051756323499269138889821502561921931129925363304378399406379319456105467069984911285666172540936445898670484046283004476022082845848250602332712429832977045694659835519388775282645823690751842993724878069063652712422583194100150252481464926211636714020593717051361702229448235374070568861172384894828550901250266072821550165577529078916709298775478901410449113354121618227478963683891706070173795677113951925009947738836727767813972146215247003689212818088681995369370238403518247252498625291259035948261760994889928171908352901026059833930638950983513518576555575237506903450328624081510715763326609563472085534148774460580403377941446495754889013643333318453596064864208023367361455567091753072904802941980212978153228870345467565592246552169125339927078409559824801579230411113937596862058169398839988763590143357577026127264602706118051880490388789839585099916466174134587594108886637250440990597321367096132094965600268429377234804253895600223110257620934572902669668816301480412225388562830623761245763992235702798859360173123863394601487650093137355527744877748192209775403449528374577926237967081952682885593389661471054180450630683867687088173872813913567732182268307668096138981428446192385164049382230961763514419997481072402237415587320140530413341106099855203682668557496453498639009420824130047958374996781660841202877665241602647642615072102501117425713357267992011699934688398678482744206864920568939292201390554275618332879596409931590962915303298449800977958144631967401732046716381799000431661870182609160750177060302064166179496112818632338549955381413323321203040622920860165450914142041632257472865180982981890470889047070852041404793851467998038851199359136160933691879698164441997340808695021090078088735288018721084807383752218936161444864887313991753799782567081089956783466601703355996383849286760546977191948299290891651269553052723975421011939632046129464957442293400363046468593734844929194196759265460859198893622032521976991909163785293487848336032376481731427942830127239494674733660686871838256701918744318601700239714776499605883465282231334178333076228066581090423343510566265624566581609647716520736951957185473506052070364128807023272370989400560530687911394341500253435159618838046723467175836271064079203892974693254935025577915996048633667979193494098919497105829984337038161300809276983975360153098158173304561476449004677517698215636472029356241494269049535103787522542179244888680325354139752858013521173598427035341647011854860239274632353920235789510293467480483074314992435206741936149864547928069072054855917077816972861562153512970257896171034596318536958559225436836778661159435805583969614192194529197520684990574587601496161249034219735751507691902603330883717650799920595835205414133440491135203546027395918436750718694902660661265494003198354137238011862197731545043015522047658, 313, 0) = (62685089405509111925910797243914719854890513935494713084094713797279779630627496305943786046941309007281293105221577504421353501605599255248785149356818580886163074212016138319710181437623915839386196989339984175865611290932895638485827512283879634622589907034847096838980553398268338905605705315464924834076955485269257682765843392777664062904318116756644819538761883164862381873685805923051342196114892111881287659915424456096361326051748180740843339721465950121631833352165428366344241754810081140762710579390137795215443629123183303201044796731629341661542390258966032612552126580439913324626563213547393121217728067632048719897064596438939163041106934301355643192260261867872030533878188557727018817797219012064641958276099544136480610826250078810896212505254064619595899307426216931651016613164877613570296351724055264357110051005104450572173606849938075379012356137114572525910752676385589168436483206759652170097284388598518122222819376116616668668677988651997615236221431416155794821321118852088948452164682783715959922435191327367306488124638818446090532334864386359317233873012285172875896330714873881780586230596002778688422250420590175698633544778262136505069053046737202152515000629854634631225453245996997340762744567896897683212149150732909707719966588817675821630380251456266588599804209831660991462715440400663143017564651072677052296295930367391822676512661642282350234567553218318066651318510488484545671729568971887621684270732981974442582657502555066960418690332945218281273022933208660546811576025413452839295085371585152989879118634354464454064343282500394608697422302366993345659598879219409643973067040174733769561432821486360096542986543127440209806776913171023509988204787348100812897179192062701194025765608996740918497143395059479768401932173741052252496740099702681386510639209571584367807577095904197145225169647538729994326317542900756593323026926074317600934215217958076218988903563098190456175252392905367605140422461973538601467945865895999727180567589061554157646900299756233882580239752268146870144274902529676968346778398020043649844314891823745117033855865560341173887363414165205958506348794904641560996526611425654181815583224520190190412267624197445508819726241049839481903958583319582161161765197408447693041168086519068261091444400885017725823343547668282175395580096032537515609999205824972920620036440921522320023230695544687045033535066828162363526422944752975916344997846559550415108102639916802725163791514248538203010672140929436083665170117859796764512855985643701706449977986770077218303752207723892417867690899606937281938054959867908764916184765762321632866187738821991158997200360046248975727336894505988527245652750845589198799937734965510101337139872514141643608084727477690728378243991140631438927254750965803342775762202781405985849499882663414638760364769652026372996160172209176649044957273463410857215452755097479437856410341715147429518496318118555417926626795778777305846611530839991228204684060042470403897505916117971896639547723741501465073844226650069814217419068019689624833644421654865563121571180919724932370428170575184258254938927093466726211010612675645207223080418759605899476559756254762449427837874126213590096910566622377573797510308309904064802553682525693031736466697304019674479899738150031935658716015581143393502447640166454359029847461139429142775410128703625765606674624537604412385766443539748204493603738977916512082916996364086164287505183143624167141047671012026146403990881703319312227829376570771189654709478316897589497342966246298736140074182757266037480298808593616141575512413009156650819934978565624972753803668370767024829821541147177942736396584483253067831919783190347335615048414679118691483815214874928093270207447191025143904274167426560712020249141440289925276051179257295296684604699206974668193938522136275847287364877524379120254511180618581318474601535026410564391817035936455348338263812348648696064469195467302917800038628874844167882869962189132498096516384213310825124694283111603687401102284705118847928460195923641647790708417113848777578058975271726180735531321668352881191142943282795332179871621514424633168609206172499512357669754475571781592793756780299365787004223851666834133746790067949820439680744439957800064111930346457415874013892447556172239002403984660219945732392846994735582431075262944193246298638909762360026882092285336299872657843961078911155608374605773215289589503721332247187611423847907228438473113884843909389284511696680481791834667061778483561639537375676964096477478922472842540864820712620367838841951872063470370262920047806604825995902948370799412762158644662389907186051084528287164342694316410525674879678726004840905159596422504680527374693250594371013248048136370673972945507761934231416842737132847463964043074538681558929204626641862931011008626534143872586039102184652696934101397618218497922855647592642455968164784941111776813192779774648614591109017858690466770117430148594844793012315198735108658965194875478861595252911594511504705331822809300342100581388292550175973921637989750144240389411884133319714568659131017485898890390392957647934721982083918338779624842837320658658705946942587809679746025821565166947963121255969671047796654285666661791871111100376294254226158701356303737067119721819385542421349583818169490751960252032193278275407293232708522683176359739991748529742561494060541220793839524899028045175715149001963576360505562344892947188453594170892658352450440968576151261401503408704523675139475792172748353234625893176060135460371143675490279861806328335502839214684195834154369430522270266488840584052649128989963496836564411356012577874075545357100286419636881356959685474056685963149207098086662695713113575570784618281155153944074428723291665039189706578618677165548328527391579368158410583834120649431947746987291099466559269220967896440157408507411492032912677355614671813993983735247993308630456683600696881536603494877089131348389680745504930598751412483812945184880115477143689106969837492873906649488226571097910078858448328362, 469, 0) := by decide
  have hB4 : (List.range' 468 156).foldl (fun st _ => mtMixStep1 [32338] st) (62685089405509111925910797243914719854890513935494713084094713797279779630627496305943786046941309007281293105221577504421353501605599255248785149356818580886163074212016138319710181437623915839386196989339984175865611290932895638485827512283879634622589907034847096838980553398268338905605705315464924834076955485269257682765843392777664062904318116756644819538761883164862381873685805923051342196114892111881287659915424456096361326051748180740843339721465950121631833352165428366344241754810081140762710579390137795215443629123183303201044796731629341661542390258966032612552126580439913324626563213547393121217728067632048719897064596438939163041106934301355643192260261867872030533878188557727018817797219012064641958276099544136480610826250078810896212505254064619595899307426216931651016613164877613570296351724055264357110051005104450572173606849938075379012356137114572525910752676385589168436483206759652170097284388598518122222819376116616668668677988651997615236221431416155794821321118852088948452164682783715959922435191327367306488124638818446090532334864386359317233873012285172875896330714873881780586230596002778688422250420590175698633544778262136505069053046737202152515000629854634631225453245996997340762744567896897683212149150732909707719966588817675821630380251456266588599804209831660991462715440400663143017564651072677052296295930367391822676512661642282350234567553218318066651318510488484545671729568971887621684270732981974442582657502555066960418690332945218281273022933208660546811576025413452839295085371585152989879118634354464454064343282500394608697422302366993345659598879219409643973067040174733769561432821486360096542986543127440209806776913171023509988204787348100812897179192062701194025765608996740918497143395059479768401932173741052252496740099702681386510639209571584367807577095904197145225169647538729994326317542900756593323026926074317600934215217958076218988903563098190456175252392905367605140422461973538601467945865895999727180567589061554157646900299756233882580239752268146870144274902529676968346778398020043649844314891823745117033855865560341173887363414165205958506348794904641560996526611425654181815583224520190190412267624197445508819726241049839481903958583319582161161765197408447693041168086519068261091444400885017725823343547668282175395580096032537515609999205824972920620036440921522320023230695544687045033535066828162363526422944752975916344997846559550415108102639916802725163791514248538203010672140929436083665170117859796764512855985643701706449977986770077218303752207723892417867690899606937281938054959867908764916184765762321632866187738821991158997200360046248975727336894505988527245652750845589198799937734965510101337139872514141643608084727477690728378243991140631438927254750965803342775762202781405985849499882663414638760364769652026372996160172209176649044957273463410857215452755097479437856410341715147429518496318118555417926626795778777305846611530839991228204684060042470403897505916117971896639547723741501465073844226650069814217419068019689624833644421654865563121571180919724932370428170575184258254938927093466726211010612675645207223080418759605899476559756254762449427837874126213590096910566622377573797510308309904064802553682525693031736466697304019674479899738150031935658716015581143393502447640166454359029847461139429142775410128703625765606674624537604412385766443539748204493603738977916512082916996364086164287505183143624167141047671012026146403990881703319312227829376570771189654709478316897589497342966246298736140074182757266037480298808593616141575512413009156650819934978565624972753803668370767024829821541147177942736396584483253067831919783190347335615048414679118691483815214874928093270207447191025143904274167426560712020249141440289925276051179257295296684604699206974668193938522136275847287364877524379120254511180618581318474601535026410564391817035936455348338263812348648696064469195467302917800038628874844167882869962189132498096516384213310825124694283111603687401102284705118847928460195923641647790708417113848777578058975271726180735531321668352881191142943282795332179871621514424633168609206172499512357669754475571781592793756780299365787004223851666834133746790067949820439680744439957800064111930346457415874013892447556172239002403984660219945732392846994735582431075262944193246298638909762360026882092285336299872657843961078911155608374605773215289589503721332247187611423847907228438473113884843909389284511696680481791834667061778483561639537375676964096477478922472842540864820712620367838841951872063470370262920047806604825995902948370799412762158644662389907186051084528287164342694316410525674879678726004840905159596422504680527374693250594371013248048136370673972945507761934231416842737132847463964043074538681558929204626641862931011008626534143872586039102184652696934101397618218497922855647592642455968164784941111776813192779774648614591109017858690466770117430148594844793012315198735108658965194875478861595252911594511504705331822809300342100581388292550175973921637989750144240389411884133319714568659131017485898890390392957647934721982083918338779624842837320658658705946942587809679746025821565166947963121255969671047796654285666661791871111100376294254226158701356303737067119721819385542421349583818169490751960252032193278275407293232708522683176359739991748529742561494060541220793839524899028045175715149001963576360505562344892947188453594170892658352450440968576151261401503408704523675139475792172748353234625893176060135460371143675490279861806328335502839214684195834154369430522270266488840584052649128989963496836564411356012577874075545357100286419636881356959685474056685963149207098086662695713113575570784618281155153944074428723291665039189706578618677165548328527391579368158410583834120649431947746987291099466559269220967896440157408507411492032912677355614671813993983735247993308630456683600696881536603494877089131348389680745504930598751412483812945184880115477143689106969837492873906649488226571097910078858448328362, 469, 0) = (67352342780403326819389718021273822771893431041766980331738731045351842876988939884642125647502941085169224680751224338450888429935357960701534137615870864225210689723606919564372989535720812656244005062260582553988550871793389093150798976483512350461226676527233205063553924702819053951646714108677677534321774823858583059026461463503238013933948266367163839670282696408423638211677523738866579529243289417659450623962621893893309599665038387395515735276128949896429962908956664096863910631698256307700767557240854733814957850947478569317263403801830336126915629556354149464471174135493395177710374799083310596374939347889357071098370653855348965558572942698267760199379768716615744860252628391772419664836072632680525656440877134186091177082961221150070461098231042883512000994038704693301088102202435929767432771646976464371859730586879157349665201168330690247799380144350178236145946521455385505355924993053566493854594614097446769019905162982368582713361765432650780025637448011736224090227300558725900240385617126698207302089934924414758840519429001511879298670762171127669714764544424739623552759034641239476422993008121778587682706178233307606558281330005348675383405309503189290041937824993819430883863497407293907924394907299909141546334227670944300719528395131771964680270604128036061478346686881488365143697970608556167627072789337113445363955354673931274699902090660914308596285866619889683444233401834370207092183923626629612268025528108790155590999130800582919844560275671595455261190898203490046514521281399915455276954953929891557499878145421902967426926126547399214527435981928768254936948457729327033390471160427553250057735905933294068624688133447251584829933349569676881021653450545688615451335009710840127347736123314746992126339385988311624299713394095880093621201943362424205638580084574509704742573599543141039999619595519627461480143929134725772411190477900855915064409582334138188063997621789883650695764792881845136905166228453829625405692457164421424145214282440429590743943334196036259694713179813867933082568745017974187230367365890878928225968457520384126537771782981849109130803395209203602689582164118395910751578999685268832428175796901675180328640604475138893232400161144595345023111139524283224526152827563136250248904305633577968462390192894585872879463008469049325429303520790008311322922640189796086545836610460053835900323183688284684681743531944858224160659410450023029067764590912347013746073725004493154438888499770815617275752057689736820272330324212856426696304180080955359412117387595521347352636529907273306388324802879264594424866684499473959680819386257901155956618847413936518705219509644397816169866043081042272982348437767178071638010668606733036147107299225760552840999325314313291321022108494523267536786075359509203283601780204385847268717086303313060569041536268034217927694567113241169147191444062422496385263078261608550828260141346877377060505227729535643979636649311929505063854167681265389652406219148832197474271550055198503429424078122551237578573252273110625394468250588274042136591842424701538194389624758635790263095451923544821469019424162517202740786812941357271388082073117456698618449307018759838824615928686001436365557232291422204752199023034934189208979757854800547750132108374696493954030165653698671986496338397505164157890637959322027396567623475830416009366691788397784815211658941761541083843043377341785096640579805622240474708517861096529668856079245317714555612137505579864187204259931512185733545428143304643066134232608638056880889679437207751640033868693883927272409278142223089139286135259081638442576646643112272295679468908462121367980075589922711152368715676504237504911103579083919697144318011840557082717942161359412369571106276079483377750778787627901104268600377636017605740684420543224750028082590370983002898847829735617745275862139061008908843663999242783580025456780792601220353780554582056000302464045989288335847086666008427586968537644705882711039915007867886267124185020409042561037488638099389575955220294993059204457378400602897353672138572543010721483481277364887755297021266534645412652691716155994841159768821901883477287214757161069975883578744405262299829078755811570840712553365662649081537564231110422452424836541867398595613075996983565073602940053669184983370496227935677642468452255012194481398748732208415082914952696364444860599081741869902766854199651748585391353623033624171777267571841371896106346126139546055699752547758570857213556903182335366088494828572991934794228152531558817585039380650687174330450755246466780663915065751503697343511504885802998602028339350772862197708034129950919844859781422852510122283659252596796230193882253789448807792837712137358692524315720524736697695375693517302186966195746207769236333978665543326279090529081189125726034625195126957859104323305740811986536959705542537731862612892504395886644671072882974583771484728442647496818712500938845705457267295510957393662751340946090874065891287169497580729470686011370834918165042415644323451697727856563047957007708120548913854194850611900164723039554588195046584541261905768081805608304394720234743400183344493518352768083336096674667906318455377115507326203274760577183216249119992796140633753589645326444646094932573954620514973691575397496551826499069683394588344420921277279981859856771709674881058293927948393035967509332265720174572573537483584726241095000163965906868273445129970894529361231585067527252048046994541035492425259851682478494509850179895046110855004765652217648390651734783006311885251472007962618329025216743679132292827528017073820378947310257843752019671701874516929113849691120743261170244867529150773090660633812913546324128516929148770389861906289760846401996834246931529820993888854343120100047308936226143588050152498237634476788888136033950686355650445957624205846429587244849031541362599479834166125073569156447303477915739986083241687894255192623685108821552720937159450310089021083833297141923598108496786489858351645391964294682167502338661409604642907018121368996620790520255, 2, 0) := by decide
  have hC1 : (List.range' 0 156).foldl (fun st _ => mtMixStep2 st) (67352342780403326819389718021273822771893431041766980331738731045351842876988939884642125647502941085169224680751224338450888429935357960701534137615870864225210689723606919564372989535720812656244005062260582553988550871793389093150798976483512350461226676527233205063553924702819053951646714108677677534321774823858583059026461463503238013933948266367163839670282696408423638211677523738866579529243289417659450623962621893893309599665038387395515735276128949896429962908956664096863910631698256307700767557240854733814957850947478569317263403801830336126915629556354149464471174135493395177710374799083310596374939347889357071098370653855348965558572942698267760199379768716615744860252628391772419664836072632680525656440877134186091177082961221150070461098231042883512000994038704693301088102202435929767432771646976464371859730586879157349665201168330690247799380144350178236145946521455385505355924993053566493854594614097446769019905162982368582713361765432650780025637448011736224090227300558725900240385617126698207302089934924414758840519429001511879298670762171127669714764544424739623552759034641239476422993008121778587682706178233307606558281330005348675383405309503189290041937824993819430883863497407293907924394907299909141546334227670944300719528395131771964680270604128036061478346686881488365143697970608556167627072789337113445363955354673931274699902090660914308596285866619889683444233401834370207092183923626629612268025528108790155590999130800582919844560275671595455261190898203490046514521281399915455276954953929891557499878145421902967426926126547399214527435981928768254936948457729327033390471160427553250057735905933294068624688133447251584829933349569676881021653450545688615451335009710840127347736123314746992126339385988311624299713394095880093621201943362424205638580084574509704742573599543141039999619595519627461480143929134725772411190477900855915064409582334138188063997621789883650695764792881845136905166228453829625405692457164421424145214282440429590743943334196036259694713179813867933082568745017974187230367365890878928225968457520384126537771782981849109130803395209203602689582164118395910751578999685268832428175796901675180328640604475138893232400161144595345023111139524283224526152827563136250248904305633577968462390192894585872879463008469049325429303520790008311322922640189796086545836610460053835900323183688284684681743531944858224160659410450023029067764590912347013746073725004493154438888499770815617275752057689736820272330324212856426696304180080955359412117387595521347352636529907273306388324802879264594424866684499473959680819386257901155956618847413936518705219509644397816169866043081042272982348437767178071638010668606733036147107299225760552840999325314313291321022108494523267536786075359509203283601780204385847268717086303313060569041536268034217927694567113241169147191444062422496385263078261608550828260141346877377060505227729535643979636649311929505063854167681265389652406219148832197474271550055198503429424078122551237578573252273110625394468250588274042136591842424701538194389624758635790263095451923544821469019424162517202740786812941357271388082073117456698618449307018759838824615928686001436365557232291422204752199023034934189208979757854800547750132108374696493954030165653698671986496338397505164157890637959322027396567623475830416009366691788397784815211658941761541083843043377341785096640579805622240474708517861096529668856079245317714555612137505579864187204259931512185733545428143304643066134232608638056880889679437207751640033868693883927272409278142223089139286135259081638442576646643112272295679468908462121367980075589922711152368715676504237504911103579083919697144318011840557082717942161359412369571106276079483377750778787627901104268600377636017605740684420543224750028082590370983002898847829735617745275862139061008908843663999242783580025456780792601220353780554582056000302464045989288335847086666008427586968537644705882711039915007867886267124185020409042561037488638099389575955220294993059204457378400602897353672138572543010721483481277364887755297021266534645412652691716155994841159768821901883477287214757161069975883578744405262299829078755811570840712553365662649081537564231110422452424836541867398595613075996983565073602940053669184983370496227935677642468452255012194481398748732208415082914952696364444860599081741869902766854199651748585391353623033624171777267571841371896106346126139546055699752547758570857213556903182335366088494828572991934794228152531558817585039380650687174330450755246466780663915065751503697343511504885802998602028339350772862197708034129950919844859781422852510122283659252596796230193882253789448807792837712137358692524315720524736697695375693517302186966195746207769236333978665543326279090529081189125726034625195126957859104323305740811986536959705542537731862612892504395886644671072882974583771484728442647496818712500938845705457267295510957393662751340946090874065891287169497580729470686011370834918165042415644323451697727856563047957007708120548913854194850611900164723039554588195046584541261905768081805608304394720234743400183344493518352768083336096674667906318455377115507326203274760577183216249119992796140633753589645326444646094932573954620514973691575397496551826499069683394588344420921277279981859856771709674881058293927948393035967509332265720174572573537483584726241095000163965906868273445129970894529361231585067527252048046994541035492425259851682478494509850179895046110855004765652217648390651734783006311885251472007962618329025216743679132292827528017073820378947310257843752019671701874516929113849691120743261170244867529150773090660633812913546324128516929148770389861906289760846401996834246931529820993888854343120100047308936226143588050152498237634476788888136033950686355650445957624205846429587244849031541362599479834166125073569156447303477915739986083241687894255192623685108821552720937159450310089021083833297141923598108496786489858351645391964294682167502338661409604642907018121368996620790520255, 2) = (67352342780403326819389718021273822771893431041766980331738731045351842876988939884642125647502941085169224680751224338450888429935357960701534137615870864225210689723606919564372989535720812656244005062260582553988550871793389093150798976483512350461226676527233205063553924702819053951646714108677677534321774823858583059026461463503238013933948266367163839670282696408423638211677523738866579529243289417659450623962621893893309599665038387395515735276128949896429962908956664096863910631698256307700767557240854733814957850947478569317263403801830336126915629556354149464471174135493395177710374799083310596374939347889357071098370653855348965558572942698267760199379768716615744860252628391772419664836072632680525656440877134186091177082961221150070461098231042883512000994038704693301088102202435929767432771646976464371859730586879157349665201168330690247799380144350178236145946521455385505355924993053566493854594614097446769019905162982368582713361765432650780025637448011736224090227300558725900240385617126698207302089934924414758840519429001511879298670762171127669714764544424739623552759034641239476422993008121778587682706178233307606558281330005348675383405309503189290041937824993819430883863497407293907924394907299909141546334227670944300719528395131771964680270604128036061478346686881488365143697970608556167627072789337113445363955354673931274699902090660914308596285866619889683444233401834370207092183923626629612268025528108790155590999130800582919844560275671595455261190898203490046514521281399915455276954953929891557499878145421902967426926126547399214527435981928768254936948457729327033390471160427553250057735905933294068624688133447251584829933349569676881021653450545688615451335009710840127347736123314746992126339385988311624299713394095880093621201943362424205638580084574509704742573599543141039999619595519627461480143929134725772411190477900855915064409582334138188063997621789883650695764792881845136905166228453829625405692457164421424145214282440429590743943334196036259694713179813867933082568745017974187230367365890878928225968457520384126537771782981849109130803395209203602689582164118395910751578999685268832428175796901675180328640604475138893232400161144595345023111139524283224526152827563136250248904305633577968462390192894585872879463008469049325429303520790008311322922640189796086545836610460053835900323183688284684681743531944858224160659410450023029067764590912347013746073725004493154438888499770815617275752057689736820272330324212856426696304180080955359412117387595521347352636529907273306388324802879264594424866684499473959680819386257901155956618847413936518705219509644397816169866043081042272982348437767178071638010668606733036147107299225760552840999325314313291321022108494523267536786075359509203283601780204385847268717086303313060569041536268034217927694567113241169147191444062422496385263078261608550828260141346877377060505227729535643979636649311929505063854167681265389652406219148832197474271550055198503429424078122551237578573252273110625394468250588274042136591842424701538194389624758635790263095451923544821469019424162517202740786812941357271388082073117456698618449307018759838824615928686001436365557232291422204752199023034934189208979757854800547750132108374696493954030165653698671986496338397505164157890637959322027396567623475830416009366691788397784815211658941761541083843043377341785096640579805622240474708517861096529668856079245317714555612137505579864187204259931512185733545428143304643066134232608638056880889679437207751640033868693883927272409278142223089139286135259081638442576646643112272295679468908462121367980075589922711152368715676504237504911103579083919697144318011840557082717942161359412369571106276079483377750778787627901104268600377636017605740684420543224750028082590370983002898847829735617745275862139061008908843663999242783580025456780792601220353780554582056000302464045989288335847086666008427586968537644705882711039915007867886267124185020409042561037488638099389575955220294993059204457378400602897353672138572543010721483481277364887755297021266534645412652691716155994841159768821901883477287214757161069975883578744405262299829078755811570840712553365662649081537564231110422452424836541867398595613075996983565073602940053669184983370496227935677642468452255012194481398748732208415082914952696364444860599081741869902766854199651748585391353623033624171777267571841371896106346126139546055699752547758570857213556903182335366088494828572991934794228153918067823099822305667442696948597589723908517531174133010960686544269529437755091098147083142277656471491628924600919128648511119913565181725993303773578611605393952111179405343854574275202946795877468075178324829519580926784460844663101210662895605171152692780638882219434665367659978553524598510953004850410054520204936175384235712081057432106337629928184403774833599420378427900498239033521456437806624100403147071625003549718385467671821852813052415841469895699568747479624189873318302215201579358554598066594134408279487158608596860639275018792467133566528511948397717907073566125040515180203004602718199151640671496498647527072169831691502510479387678593897687962831293503487379239247117767862194706632436210855804205023122302780869343506506529407282329654218021337399647460038783993739184572161199978435301457057306524792682073610116968812987979350143813429561952332857682253980499496635833062150789654758170164546375266733473989132934909152627156357188801766863496360464679777025218407019851900727282487602499232254458181452197076799969695353806653017521248023128945501318415446179126228215715098787497261368285707931783001891453337353202664267417165660852715321518737779757148426729539577270103370637913123482410498673301399091898145601237537299662879517698001503094200885555146189043901049484501212288433157379331903706732771823129905204949211793989520286287945626973010033325503047329702154620291200769728296319099550613628981773099736136139157183060081165610536894512296632063188189623157374939809614937315775, 158) := by decide
  have hC2 : (List.range' 156 156).foldl (fun st _ => mtMixStep2 st) (67352342780403326819389718021273822771893431041766980331738731045351842876988939884642125647502941085169224680751224338450888429935357960701534137615870864225210689723606919564372989535720812656244005062260582553988550871793389093150798976483512350461226676527233205063553924702819053951646714108677677534321774823858583059026461463503238013933948266367163839670282696408423638211677523738866579529243289417659450623962621893893309599665038387395515735276128949896429962908956664096863910631698256307700767557240854733814957850947478569317263403801830336126915629556354149464471174135493395177710374799083310596374939347889357071098370653855348965558572942698267760199379768716615744860252628391772419664836072632680525656440877134186091177082961221150070461098231042883512000994038704693301088102202435929767432771646976464371859730586879157349665201168330690247799380144350178236145946521455385505355924993053566493854594614097446769019905162982368582713361765432650780025637448011736224090227300558725900240385617126698207302089934924414758840519429001511879298670762171127669714764544424739623552759034641239476422993008121778587682706178233307606558281330005348675383405309503189290041937824993819430883863497407293907924394907299909141546334227670944300719528395131771964680270604128036061478346686881488365143697970608556167627072789337113445363955354673931274699902090660914308596285866619889683444233401834370207092183923626629612268025528108790155590999130800582919844560275671595455261190898203490046514521281399915455276954953929891557499878145421902967426926126547399214527435981928768254936948457729327033390471160427553250057735905933294068624688133447251584829933349569676881021653450545688615451335009710840127347736123314746992126339385988311624299713394095880093621201943362424205638580084574509704742573599543141039999619595519627461480143929134725772411190477900855915064409582334138188063997621789883650695764792881845136905166228453829625405692457164421424145214282440429590743943334196036259694713179813867933082568745017974187230367365890878928225968457520384126537771782981849109130803395209203602689582164118395910751578999685268832428175796901675180328640604475138893232400161144595345023111139524283224526152827563136250248904305633577968462390192894585872879463008469049325429303520790008311322922640189796086545836610460053835900323183688284684681743531944858224160659410450023029067764590912347013746073725004493154438888499770815617275752057689736820272330324212856426696304180080955359412117387595521347352636529907273306388324802879264594424866684499473959680819386257901155956618847413936518705219509644397816169866043081042272982348437767178071638010668606733036147107299225760552840999325314313291321022108494523267536786075359509203283601780204385847268717086303313060569041536268034217927694567113241169147191444062422496385263078261608550828260141346877377060505227729535643979636649311929505063854167681265389652406219148832197474271550055198503429424078122551237578573252273110625394468250588274042136591842424701538194389624758635790263095451923544821469019424162517202740786812941357271388082073117456698618449307018759838824615928686001436365557232291422204752199023034934189208979757854800547750132108374696493954030165653698671986496338397505164157890637959322027396567623475830416009366691788397784815211658941761541083843043377341785096640579805622240474708517861096529668856079245317714555612137505579864187204259931512185733545428143304643066134232608638056880889679437207751640033868693883927272409278142223089139286135259081638442576646643112272295679468908462121367980075589922711152368715676504237504911103579083919697144318011840557082717942161359412369571106276079483377750778787627901104268600377636017605740684420543224750028082590370983002898847829735617745275862139061008908843663999242783580025456780792601220353780554582056000302464045989288335847086666008427586968537644705882711039915007867886267124185020409042561037488638099389575955220294993059204457378400602897353672138572543010721483481277364887755297021266534645412652691716155994841159768821901883477287214757161069975883578744405262299829078755811570840712553365662649081537564231110422452424836541867398595613075996983565073602940053669184983370496227935677642468452255012194481398748732208415082914952696364444860599081741869902766854199651748585391353623033624171777267571841371896106346126139546055699752547758570857213556903182335366088494828572991934794228153918067823099822305667442696948597589723908517531174133010960686544269529437755091098147083142277656471491628924600919128648511119913565181725993303773578611605393952111179405343854574275202946795877468075178324829519580926784460844663101210662895605171152692780638882219434665367659978553524598510953004850410054520204936175384235712081057432106337629928184403774833599420378427900498239033521456437806624100403147071625003549718385467671821852813052415841469895699568747479624189873318302215201579358554598066594134408279487158608596860639275018792467133566528511948397717907073566125040515180203004602718199151640671496498647527072169831691502510479387678593897687962831293503487379239247117767862194706632436210855804205023122302780869343506506529407282329654218021337399647460038783993739184572161199978435301457057306524792682073610116968812987979350143813429561952332857682253980499496635833062150789654758170164546375266733473989132934909152627156357188801766863496360464679777025218407019851900727282487602499232254458181452197076799969695353806653017521248023128945501318415446179126228215715098787497261368285707931783001891453337353202664267417165660852715321518737779757148426729539577270103370637913123482410498673301399091898145601237537299662879517698001503094200885555146189043901049484501212288433157379331903706732771823129905204949211793989520286287945626973010033325503047329702154620291200769728296319099550613628981773099736136139157183060081165610536894512296632063188189623157374939809614937315775, 158) = (67352342780403326819389718021273822771893431041766980331738731045351842876988939884642125647502941085169224680751224338450888429935357960701534137615870864225210689723606919564372989535720812656244005062260582553988550871793389093150798976483512350461226676527233205063553924702819053951646714108677677534321774823858583059026461463503238013933948266367163839670282696408423638211677523738866579529243289417659450623962621893893309599665038387395515735276128949896429962908956664096863910631698256307700767557240854733814957850947478569317263403801830336126915629556354149464471174135493395177710374799083310596374939347889357071098370653855348965558572942698267760199379768716615744860252628391772419664836072632680525656440877134186091177082961221150070461098231042883512000994038704693301088102202435929767432771646976464371859730586879157349665201168330690247799380144350178236145946521455385505355924993053566493854594614097446769019905162982368582713361765432650780025637448011736224090227300558725900240385617126698207302089934924414758840519429001511879298670762171127669714764544424739623552759034641239476422993008121778587682706178233307606558281330005348675383405309503189290041937824993819430883863497407293907924394907299909141546334227670944300719528395131771964680270604128036061478346686881488365143697970608556167627072789337113445363955354673931274699902090660914308596285866619889683444233401834370207092183923626629612268025528108790155590999130800582919844560275671595455261190898203490046514521281399915455276954953929891557499878145421902967426926126547399214527435981928768254936948457729327033390471160427553250057735905933294068624688133447251584829933349569676881021653450545688615451335009710840127347736123314746992126339385988311624299713394095880093621201943362424205638580084574509704742573599543141039999619595519627461480143929134725772411190477900855915064409582334138188063997621789883650695764792881845136905166228453829625405692457164421424145214282440429590743943334196036259694713179813867933082568745017974187230367365890878928225968457520384126537771782981849109130803395209203602689582164118395910751578999685268832428175796901675180328640604475138893232400161144595345023111139524283224526152827563136250248904305633577968462390192894585872879463008469049325429303520790008311322922640189796086545836610460053835900323183688284684681743531944858224160659410450023029067764590912347013746073725004493154438888499770815617275752057689736820272330324212856426696304180080955359412117387595521347352636529907273306388324802879264594424866684499473959680819386257901155956618847413936518705219509644397816169866043081042272982348437767178071638010668606733036147107299225760552840999325314313291321022108494523267536786075359509203283601780204385847268717086303313060569041536268034217927694567113241169147191444062422496385263078261608550828260141346877377060505227729535643979636649311929505063854167681265389652406219148832197474271550055198508070102250615062726237339833656372709046807221532087131492742580934820335027352946081279414000323325465346037748065222520484012129860580077154813279883648000947386591611803054581583742905240803187616235583570359634564397599743264903557806509580585493212815082333477796647187210138110208938111023275059343517362534879087761386839969322806796304066603938500916065667130785604819289614040689177146769134357563986234625902069612132131455880819976939294089602816659389672818968641262136239045546508647945767246135585176768228637742328468973153436633294738305695034177953379802264387309331411685004856999034471419939652083563861097703861932673163865302311544448827221095464119238901109334765539866637031344468316907790041854990177823564222696231641543644164615351798362954290837099570873288548103756645674116557377099416923757580719381718438490208880667642931556571852794283533169696581641444630001934205371465100400884018392833118898707468769210446685037038482808405011729917702888597395854911083903567125281115516161351069220798618911785476914767443747715042338408207323496473294532018445617965353270515637585274640939105997478321080653815373948658768045788883842690277019759918420350414193106861963775075349253302724539255252033686688544767491391933688979092885319118564663387770513630483342377532348792427500238961277734502953902774913280543325145627737141134003057424558257141492920087877485624336641102222674961876979191897781575273533556823706468614046917645029594765981356510742718471674052927415989770585495004375462816635299265705335031965249451981459719556515506165209888917727045278868949164622706390107273048429705550873047850635045283742117430717576072872762854164316089371851474975206975966003400500287419978908934031804135146218330306002428903459807024890180513992077828560733235120824685280985298336137748962646543368950898705662746810639739667790024508425322561901775555185383152609007287272827138520059831283867455757164824341150632061048169006649344072444076823312676753085735978221683997733740666824737186255527238484141029960059206312855045386073720092613587149917754127024197108504431728395943547410263313644575849455024622329778171180619295858995078319401165508896271113035914609581698311203629206261520545455301728478900323746792088006787405982371094249572848118302977510313694292777943399246075450022991695602723953178662071546549406414239292832632770694099205551780311840938015352592716336531912652551014035786564023441301891438273797569055785815040963208762920216425060409984793497298766654659554310657223312326466667097517306422167120301110912231508657981110834755815270641032335793052217538496932719589114873082273694159820988260106958688654835402886278675319183154885026335089792439367437163655370080521481323144569936769480279776670471564579756107104085627058598426408771968298088326393508307916731469544798531186903748515450024434928430830281711373793840546560115352322729925792027540033618846436294840055796262552873956684922348399269212752943388637821446028958770155164233651123112322093225466303, 314) := by decide
  have hC3 : (List.range' 312 156).foldl (fun st _ => mtMixStep2 st) (67352342780403326819389718021273822771893431041766980331738731045351842876988939884642125647502941085169224680751224338450888429935357960701534137615870864225210689723606919564372989535720812656244005062260582553988550871793389093150798976483512350461226676527233205063553924702819053951646714108677677534321774823858583059026461463503238013933948266367163839670282696408423638211677523738866579529243289417659450623962621893893309599665038387395515735276128949896429962908956664096863910631698256307700767557240854733814957850947478569317263403801830336126915629556354149464471174135493395177710374799083310596374939347889357071098370653855348965558572942698267760199379768716615744860252628391772419664836072632680525656440877134186091177082961221150070461098231042883512000994038704693301088102202435929767432771646976464371859730586879157349665201168330690247799380144350178236145946521455385505355924993053566493854594614097446769019905162982368582713361765432650780025637448011736224090227300558725900240385617126698207302089934924414758840519429001511879298670762171127669714764544424739623552759034641239476422993008121778587682706178233307606558281330005348675383405309503189290041937824993819430883863497407293907924394907299909141546334227670944300719528395131771964680270604128036061478346686881488365143697970608556167627072789337113445363955354673931274699902090660914308596285866619889683444233401834370207092183923626629612268025528108790155590999130800582919844560275671595455261190898203490046514521281399915455276954953929891557499878145421902967426926126547399214527435981928768254936948457729327033390471160427553250057735905933294068624688133447251584829933349569676881021653450545688615451335009710840127347736123314746992126339385988311624299713394095880093621201943362424205638580084574509704742573599543141039999619595519627461480143929134725772411190477900855915064409582334138188063997621789883650695764792881845136905166228453829625405692457164421424145214282440429590743943334196036259694713179813867933082568745017974187230367365890878928225968457520384126537771782981849109130803395209203602689582164118395910751578999685268832428175796901675180328640604475138893232400161144595345023111139524283224526152827563136250248904305633577968462390192894585872879463008469049325429303520790008311322922640189796086545836610460053835900323183688284684681743531944858224160659410450023029067764590912347013746073725004493154438888499770815617275752057689736820272330324212856426696304180080955359412117387595521347352636529907273306388324802879264594424866684499473959680819386257901155956618847413936518705219509644397816169866043081042272982348437767178071638010668606733036147107299225760552840999325314313291321022108494523267536786075359509203283601780204385847268717086303313060569041536268034217927694567113241169147191444062422496385263078261608550828260141346877377060505227729535643979636649311929505063854167681265389652406219148832197474271550055198508070102250615062726237339833656372709046807221532087131492742580934820335027352946081279414000323325465346037748065222520484012129860580077154813279883648000947386591611803054581583742905240803187616235583570359634564397599743264903557806509580585493212815082333477796647187210138110208938111023275059343517362534879087761386839969322806796304066603938500916065667130785604819289614040689177146769134357563986234625902069612132131455880819976939294089602816659389672818968641262136239045546508647945767246135585176768228637742328468973153436633294738305695034177953379802264387309331411685004856999034471419939652083563861097703861932673163865302311544448827221095464119238901109334765539866637031344468316907790041854990177823564222696231641543644164615351798362954290837099570873288548103756645674116557377099416923757580719381718438490208880667642931556571852794283533169696581641444630001934205371465100400884018392833118898707468769210446685037038482808405011729917702888597395854911083903567125281115516161351069220798618911785476914767443747715042338408207323496473294532018445617965353270515637585274640939105997478321080653815373948658768045788883842690277019759918420350414193106861963775075349253302724539255252033686688544767491391933688979092885319118564663387770513630483342377532348792427500238961277734502953902774913280543325145627737141134003057424558257141492920087877485624336641102222674961876979191897781575273533556823706468614046917645029594765981356510742718471674052927415989770585495004375462816635299265705335031965249451981459719556515506165209888917727045278868949164622706390107273048429705550873047850635045283742117430717576072872762854164316089371851474975206975966003400500287419978908934031804135146218330306002428903459807024890180513992077828560733235120824685280985298336137748962646543368950898705662746810639739667790024508425322561901775555185383152609007287272827138520059831283867455757164824341150632061048169006649344072444076823312676753085735978221683997733740666824737186255527238484141029960059206312855045386073720092613587149917754127024197108504431728395943547410263313644575849455024622329778171180619295858995078319401165508896271113035914609581698311203629206261520545455301728478900323746792088006787405982371094249572848118302977510313694292777943399246075450022991695602723953178662071546549406414239292832632770694099205551780311840938015352592716336531912652551014035786564023441301891438273797569055785815040963208762920216425060409984793497298766654659554310657223312326466667097517306422167120301110912231508657981110834755815270641032335793052217538496932719589114873082273694159820988260106958688654835402886278675319183154885026335089792439367437163655370080521481323144569936769480279776670471564579756107104085627058598426408771968298088326393508307916731469544798531186903748515450024434928430830281711373793840546560115352322729925792027540033618846436294840055796262552873956684922348399269212752943388637821446028958770155164233651123112322093225466303, 314) = (67352342780403326819389718021273822771893431041766980331738731045351842876988939884642125647502941085169224680751224338450888429935357960701534137615870864225210689723606919564372989535720812656244005062260582553988550871793389093150798976483512350461226676527233205063553924702819053951646714108677677534321774823858583059026461463503238013933948266367163839670282696408423638211677523738866579529243289417659450623962621893893309599665038387395515735276128949896429962908956664096863910631698256307700767557240854733814957850947478569317263403801830336126915629556354149464471174135493395177710374799083310596374939347889357071098370653855348965558572942698267760199379768716615744860252628391772419664836072632680525656440877134186091177082961221150070461098231042883512000994038704693301088102202435929767432771646976464371859730586879157349665201168330690247799380144350178236145946521455385505355924993053566493854594614097446769019905162982368582713361765432650780025637448011736224090227300558725900240385617126698207302089934924414758840519429001511879298670762171127669714764544424739623552759034641239476422993008121778587682706178233307606558281330005348675383405309503189290041937824993819430883863497407293907924394907299909141546334227670944300719528395131771964680270604128036061478346686881488365143697970608556167627072789337113445363955354673931274699902090660914308596285866619889683444233401834370207092183923626629612268025528108790155590999130800582919844560278157976418857052156766632387523504949144007779802740237839944294075797372770145015559966098737579688528433778597406810650351143246936858962788042296470303943353672415099015679939142153453705843840391561548434885108128359920555300467586974559294156621777330246743912762129761631312060286521057468900000535842142622447256518983783892722924923792617168365594409638521059736825365652539027145754852131275725881629438914673088400063889635842807744800747864153938939822639721841949119196389719892398895721648301457143871372159692509417949907189376157789008647391821331500440377497343073089094846228475458263120430312610057594157161977298371866409438471811501906385625448694033205610219922833282500502988623442871778126874464140521499395406994142654729722880759652514843151996608333693871473940995628717921597363529016396464864212769148386057083673593584573978778495138604854218359457414673489979421532267054465424110742413894593265515873582205196742556624963593048321397289234007751956763677794318003624247207073322003411554451230851188758295084815466703681189540034238967278712089345510077164267252812240268323640896280994592483403355001640759036627293660903733463750752541496411437222030815030301736977168985167575624531123594624366681392633596957927642064141915095537129448677286723141029588201089597792468240754177107175587813961351516118290467759663110472938595555134636811731778101184571253607015072649439833965184860699898131687275780660820911145748980729614921933095321392896238243764749619682490639085067483761319156817747104036090396997213125204237953040918556242813365238006861222713381550339825644962607491344982486333514737763707611378271829442028281015128504716027511299676347890334965811096410699170514804219343656036616029017896527041778535713965801499865576138427389232466180580079754796564540416372203112479935272687464401822230383604417611488244708871015770872307511102403586892061260415145209439982945559777120944848211709542811213863053351428718755700959148183668495847285355931567140767593649155072818500833436749467145236968009884533290874009260073012727549723922975873510568942510681673619675028674010728011481086594106052684130699533334055506151708487850867475367500754178078369953192621714084590643167764731236760149945853990513620243846379135908524068869375407444448096517100056565529818915582893686865787934790393818185826690759505052815811437372644826244540440723001243255927046968417408736567105703459296805291873438413717040981177902928301720013037157969364993660365203099221922690923268346467772090349370744868695015404992716976841864810379463761387515879709778909480613911475454643925221012667376288909198577959651431414094534395475423779436498313205107803535985766906562411146302124262731450397655237311691490026525283543931773608049833686143929534375314836043221187681758934465913634952852969356757249649607591461917886681237055119007425815631162973574255898302618315138298157213879020227657763174443554787562074003994511119669102660916740687005459719993921200857695457232047106995317203565958788012187778194878202801340741982775682758408161839968160959679186980597213189565495231063368019534945024246715180081266648190499943008021341659847994096770277111070438867116340798275028457449904135112886268992981337468479460542912817086252559386847993458684724580845987429013979998777121185132583845823204242714082988561700764518567079453487775361303093013318253629913736155077424421518949119310987266747309890310194333992553765558630760222573671019185911995695930470490600769722994345620658243493276418652391324043772589131771631597152269987458362191650019088695055663005368190295568470281511597239969261437343377461655237575683792417363190259425009622278902600394566706376039353518527577754680051749182620055493730783388791361424841280655016778973158445123652338121611703734186672781748013762203137326179966644712845686762262875657044173941057149506338466599955086781925018237268856718916590244044170729849348878082905991710418928281557062280006491709073885391808481760660405660622165721641077149560258682165078412738365929621317423041008231817443399939265478962740948257148909473190012326343189634558591684788104377411582704060014065576140114549159772005285333178379984122003545778016356282365820391370531909590845843462917253227428834908136183574237464988299065881759511356789313564788657031830846136787119599739346230320474037165087426929748818871239367255095545520191654985905890739651959219408862542649349222552322547482226270062025409706549264592427590496642238616678317184332108140829816803678655, 470) := by decide
  have hC4 : (List.range' 468 155).foldl (fun st _ => mtMixStep2 st) (67352342780403326819389718021273822771893431041766980331738731045351842876988939884642125647502941085169224680751224338450888429935357960701534137615870864225210689723606919564372989535720812656244005062260582553988550871793389093150798976483512350461226676527233205063553924702819053951646714108677677534321774823858583059026461463503238013933948266367163839670282696408423638211677523738866579529243289417659450623962621893893309599665038387395515735276128949896429962908956664096863910631698256307700767557240854733814957850947478569317263403801830336126915629556354149464471174135493395177710374799083310596374939347889357071098370653855348965558572942698267760199379768716615744860252628391772419664836072632680525656440877134186091177082961221150070461098231042883512000994038704693301088102202435929767432771646976464371859730586879157349665201168330690247799380144350178236145946521455385505355924993053566493854594614097446769019905162982368582713361765432650780025637448011736224090227300558725900240385617126698207302089934924414758840519429001511879298670762171127669714764544424739623552759034641239476422993008121778587682706178233307606558281330005348675383405309503189290041937824993819430883863497407293907924394907299909141546334227670944300719528395131771964680270604128036061478346686881488365143697970608556167627072789337113445363955354673931274699902090660914308596285866619889683444233401834370207092183923626629612268025528108790155590999130800582919844560278157976418857052156766632387523504949144007779802740237839944294075797372770145015559966098737579688528433778597406810650351143246936858962788042296470303943353672415099015679939142153453705843840391561548434885108128359920555300467586974559294156621777330246743912762129761631312060286521057468900000535842142622447256518983783892722924923792617168365594409638521059736825365652539027145754852131275725881629438914673088400063889635842807744800747864153938939822639721841949119196389719892398895721648301457143871372159692509417949907189376157789008647391821331500440377497343073089094846228475458263120430312610057594157161977298371866409438471811501906385625448694033205610219922833282500502988623442871778126874464140521499395406994142654729722880759652514843151996608333693871473940995628717921597363529016396464864212769148386057083673593584573978778495138604854218359457414673489979421532267054465424110742413894593265515873582205196742556624963593048321397289234007751956763677794318003624247207073322003411554451230851188758295084815466703681189540034238967278712089345510077164267252812240268323640896280994592483403355001640759036627293660903733463750752541496411437222030815030301736977168985167575624531123594624366681392633596957927642064141915095537129448677286723141029588201089597792468240754177107175587813961351516118290467759663110472938595555134636811731778101184571253607015072649439833965184860699898131687275780660820911145748980729614921933095321392896238243764749619682490639085067483761319156817747104036090396997213125204237953040918556242813365238006861222713381550339825644962607491344982486333514737763707611378271829442028281015128504716027511299676347890334965811096410699170514804219343656036616029017896527041778535713965801499865576138427389232466180580079754796564540416372203112479935272687464401822230383604417611488244708871015770872307511102403586892061260415145209439982945559777120944848211709542811213863053351428718755700959148183668495847285355931567140767593649155072818500833436749467145236968009884533290874009260073012727549723922975873510568942510681673619675028674010728011481086594106052684130699533334055506151708487850867475367500754178078369953192621714084590643167764731236760149945853990513620243846379135908524068869375407444448096517100056565529818915582893686865787934790393818185826690759505052815811437372644826244540440723001243255927046968417408736567105703459296805291873438413717040981177902928301720013037157969364993660365203099221922690923268346467772090349370744868695015404992716976841864810379463761387515879709778909480613911475454643925221012667376288909198577959651431414094534395475423779436498313205107803535985766906562411146302124262731450397655237311691490026525283543931773608049833686143929534375314836043221187681758934465913634952852969356757249649607591461917886681237055119007425815631162973574255898302618315138298157213879020227657763174443554787562074003994511119669102660916740687005459719993921200857695457232047106995317203565958788012187778194878202801340741982775682758408161839968160959679186980597213189565495231063368019534945024246715180081266648190499943008021341659847994096770277111070438867116340798275028457449904135112886268992981337468479460542912817086252559386847993458684724580845987429013979998777121185132583845823204242714082988561700764518567079453487775361303093013318253629913736155077424421518949119310987266747309890310194333992553765558630760222573671019185911995695930470490600769722994345620658243493276418652391324043772589131771631597152269987458362191650019088695055663005368190295568470281511597239969261437343377461655237575683792417363190259425009622278902600394566706376039353518527577754680051749182620055493730783388791361424841280655016778973158445123652338121611703734186672781748013762203137326179966644712845686762262875657044173941057149506338466599955086781925018237268856718916590244044170729849348878082905991710418928281557062280006491709073885391808481760660405660622165721641077149560258682165078412738365929621317423041008231817443399939265478962740948257148909473190012326343189634558591684788104377411582704060014065576140114549159772005285333178379984122003545778016356282365820391370531909590845843462917253227428834908136183574237464988299065881759511356789313564788657031830846136787119599739346230320474037165087426929748818871239367255095545520191654985905890739651959219408862542649349222552322547482226270062025409706549264592427590496642238616678317184332108140829816803678655, 470) = (31154845370965025156026709800364495754732059403873654672926872925675230564332642294762263421344872494269156447866062986960677073534642545460751761512676775558595187667364099811792946538175234018284747479093194878474666870644390760828186784292916755344556311839084670970769318925319850046715980609311147778259355595932834202709324182602106016324277883495987019170058220148202887730893753344114698843307941592893408246783349893773462470569730833305983129428524841189357009019428352433171217143173269539333212864400851942455588277026030947178676681816031037925001781111202234202247371458015986657297302005904825580788391030440886550452143506049512893766858184060822413305833137776473114703541490032638979916489820852382211902256640969129779375242407746152989112126526686052205269676562800803648886160824672985890118540607272387329037125052346277800195130213275221804338674591278477123961228791406584066540021591450066388541205658213646889049202963978730313776936991245721412985156663719663457820199940379496848884021695620912755505728646572610956101426140379244425840259371712925689862455411262294656278144339030573574867094643161139322394085767671009180810421890951696673868524416381077482625991760364827697026341428263044824311388178443911541430629127176138251440942951826752798545818877270344401162629578518323525365274517134636996026006026681367877569958747080171794971024080792924814709765029180546167569748510255659528029921509173529583269434410724992969970704282706240612084662690856650544205075582565926485887382743301333923437605109433986599696106995792620546859836694380153632302233006280169064430634374240714124038793167517564468699051840894742965905055802653633808752166302154884217284995112470298517627718757913001832452645015092483954821150043683913089740238475033702316154602854556913121740440321955824976818781860135047507568254420185335012442422780662016781460678375051218976273191775441293037503538303487068347350388487911908843204439436369186288591638560642689057966372451341339235108724994059047358733509164685003490559163740767882315212118331482743327741629935524413322711103156284879961124590455044131138424245594189487578310963541518079026254244604527762107467840361554872206506310019502459824956014854870801025864239301291417722472553112286594068486798250696509066385848754903112688980193026223278058681955222886548139452851806907710489829669619807944101939565475536283811900910761099993597592370160141089971900328462808884899367513265732925213661586164088746968016329099324303016619924960518903370409809683926723623033151225570721533566936663314661556685905617127027878377027565639005321434413337322558381146226065483738083434838891447541270893229182117448718056684266916530908058266431100842302169551772537296800582918789992928321315969567976550524925231276351583128788332726509770201120239246368259111333463277482658553774698631191251713087699891086237885480141466423526900275663973829547681802057894427582607922588507716845748414833210643442973697394561712387154524184383865213718622947191869468651020163477288907174487832002858203698129690082623091708563328954243509748416260174285215389198468407857682115946418988609735664742601331926037238711274994656129254597745192992000053184792465078114811108831048102330513473710887557981401520053932792943150552832794339909775090755011532917964560062377207947160932616047375812619518570798615899262382794909997203087778096748466784636145038259395437563828432300378212297811153984430900499082323222187799944577755693142404156713989663238961495104060121640943365388872811103877953741380764158660203671968047946050677312507841236234444186418678060919669403026604387443149600200451306997654344727724501724858227625014075989834444178072414486496544277986232905515018368706089363441673987752914946497731507879835492080809966886991468120112420546282704209916925791598011755335664329769635901205438457414852247765386854974381584248957201089323514053490971763548129384500066048061726014721831370898079992196302590389879806575965177816300688938172482576102644056114545244139328582811048035280728125938471534337843796352468248717572188009000157083557265476685015042475930302392384887926149462160034282591879522948709427194039860174386699945604920461935124635209634852896907197933094763563112277898963639763233238627230619957517919803110404885112924289618200102293842146984012945559948697155934330603858084087796387416113936330768252364938290244206121586215383342421294935795311876394915412199856841138042138655073710871977068979036900377204349018319556382749896890919552044854580827713936174206995654317357220176481480473476487768539882649515845496916892245429483926954707901627110290589885808370245649421493995474290535669338032506787947627600160369663239258450951896177321964098052807182539334687288104725045112440081859301672287746145341124407826594591872642027793128764907068506478352168088931638117401840833860054474321346465823490072924993541253396696811812166582057279787029283487309075234059499921344698746303206164851297833403354186028681621924279594405162042631097081033022882234376815320867722241745823784025217422244109864695063978982667542083712489370310721900376170925201195593592801499504708608569104473526918070616931045538913088350363404254748097165956504699229104219118318309233535807490011467002077885339799880530044744392070731001254621856843318959114071532032394309209120314862993358044800921782712905365557821951090069943881095953077760213556553452338935769157572067423035029273787221879801071279103878266213284303824470709484778076685187781017210295322654184815283266821481600458533077868066744592842107990592422258904728816133798297964947274845685874581074298329144451427946580591867971999147289475074678854561396786252262507768605759807495339348929814252487035106070187251087443172187352615476385997246151370524644266821824737738355068511883380182197530098094406990241952152262699270117289165522002717748286585336896008389571459288167087001204198445390998687917338859373645827541381793851259213086457966869021760376304938005817468, 2) := by decide
  have hIBA : mtInitByArray [32338] = 31154845370965025156026709800364495754732059403873654672926872925675230564332642294762263421344872494269156447866062986960677073534642545460751761512676775558595187667364099811792946538175234018284747479093194878474666870644390760828186784292916755344556311839084670970769318925319850046715980609311147778259355595932834202709324182602106016324277883495987019170058220148202887730893753344114698843307941592893408246783349893773462470569730833305983129428524841189357009019428352433171217143173269539333212864400851942455588277026030947178676681816031037925001781111202234202247371458015986657297302005904825580788391030440886550452143506049512893766858184060822413305833137776473114703541490032638979916489820852382211902256640969129779375242407746152989112126526686052205269676562800803648886160824672985890118540607272387329037125052346277800195130213275221804338674591278477123961228791406584066540021591450066388541205658213646889049202963978730313776936991245721412985156663719663457820199940379496848884021695620912755505728646572610956101426140379244425840259371712925689862455411262294656278144339030573574867094643161139322394085767671009180810421890951696673868524416381077482625991760364827697026341428263044824311388178443911541430629127176138251440942951826752798545818877270344401162629578518323525365274517134636996026006026681367877569958747080171794971024080792924814709765029180546167569748510255659528029921509173529583269434410724992969970704282706240612084662690856650544205075582565926485887382743301333923437605109433986599696106995792620546859836694380153632302233006280169064430634374240714124038793167517564468699051840894742965905055802653633808752166302154884217284995112470298517627718757913001832452645015092483954821150043683913089740238475033702316154602854556913121740440321955824976818781860135047507568254420185335012442422780662016781460678375051218976273191775441293037503538303487068347350388487911908843204439436369186288591638560642689057966372451341339235108724994059047358733509164685003490559163740767882315212118331482743327741629935524413322711103156284879961124590455044131138424245594189487578310963541518079026254244604527762107467840361554872206506310019502459824956014854870801025864239301291417722472553112286594068486798250696509066385848754903112688980193026223278058681955222886548139452851806907710489829669619807944101939565475536283811900910761099993597592370160141089971900328462808884899367513265732925213661586164088746968016329099324303016619924960518903370409809683926723623033151225570721533566936663314661556685905617127027878377027565639005321434413337322558381146226065483738083434838891447541270893229182117448718056684266916530908058266431100842302169551772537296800582918789992928321315969567976550524925231276351583128788332726509770201120239246368259111333463277482658553774698631191251713087699891086237885480141466423526900275663973829547681802057894427582607922588507716845748414833210643442973697394561712387154524184383865213718622947191869468651020163477288907174487832002858203698129690082623091708563328954243509748416260174285215389198468407857682115946418988609735664742601331926037238711274994656129254597745192992000053184792465078114811108831048102330513473710887557981401520053932792943150552832794339909775090755011532917964560062377207947160932616047375812619518570798615899262382794909997203087778096748466784636145038259395437563828432300378212297811153984430900499082323222187799944577755693142404156713989663238961495104060121640943365388872811103877953741380764158660203671968047946050677312507841236234444186418678060919669403026604387443149600200451306997654344727724501724858227625014075989834444178072414486496544277986232905515018368706089363441673987752914946497731507879835492080809966886991468120112420546282704209916925791598011755335664329769635901205438457414852247765386854974381584248957201089323514053490971763548129384500066048061726014721831370898079992196302590389879806575965177816300688938172482576102644056114545244139328582811048035280728125938471534337843796352468248717572188009000157083557265476685015042475930302392384887926149462160034282591879522948709427194039860174386699945604920461935124635209634852896907197933094763563112277898963639763233238627230619957517919803110404885112924289618200102293842146984012945559948697155934330603858084087796387416113936330768252364938290244206121586215383342421294935795311876394915412199856841138042138655073710871977068979036900377204349018319556382749896890919552044854580827713936174206995654317357220176481480473476487768539882649515845496916892245429483926954707901627110290589885808370245649421493995474290535669338032506787947627600160369663239258450951896177321964098052807182539334687288104725045112440081859301672287746145341124407826594591872642027793128764907068506478352168088931638117401840833860054474321346465823490072924993541253396696811812166582057279787029283487309075234059499921344698746303206164851297833403354186028681621924279594405162042631097081033022882234376815320867722241745823784025217422244109864695063978982667542083712489370310721900376170925201195593592801499504708608569104473526918070616931045538913088350363404254748097165956504699229104219118318309233535807490011467002077885339799880530044744392070731001254621856843318959114071532032394309209120314862993358044800921782712905365557821951090069943881095953077760213556553452338935769157572067423035029273787221879801071279103878266213284303824470709484778076685187781017210295322654184815283266821481600458533077868066744592842107990592422258904728816133798297964947274845685874581074298329144451427946580591867971999147289475074678854561396786252262507768605759807495339348929814252487035106070187251087443172187352615476385997246151370524644266821824737738355068511883380182197530098094406990241952152262699270117289165522002717748286585336896008389571459288167087001204198445390998687917338859373645827541381793851259213086457966869021760376304938709417984 := by
    show mtSet ((List.range 623).foldl (fun st _ => mtMixStep2 st)
        (((List.range (max 624 ([32338] : List Nat).length)).foldl
            (fun st _ => mtMixStep1 [32338] st) (mtInitGenrand 19650218, 1, 0)).1,
          ((List.range (max 624 ([32338] : List Nat).length)).foldl
            (fun st _ => mtMixStep1 [32338] st) (mtInitGenrand 19650218, 1, 0)).2.1)).1
      0 2147483648 = 31154845370965025156026709800364495754732059403873654672926872925675230564332642294762263421344872494269156447866062986960677073534642545460751761512676775558595187667364099811792946538175234018284747479093194878474666870644390760828186784292916755344556311839084670970769318925319850046715980609311147778259355595932834202709324182602106016324277883495987019170058220148202887730893753344114698843307941592893408246783349893773462470569730833305983129428524841189357009019428352433171217143173269539333212864400851942455588277026030947178676681816031037925001781111202234202247371458015986657297302005904825580788391030440886550452143506049512893766858184060822413305833137776473114703541490032638979916489820852382211902256640969129779375242407746152989112126526686052205269676562800803648886160824672985890118540607272387329037125052346277800195130213275221804338674591278477123961228791406584066540021591450066388541205658213646889049202963978730313776936991245721412985156663719663457820199940379496848884021695620912755505728646572610956101426140379244425840259371712925689862455411262294656278144339030573574867094643161139322394085767671009180810421890951696673868524416381077482625991760364827697026341428263044824311388178443911541430629127176138251440942951826752798545818877270344401162629578518323525365274517134636996026006026681367877569958747080171794971024080792924814709765029180546167569748510255659528029921509173529583269434410724992969970704282706240612084662690856650544205075582565926485887382743301333923437605109433986599696106995792620546859836694380153632302233006280169064430634374240714124038793167517564468699051840894742965905055802653633808752166302154884217284995112470298517627718757913001832452645015092483954821150043683913089740238475033702316154602854556913121740440321955824976818781860135047507568254420185335012442422780662016781460678375051218976273191775441293037503538303487068347350388487911908843204439436369186288591638560642689057966372451341339235108724994059047358733509164685003490559163740767882315212118331482743327741629935524413322711103156284879961124590455044131138424245594189487578310963541518079026254244604527762107467840361554872206506310019502459824956014854870801025864239301291417722472553112286594068486798250696509066385848754903112688980193026223278058681955222886548139452851806907710489829669619807944101939565475536283811900910761099993597592370160141089971900328462808884899367513265732925213661586164088746968016329099324303016619924960518903370409809683926723623033151225570721533566936663314661556685905617127027878377027565639005321434413337322558381146226065483738083434838891447541270893229182117448718056684266916530908058266431100842302169551772537296800582918789992928321315969567976550524925231276351583128788332726509770201120239246368259111333463277482658553774698631191251713087699891086237885480141466423526900275663973829547681802057894427582607922588507716845748414833210643442973697394561712387154524184383865213718622947191869468651020163477288907174487832002858203698129690082623091708563328954243509748416260174285215389198468407857682115946418988609735664742601331926037238711274994656129254597745192992000053184792465078114811108831048102330513473710887557981401520053932792943150552832794339909775090755011532917964560062377207947160932616047375812619518570798615899262382794909997203087778096748466784636145038259395437563828432300378212297811153984430900499082323222187799944577755693142404156713989663238961495104060121640943365388872811103877953741380764158660203671968047946050677312507841236234444186418678060919669403026604387443149600200451306997654344727724501724858227625014075989834444178072414486496544277986232905515018368706089363441673987752914946497731507879835492080809966886991468120112420546282704209916925791598011755335664329769635901205438457414852247765386854974381584248957201089323514053490971763548129384500066048061726014721831370898079992196302590389879806575965177816300688938172482576102644056114545244139328582811048035280728125938471534337843796352468248717572188009000157083557265476685015042475930302392384887926149462160034282591879522948709427194039860174386699945604920461935124635209634852896907197933094763563112277898963639763233238627230619957517919803110404885112924289618200102293842146984012945559948697155934330603858084087796387416113936330768252364938290244206121586215383342421294935795311876394915412199856841138042138655073710871977068979036900377204349018319556382749896890919552044854580827713936174206995654317357220176481480473476487768539882649515845496916892245429483926954707901627110290589885808370245649421493995474290535669338032506787947627600160369663239258450951896177321964098052807182539334687288104725045112440081859301672287746145341124407826594591872642027793128764907068506478352168088931638117401840833860054474321346465823490072924993541253396696811812166582057279787029283487309075234059499921344698746303206164851297833403354186028681621924279594405162042631097081033022882234376815320867722241745823784025217422244109864695063978982667542083712489370310721900376170925201195593592801499504708608569104473526918070616931045538913088350363404254748097165956504699229104219118318309233535807490011467002077885339799880530044744392070731001254621856843318959114071532032394309209120314862993358044800921782712905365557821951090069943881095953077760213556553452338935769157572067423035029273787221879801071279103878266213284303824470709484778076685187781017210295322654184815283266821481600458533077868066744592842107990592422258904728816133798297964947274845685874581074298329144451427946580591867971999147289475074678854561396786252262507768605759807495339348929814252487035106070187251087443172187352615476385997246151370524644266821824737738355068511883380182197530098094406990241952152262699270117289165522002717748286585336896008389571459288167087001204198445390998687917338859373645827541381793851259213086457966869021760376304938709417984
    rw [hG]
    rw [show List.range (max 624 ([32338] : List Nat).length) =
        List.range' 0 156 ++ (List.range' 156 156 ++ (List.range' 312 156 ++ List.range' 468 156))
      from by decide]
    rw [List.foldl_append, hB1, List.foldl_append, hB2, List.foldl_append, hB3, hB4]
    rw [show List.range 623 =
        List.range' 0 156 ++ (List.range' 156 156 ++ (List.range' 312 156 ++ List.range' 468 155))
      from by decide]
    rw [List.foldl_append, hC1, List.foldl_append, hC2, List.foldl_append, hC3, hC4]
    decide
  have hD1 : (List.range' 0 156).foldl mtTwistStep 31154845370965025156026709800364495754732059403873654672926872925675230564332642294762263421344872494269156447866062986960677073534642545460751761512676775558595187667364099811792946538175234018284747479093194878474666870644390760828186784292916755344556311839084670970769318925319850046715980609311147778259355595932834202709324182602106016324277883495987019170058220148202887730893753344114698843307941592893408246783349893773462470569730833305983129428524841189357009019428352433171217143173269539333212864400851942455588277026030947178676681816031037925001781111202234202247371458015986657297302005904825580788391030440886550452143506049512893766858184060822413305833137776473114703541490032638979916489820852382211902256640969129779375242407746152989112126526686052205269676562800803648886160824672985890118540607272387329037125052346277800195130213275221804338674591278477123961228791406584066540021591450066388541205658213646889049202963978730313776936991245721412985156663719663457820199940379496848884021695620912755505728646572610956101426140379244425840259371712925689862455411262294656278144339030573574867094643161139322394085767671009180810421890951696673868524416381077482625991760364827697026341428263044824311388178443911541430629127176138251440942951826752798545818877270344401162629578518323525365274517134636996026006026681367877569958747080171794971024080792924814709765029180546167569748510255659528029921509173529583269434410724992969970704282706240612084662690856650544205075582565926485887382743301333923437605109433986599696106995792620546859836694380153632302233006280169064430634374240714124038793167517564468699051840894742965905055802653633808752166302154884217284995112470298517627718757913001832452645015092483954821150043683913089740238475033702316154602854556913121740440321955824976818781860135047507568254420185335012442422780662016781460678375051218976273191775441293037503538303487068347350388487911908843204439436369186288591638560642689057966372451341339235108724994059047358733509164685003490559163740767882315212118331482743327741629935524413322711103156284879961124590455044131138424245594189487578310963541518079026254244604527762107467840361554872206506310019502459824956014854870801025864239301291417722472553112286594068486798250696509066385848754903112688980193026223278058681955222886548139452851806907710489829669619807944101939565475536283811900910761099993597592370160141089971900328462808884899367513265732925213661586164088746968016329099324303016619924960518903370409809683926723623033151225570721533566936663314661556685905617127027878377027565639005321434413337322558381146226065483738083434838891447541270893229182117448718056684266916530908058266431100842302169551772537296800582918789992928321315969567976550524925231276351583128788332726509770201120239246368259111333463277482658553774698631191251713087699891086237885480141466423526900275663973829547681802057894427582607922588507716845748414833210643442973697394561712387154524184383865213718622947191869468651020163477288907174487832002858203698129690082623091708563328954243509748416260174285215389198468407857682115946418988609735664742601331926037238711274994656129254597745192992000053184792465078114811108831048102330513473710887557981401520053932792943150552832794339909775090755011532917964560062377207947160932616047375812619518570798615899262382794909997203087778096748466784636145038259395437563828432300378212297811153984430900499082323222187799944577755693142404156713989663238961495104060121640943365388872811103877953741380764158660203671968047946050677312507841236234444186418678060919669403026604387443149600200451306997654344727724501724858227625014075989834444178072414486496544277986232905515018368706089363441673987752914946497731507879835492080809966886991468120112420546282704209916925791598011755335664329769635901205438457414852247765386854974381584248957201089323514053490971763548129384500066048061726014721831370898079992196302590389879806575965177816300688938172482576102644056114545244139328582811048035280728125938471534337843796352468248717572188009000157083557265476685015042475930302392384887926149462160034282591879522948709427194039860174386699945604920461935124635209634852896907197933094763563112277898963639763233238627230619957517919803110404885112924289618200102293842146984012945559948697155934330603858084087796387416113936330768252364938290244206121586215383342421294935795311876394915412199856841138042138655073710871977068979036900377204349018319556382749896890919552044854580827713936174206995654317357220176481480473476487768539882649515845496916892245429483926954707901627110290589885808370245649421493995474290535669338032506787947627600160369663239258450951896177321964098052807182539334687288104725045112440081859301672287746145341124407826594591872642027793128764907068506478352168088931638117401840833860054474321346465823490072924993541253396696811812166582057279787029283487309075234059499921344698746303206164851297833403354186028681621924279594405162042631097081033022882234376815320867722241745823784025217422244109864695063978982667542083712489370310721900376170925201195593592801499504708608569104473526918070616931045538913088350363404254748097165956504699229104219118318309233535807490011467002077885339799880530044744392070731001254621856843318959114071532032394309209120314862993358044800921782712905365557821951090069943881095953077760213556553452338935769157572067423035029273787221879801071279103878266213284303824470709484778076685187781017210295322654184815283266821481600458533077868066744592842107990592422258904728816133798297964947274845685874581074298329144451427946580591867971999147289475074678854561396786252262507768605759807495339348929814252487035106070187251087443172187352615476385997246151370524644266821824737738355068511883380182197530098094406990241952152262699270117289165522002717748286585336896008389571459288167087001204198445390998687917338859373645827541381793851259213086457966869021760376304938709417984 = 31154845370965025156026709800364495754732059403873654672926872925675230564332642294762263421344872494269156447866062986960677073534642545460751761512676775558595187667364099811792946538175234018284747479093194878474666870644390760828186784292916755344556311839084670970769318925319850046715980609311147778259355595932834202709324182602106016324277883495987019170058220148202887730893753344114698843307941592893408246783349893773462470569730833305983129428524841189357009019428352433171217143173269539333212864400851942455588277026030947178676681816031037925001781111202234202247371458015986657297302005904825580788391030440886550452143506049512893766858184060822413305833137776473114703541490032638979916489820852382211902256640969129779375242407746152989112126526686052205269676562800803648886160824672985890118540607272387329037125052346277800195130213275221804338674591278477123961228791406584066540021591450066388541205658213646889049202963978730313776936991245721412985156663719663457820199940379496848884021695620912755505728646572610956101426140379244425840259371712925689862455411262294656278144339030573574867094643161139322394085767671009180810421890951696673868524416381077482625991760364827697026341428263044824311388178443911541430629127176138251440942951826752798545818877270344401162629578518323525365274517134636996026006026681367877569958747080171794971024080792924814709765029180546167569748510255659528029921509173529583269434410724992969970704282706240612084662690856650544205075582565926485887382743301333923437605109433986599696106995792620546859836694380153632302233006280169064430634374240714124038793167517564468699051840894742965905055802653633808752166302154884217284995112470298517627718757913001832452645015092483954821150043683913089740238475033702316154602854556913121740440321955824976818781860135047507568254420185335012442422780662016781460678375051218976273191775441293037503538303487068347350388487911908843204439436369186288591638560642689057966372451341339235108724994059047358733509164685003490559163740767882315212118331482743327741629935524413322711103156284879961124590455044131138424245594189487578310963541518079026254244604527762107467840361554872206506310019502459824956014854870801025864239301291417722472553112286594068486798250696509066385848754903112688980193026223278058681955222886548139452851806907710489829669619807944101939565475536283811900910761099993597592370160141089971900328462808884899367513265732925213661586164088746968016329099324303016619924960518903370409809683926723623033151225570721533566936663314661556685905617127027878377027565639005321434413337322558381146226065483738083434838891447541270893229182117448718056684266916530908058266431100842302169551772537296800582918789992928321315969567976550524925231276351583128788332726509770201120239246368259111333463277482658553774698631191251713087699891086237885480141466423526900275663973829547681802057894427582607922588507716845748414833210643442973697394561712387154524184383865213718622947191869468651020163477288907174487832002858203698129690082623091708563328954243509748416260174285215389198468407857682115946418988609735664742601331926037238711274994656129254597745192992000053184792465078114811108831048102330513473710887557981401520053932792943150552832794339909775090755011532917964560062377207947160932616047375812619518570798615899262382794909997203087778096748466784636145038259395437563828432300378212297811153984430900499082323222187799944577755693142404156713989663238961495104060121640943365388872811103877953741380764158660203671968047946050677312507841236234444186418678060919669403026604387443149600200451306997654344727724501724858227625014075989834444178072414486496544277986232905515018368706089363441673987752914946497731507879835492080809966886991468120112420546282704209916925791598011755335664329769635901205438457414852247765386854974381584248957201089323514053490971763548129384500066048061726014721831370898079992196302590389879806575965177816300688938172482576102644056114545244139328582811048035280728125938471534337843796352468248717572188009000157083557265476685015042475930302392384887926149462160034282591879522948709427194039860174386699945604920461935124635209634852896907197933094763563112277898963639763233238627230619957517919803110404885112924289618200102293842146984012945559948697155934330603858084087796387416113936330768252364938290244206121586215383342421294935795311876394915412199856841138042138655073710871977068979036900377204349018319556092873440354592623012924581327465742770902842079078790113089238061479219873716339783036077247546189378141257272520343448850107874827722012077746261348525675519590839888052836535839007513239457466713147697170080737245480997970974601065973309789638993310004695256511689749282378862626303647964215573974759578449275986527967773403236554217950540836139174351883976709931757425914788651517142249978030491276089779835664164012992848013404649737042044942247933740755564509146023386207674998942608435088844739774433034033369414196373683784185931957837487142287529280249109597336675175124999136556902782396710950297684969236990242446549762958921721050160922319790588831942449727915464053039870144222309471780250413350290896790974803642221149934530648091656196224257969115404985953954847596675235985805510136359115850920776782059510389126175656043804852161638307926985967739232223872741244157047216009346107658072865823842326561008328905489226225199986003793523934232679995453131644223632120679263992277092836592367701745656629699910577950904383941186110001755576725177141069788923630862702329589849053742550520974808985498713404330466608250483168063211380815583534527963807064304630836698312791850100638620586656465749100088980248056746441386726465202023220502716300673315100768950717369423219031126507925228425201019132488961395800082313135046790891285666466597001764317731766336451311056403703607224832978420897400925007247601883019195218253158623942968495163987512579094069460004590407069913818608496599889586 := by decide
  have hD2 : (List.range' 156 156).foldl mtTwistStep 31154845370965025156026709800364495754732059403873654672926872925675230564332642294762263421344872494269156447866062986960677073534642545460751761512676775558595187667364099811792946538175234018284747479093194878474666870644390760828186784292916755344556311839084670970769318925319850046715980609311147778259355595932834202709324182602106016324277883495987019170058220148202887730893753344114698843307941592893408246783349893773462470569730833305983129428524841189357009019428352433171217143173269539333212864400851942455588277026030947178676681816031037925001781111202234202247371458015986657297302005904825580788391030440886550452143506049512893766858184060822413305833137776473114703541490032638979916489820852382211902256640969129779375242407746152989112126526686052205269676562800803648886160824672985890118540607272387329037125052346277800195130213275221804338674591278477123961228791406584066540021591450066388541205658213646889049202963978730313776936991245721412985156663719663457820199940379496848884021695620912755505728646572610956101426140379244425840259371712925689862455411262294656278144339030573574867094643161139322394085767671009180810421890951696673868524416381077482625991760364827697026341428263044824311388178443911541430629127176138251440942951826752798545818877270344401162629578518323525365274517134636996026006026681367877569958747080171794971024080792924814709765029180546167569748510255659528029921509173529583269434410724992969970704282706240612084662690856650544205075582565926485887382743301333923437605109433986599696106995792620546859836694380153632302233006280169064430634374240714124038793167517564468699051840894742965905055802653633808752166302154884217284995112470298517627718757913001832452645015092483954821150043683913089740238475033702316154602854556913121740440321955824976818781860135047507568254420185335012442422780662016781460678375051218976273191775441293037503538303487068347350388487911908843204439436369186288591638560642689057966372451341339235108724994059047358733509164685003490559163740767882315212118331482743327741629935524413322711103156284879961124590455044131138424245594189487578310963541518079026254244604527762107467840361554872206506310019502459824956014854870801025864239301291417722472553112286594068486798250696509066385848754903112688980193026223278058681955222886548139452851806907710489829669619807944101939565475536283811900910761099993597592370160141089971900328462808884899367513265732925213661586164088746968016329099324303016619924960518903370409809683926723623033151225570721533566936663314661556685905617127027878377027565639005321434413337322558381146226065483738083434838891447541270893229182117448718056684266916530908058266431100842302169551772537296800582918789992928321315969567976550524925231276351583128788332726509770201120239246368259111333463277482658553774698631191251713087699891086237885480141466423526900275663973829547681802057894427582607922588507716845748414833210643442973697394561712387154524184383865213718622947191869468651020163477288907174487832002858203698129690082623091708563328954243509748416260174285215389198468407857682115946418988609735664742601331926037238711274994656129254597745192992000053184792465078114811108831048102330513473710887557981401520053932792943150552832794339909775090755011532917964560062377207947160932616047375812619518570798615899262382794909997203087778096748466784636145038259395437563828432300378212297811153984430900499082323222187799944577755693142404156713989663238961495104060121640943365388872811103877953741380764158660203671968047946050677312507841236234444186418678060919669403026604387443149600200451306997654344727724501724858227625014075989834444178072414486496544277986232905515018368706089363441673987752914946497731507879835492080809966886991468120112420546282704209916925791598011755335664329769635901205438457414852247765386854974381584248957201089323514053490971763548129384500066048061726014721831370898079992196302590389879806575965177816300688938172482576102644056114545244139328582811048035280728125938471534337843796352468248717572188009000157083557265476685015042475930302392384887926149462160034282591879522948709427194039860174386699945604920461935124635209634852896907197933094763563112277898963639763233238627230619957517919803110404885112924289618200102293842146984012945559948697155934330603858084087796387416113936330768252364938290244206121586215383342421294935795311876394915412199856841138042138655073710871977068979036900377204349018319556092873440354592623012924581327465742770902842079078790113089238061479219873716339783036077247546189378141257272520343448850107874827722012077746261348525675519590839888052836535839007513239457466713147697170080737245480997970974601065973309789638993310004695256511689749282378862626303647964215573974759578449275986527967773403236554217950540836139174351883976709931757425914788651517142249978030491276089779835664164012992848013404649737042044942247933740755564509146023386207674998942608435088844739774433034033369414196373683784185931957837487142287529280249109597336675175124999136556902782396710950297684969236990242446549762958921721050160922319790588831942449727915464053039870144222309471780250413350290896790974803642221149934530648091656196224257969115404985953954847596675235985805510136359115850920776782059510389126175656043804852161638307926985967739232223872741244157047216009346107658072865823842326561008328905489226225199986003793523934232679995453131644223632120679263992277092836592367701745656629699910577950904383941186110001755576725177141069788923630862702329589849053742550520974808985498713404330466608250483168063211380815583534527963807064304630836698312791850100638620586656465749100088980248056746441386726465202023220502716300673315100768950717369423219031126507925228425201019132488961395800082313135046790891285666466597001764317731766336451311056403703607224832978420897400925007247601883019195218253158623942968495163987512579094069460004590407069913818608496599889586 = 31154845370965025156026709800364495754732059403873654672926872925675230564332642294762263421344872494269156447866062986960677073534642545460751761512676775558595187667364099811792946538175234018284747479093194878474666870644390760828186784292916755344556311839084670970769318925319850046715980609311147778259355595932834202709324182602106016324277883495987019170058220148202887730893753344114698843307941592893408246783349893773462470569730833305983129428524841189357009019428352433171217143173269539333212864400851942455588277026030947178676681816031037925001781111202234202247371458015986657297302005904825580788391030440886550452143506049512893766858184060822413305833137776473114703541490032638979916489820852382211902256640969129779375242407746152989112126526686052205269676562800803648886160824672985890118540607272387329037125052346277800195130213275221804338674591278477123961228791406584066540021591450066388541205658213646889049202963978730313776936991245721412985156663719663457820199940379496848884021695620912755505728646572610956101426140379244425840259371712925689862455411262294656278144339030573574867094643161139322394085767671009180810421890951696673868524416381077482625991760364827697026341428263044824311388178443911541430629127176138251440942951826752798545818877270344401162629578518323525365274517134636996026006026681367877569958747080171794971024080792924814709765029180546167569748510255659528029921509173529583269434410724992969970704282706240612084662690856650544205075582565926485887382743301333923437605109433986599696106995792620546859836694380153632302233006280169064430634374240714124038793167517564468699051840894742965905055802653633808752166302154884217284995112470298517627718757913001832452645015092483954821150043683913089740238475033702316154602854556913121740440321955824976818781860135047507568254420185335012442422780662016781460678375051218976273191775441293037503538303487068347350388487911908843204439436369186288591638560642689057966372451341339235108724994059047358733509164685003490559163740767882315212118331482743327741629935524413322711103156284879961124590455044131138424245594189487578310963541518079026254244604527762107467840361554872206506310019502459824956014854870801025864239301291417722472553112286594068486798250696509066385848754903112688980193026223278058681955222886548139452851806907710489829669619807944101939565475536283811900910761099993597592370160141089971900328462808884899367513265732925213661586164088746968016329099324303016619924960518903370409809683926723623033151225570721533566936663314661556685905617127027878377027565639005321434413337322558381146226065483738083434838891447541270893229182117448718056684266916530908058266431100842302169551772537296800582918789992928321315969567976550524925231276351583128788332726509770201120239246368259111333463277482658553774698631191251713087699891086237885480141466423526900275663973829547681802057894427582607922588507716845748414833210643442973697394561712387154524184383865213718713508698666300742022852783696398922282622263763362611073200820662880875127809592106115103343353766838239509387936191679224971055217602669409743456561149428896967597795584819424516349412119074632023781847447605294297242985392721335922717785666540107588084130077912921975513717391819278946955618100958329959163929673375860213703729330426636180049955414908544799238177499982671906924712393783461614223363973278328685527247857193996595481394912452268901964662921258005130316573397947380178758942451358774435419911967694439725696524806892228895873880059918725143801629531890740988432034389623883904802995570859615980558618320913726239772904877193883133126751399591314837785069298036335878046049895050944695812772920817430102669928149005999780707350654166430901574328159195923908404265531522682644155306207683233204877722944512845849200635725514716332040559729427517661244943796940653661871682581382305734091049683436535571949198765161605034644687472522705350998007800187951413352275138806006254153629993768394016127714613616691192519841673298952796741434656204324722281872473258356330899725203953385669354481937813507645807299338282871528999763535764471438500229246846058491562252148727864101434240375585183708874695162527970785985968596489966134199901626915541440980319586285173274946835930363818542020186963014133100732422429357179742133173638437854548302888701086444880771620132697657172517568659923483859348525216664896416111839438707763337481432163960975036127422992331099905958037017232487974747930453402223050992335322909782581554901111804485269662340279234942962992347625092852141089395310327110194314607618090006080279064939386143161513884778949893856164298474435912942438458110257818573716160481615512442082866236546163332140546221709188656839466228483194263782174383800091064144697290134026822875711183954454491707571847017809356662933704722709695453374333233361151560131819445675744252304830312754710532235349593802857471244188385000323153884802659079140947216172870916723981279571372577065165927167553632085873030264943781725575913613346245265236042246583350075698957449106237779161277941021460300515933136009071019624123028148531059697569871087552624037668237127592585926097391348149214764665615476975539430823902642937021251634978747095750471739508647463928998951840930653935428848307636054622950452846148068478171206601242625423341404980775087119935493850787619960744623966791913414666993250165615776209057173992140184365990478239436326639900859686609982397963691901083246653643067932936208797906970672882241788364758241267115280069413755901431728968690561216962145583732521069582695172536533650397341432573480896965711144459895124196397802689079418540659823441428452079721727470574161588757009798359577121578187041469911911565921346862118869402428370954609891684835762771845335068574342853831159653824075545072966864507846158645759203017766309232482147960366812435970805135103423170164888315997770632232598287838455891052793561049264505430148939718627548081714406019753403968655577756934338226 := by decide
  have hD3 : (List.range' 312 156).foldl mtTwistStep 31154845370965025156026709800364495754732059403873654672926872925675230564332642294762263421344872494269156447866062986960677073534642545460751761512676775558595187667364099811792946538175234018284747479093194878474666870644390760828186784292916755344556311839084670970769318925319850046715980609311147778259355595932834202709324182602106016324277883495987019170058220148202887730893753344114698843307941592893408246783349893773462470569730833305983129428524841189357009019428352433171217143173269539333212864400851942455588277026030947178676681816031037925001781111202234202247371458015986657297302005904825580788391030440886550452143506049512893766858184060822413305833137776473114703541490032638979916489820852382211902256640969129779375242407746152989112126526686052205269676562800803648886160824672985890118540607272387329037125052346277800195130213275221804338674591278477123961228791406584066540021591450066388541205658213646889049202963978730313776936991245721412985156663719663457820199940379496848884021695620912755505728646572610956101426140379244425840259371712925689862455411262294656278144339030573574867094643161139322394085767671009180810421890951696673868524416381077482625991760364827697026341428263044824311388178443911541430629127176138251440942951826752798545818877270344401162629578518323525365274517134636996026006026681367877569958747080171794971024080792924814709765029180546167569748510255659528029921509173529583269434410724992969970704282706240612084662690856650544205075582565926485887382743301333923437605109433986599696106995792620546859836694380153632302233006280169064430634374240714124038793167517564468699051840894742965905055802653633808752166302154884217284995112470298517627718757913001832452645015092483954821150043683913089740238475033702316154602854556913121740440321955824976818781860135047507568254420185335012442422780662016781460678375051218976273191775441293037503538303487068347350388487911908843204439436369186288591638560642689057966372451341339235108724994059047358733509164685003490559163740767882315212118331482743327741629935524413322711103156284879961124590455044131138424245594189487578310963541518079026254244604527762107467840361554872206506310019502459824956014854870801025864239301291417722472553112286594068486798250696509066385848754903112688980193026223278058681955222886548139452851806907710489829669619807944101939565475536283811900910761099993597592370160141089971900328462808884899367513265732925213661586164088746968016329099324303016619924960518903370409809683926723623033151225570721533566936663314661556685905617127027878377027565639005321434413337322558381146226065483738083434838891447541270893229182117448718056684266916530908058266431100842302169551772537296800582918789992928321315969567976550524925231276351583128788332726509770201120239246368259111333463277482658553774698631191251713087699891086237885480141466423526900275663973829547681802057894427582607922588507716845748414833210643442973697394561712387154524184383865213718713508698666300742022852783696398922282622263763362611073200820662880875127809592106115103343353766838239509387936191679224971055217602669409743456561149428896967597795584819424516349412119074632023781847447605294297242985392721335922717785666540107588084130077912921975513717391819278946955618100958329959163929673375860213703729330426636180049955414908544799238177499982671906924712393783461614223363973278328685527247857193996595481394912452268901964662921258005130316573397947380178758942451358774435419911967694439725696524806892228895873880059918725143801629531890740988432034389623883904802995570859615980558618320913726239772904877193883133126751399591314837785069298036335878046049895050944695812772920817430102669928149005999780707350654166430901574328159195923908404265531522682644155306207683233204877722944512845849200635725514716332040559729427517661244943796940653661871682581382305734091049683436535571949198765161605034644687472522705350998007800187951413352275138806006254153629993768394016127714613616691192519841673298952796741434656204324722281872473258356330899725203953385669354481937813507645807299338282871528999763535764471438500229246846058491562252148727864101434240375585183708874695162527970785985968596489966134199901626915541440980319586285173274946835930363818542020186963014133100732422429357179742133173638437854548302888701086444880771620132697657172517568659923483859348525216664896416111839438707763337481432163960975036127422992331099905958037017232487974747930453402223050992335322909782581554901111804485269662340279234942962992347625092852141089395310327110194314607618090006080279064939386143161513884778949893856164298474435912942438458110257818573716160481615512442082866236546163332140546221709188656839466228483194263782174383800091064144697290134026822875711183954454491707571847017809356662933704722709695453374333233361151560131819445675744252304830312754710532235349593802857471244188385000323153884802659079140947216172870916723981279571372577065165927167553632085873030264943781725575913613346245265236042246583350075698957449106237779161277941021460300515933136009071019624123028148531059697569871087552624037668237127592585926097391348149214764665615476975539430823902642937021251634978747095750471739508647463928998951840930653935428848307636054622950452846148068478171206601242625423341404980775087119935493850787619960744623966791913414666993250165615776209057173992140184365990478239436326639900859686609982397963691901083246653643067932936208797906970672882241788364758241267115280069413755901431728968690561216962145583732521069582695172536533650397341432573480896965711144459895124196397802689079418540659823441428452079721727470574161588757009798359577121578187041469911911565921346862118869402428370954609891684835762771845335068574342853831159653824075545072966864507846158645759203017766309232482147960366812435970805135103423170164888315997770632232598287838455891052793561049264505430148939718627548081714406019753403968655577756934338226 = 31154845370965025156026709800364495754732059403873654672926872925675230564332642294762263421344872494269156447866062986960677073534642545460751761512676775558595187667364099811792946538175234018284747479093194878474666870644390760828186784292916755344556311839084670970769318925319850046715980609311147778259355595932834202709324182602106016324277883495987019170058220148202887730893753344114698843307941592893408246783349893773462470569730833305983129428524841189357009019428352433171217143173269539333212864400851942455588277026030947178676681816031037925001781111202234202247371458015986657297302005904825580788391030440886550452143506049512893766858184060822413305833137776473114703541490032638979916489820852382211902256640969129779375242407746152989112126526686052205269676562800803648886160824672985890118540607272387329037125052346277800195130213275221804338674591278477123961228791406584066540021591450066388541205658213646889049202963978730313776936991245721412985156663719663457820199940379496848884021695620912755505728646572610956101426140379244425840259371712925689862455411262294656278144339030573574867094643161139322394085767671009180810421890951696673868524416381077482625991760364827697026341428263044824311388178443911541430629127176138251440942951826752798545818877270344401162629578518323525365274517134636996026006026681367877569958747080171794971024080792924814709765029180546167569748510255659528029921509173529583269434410724992969970704282706240612084662690856650544205075582558786210082914917032103671217695804217436718576291109607101123686741420289848485155562191324349261633206177937466651654676572736354585944584026604500840245496514834433841461006240840561726937611799350443107551386333317149262129108390561407823780724610073195834686140316377908761270726013225121607986060410188136435710694543866503041311023246762688994461850347984262400583200391750518308103035631519879230418058838369969381151539383035728258315855587758190573775272072938148334904474551468679348147599091596281984141884248508615667321862114458447429594592210208446028838340762961756789328077532841882542083446655695758599151034746646807875373620420981060731145893795906720994766241410375105255110326601358701086689119262567732066060583278885306936911445847701518771796061832382292067176276138744007715520038734735414401902018720914784658119723818975147776225690501980916362906087387644874992253099294390249951351926948560627082550618555120519634830416143297931479803158670225111294613760902873376238442001792936284933537975041263921018273836953930809856025960547278923171183898825670557794701036002527751091938043206865451688990080934119224551397711845624743061672440415166254818983252935819607962379775450688089135218870851940911783854393495702871953760672878119674576119273711361615804968217599081871544027773609166281564805059277293093785823247262002842932369000449167184997795692870195729645483716180697135535488991839090887176535963167718671325988317469195680051237896921165436797843115454831120342538293008910806403474810077753958332290933808661990932883366201529146601924843733118430104800335894185461171807328985587464361107819648182061175790433722558025181880407305768667836899028534312914589221122947183305829393653613255510461331727022560688065218199427937262412981574750888182686300192204876941528638245091291457016637688787464874206722250322479680027603143909632499956973966283491019204073341408456977819000525047160498551781122059167033897978535174469103763271629213943702994981344745556543747310993201172633249018651642425814308559143981753381542438813698542069602067165363929633817558635996326389826904350651362625006905021124190710457515527254573511609126802992457269978999012049429577838348460730130547940659783398881208884659617184046412752132025456972008344309468380687193563759491192913650150145608190691456709143199451273297872497885307299867796867959606374539535384928038553978320297676900672932289450875377975028445045712771493377477725641984829416163286188597390549360585520290762664758329299097950210413031929476734623979254552506410602910105570276818450771685315249790068978913652124213603122533964127316781843726074583190481808275869521155893678497216520585092119409471355262520260995880658728348087820180373199400653743506666955695648554689578052751940990888636693619787413483164755512003037643821066244971501452533987652139865000803381346165937247574860222160380440920799480187577499026286273882069473469783809044016194830366952602668981851674216033914834089185410486155608028633391826463561249523092718116009691090557028598592227622668293308522641097774120864125379997794132293944584938374565969838729020250284010962082708886579474610293980569820729819132033780595705590857518780891940228837179608896287406866460299808302555866868226235818725266738886478798133726577049371973398646227722254048001388192443041151771966875442480167244212004972913901622484401439389125986826687606523150434669181769629037132515044069904443585956497398446860920577564695439514796412611559145648015522038978147406948730451794308735854658471316179745393316770701591029957855784194843388387945682962446083221818687645089050720239226670806940579515009305144603715157393417225356083781032370672732917558674077586993429381380622805424899829065441466100634494267993323012098330786314251148964926826772165393125154715071276092275657782576970335295847744212118790376394039208597001664376348459042492594183508156153769184936231583827801024944034505008726572481560089608237085937733093550052279496849420740013243697411923246690771485160316009648324856113981968950181936542814720122192486236333517015249412254854131042989557353407969247383691469156456020106633930369048544891558767739049649065983671823728707603796687196366442676533612073419749848873976984176452759439323953448201475226207953037031768679263010362542751455136245804747582535783325787726523499380520163613740227645357869797139425480926838076247223128582309200458781679045517488498278059611492440371077856201916002480058626629320522078448967481010 := by decide
  have hD4 : (List.range' 468 156).foldl mtTwistStep 31154845370965025156026709800364495754732059403873654672926872925675230564332642294762263421344872494269156447866062986960677073534642545460751761512676775558595187667364099811792946538175234018284747479093194878474666870644390760828186784292916755344556311839084670970769318925319850046715980609311147778259355595932834202709324182602106016324277883495987019170058220148202887730893753344114698843307941592893408246783349893773462470569730833305983129428524841189357009019428352433171217143173269539333212864400851942455588277026030947178676681816031037925001781111202234202247371458015986657297302005904825580788391030440886550452143506049512893766858184060822413305833137776473114703541490032638979916489820852382211902256640969129779375242407746152989112126526686052205269676562800803648886160824672985890118540607272387329037125052346277800195130213275221804338674591278477123961228791406584066540021591450066388541205658213646889049202963978730313776936991245721412985156663719663457820199940379496848884021695620912755505728646572610956101426140379244425840259371712925689862455411262294656278144339030573574867094643161139322394085767671009180810421890951696673868524416381077482625991760364827697026341428263044824311388178443911541430629127176138251440942951826752798545818877270344401162629578518323525365274517134636996026006026681367877569958747080171794971024080792924814709765029180546167569748510255659528029921509173529583269434410724992969970704282706240612084662690856650544205075582558786210082914917032103671217695804217436718576291109607101123686741420289848485155562191324349261633206177937466651654676572736354585944584026604500840245496514834433841461006240840561726937611799350443107551386333317149262129108390561407823780724610073195834686140316377908761270726013225121607986060410188136435710694543866503041311023246762688994461850347984262400583200391750518308103035631519879230418058838369969381151539383035728258315855587758190573775272072938148334904474551468679348147599091596281984141884248508615667321862114458447429594592210208446028838340762961756789328077532841882542083446655695758599151034746646807875373620420981060731145893795906720994766241410375105255110326601358701086689119262567732066060583278885306936911445847701518771796061832382292067176276138744007715520038734735414401902018720914784658119723818975147776225690501980916362906087387644874992253099294390249951351926948560627082550618555120519634830416143297931479803158670225111294613760902873376238442001792936284933537975041263921018273836953930809856025960547278923171183898825670557794701036002527751091938043206865451688990080934119224551397711845624743061672440415166254818983252935819607962379775450688089135218870851940911783854393495702871953760672878119674576119273711361615804968217599081871544027773609166281564805059277293093785823247262002842932369000449167184997795692870195729645483716180697135535488991839090887176535963167718671325988317469195680051237896921165436797843115454831120342538293008910806403474810077753958332290933808661990932883366201529146601924843733118430104800335894185461171807328985587464361107819648182061175790433722558025181880407305768667836899028534312914589221122947183305829393653613255510461331727022560688065218199427937262412981574750888182686300192204876941528638245091291457016637688787464874206722250322479680027603143909632499956973966283491019204073341408456977819000525047160498551781122059167033897978535174469103763271629213943702994981344745556543747310993201172633249018651642425814308559143981753381542438813698542069602067165363929633817558635996326389826904350651362625006905021124190710457515527254573511609126802992457269978999012049429577838348460730130547940659783398881208884659617184046412752132025456972008344309468380687193563759491192913650150145608190691456709143199451273297872497885307299867796867959606374539535384928038553978320297676900672932289450875377975028445045712771493377477725641984829416163286188597390549360585520290762664758329299097950210413031929476734623979254552506410602910105570276818450771685315249790068978913652124213603122533964127316781843726074583190481808275869521155893678497216520585092119409471355262520260995880658728348087820180373199400653743506666955695648554689578052751940990888636693619787413483164755512003037643821066244971501452533987652139865000803381346165937247574860222160380440920799480187577499026286273882069473469783809044016194830366952602668981851674216033914834089185410486155608028633391826463561249523092718116009691090557028598592227622668293308522641097774120864125379997794132293944584938374565969838729020250284010962082708886579474610293980569820729819132033780595705590857518780891940228837179608896287406866460299808302555866868226235818725266738886478798133726577049371973398646227722254048001388192443041151771966875442480167244212004972913901622484401439389125986826687606523150434669181769629037132515044069904443585956497398446860920577564695439514796412611559145648015522038978147406948730451794308735854658471316179745393316770701591029957855784194843388387945682962446083221818687645089050720239226670806940579515009305144603715157393417225356083781032370672732917558674077586993429381380622805424899829065441466100634494267993323012098330786314251148964926826772165393125154715071276092275657782576970335295847744212118790376394039208597001664376348459042492594183508156153769184936231583827801024944034505008726572481560089608237085937733093550052279496849420740013243697411923246690771485160316009648324856113981968950181936542814720122192486236333517015249412254854131042989557353407969247383691469156456020106633930369048544891558767739049649065983671823728707603796687196366442676533612073419749848873976984176452759439323953448201475226207953037031768679263010362542751455136245804747582535783325787726523499380520163613740227645357869797139425480926838076247223128582309200458781679045517488498278059611492440371077856201916002480058626629320522078448967481010 = 69871992397661271873393375161893882534974510099653583861882304169343374962751716618298066281430372623806268748659612129420939679157050253882299084054189844732326671907511078665571109519917803562575813470135056561457133351032769593250576736790582649429820261769069309500726472317663995482980109798685776501872104960426078857638132828133331319084759762891864804371558406563181248831875169609481990361045117240170334309784221501780040994113609986588866760490152099639805240384683519169970152990856304095158084184222368355521961709544607741179410278850906401990160171727764556883937397558385414851839528173101099632943732131485553135090021699226057857684363103402541807998122278108213050222367879993039895930062472898804724413503417558683827675279321827825290526382298355287294033437433129683776076203331960835612201167010693870813974091299479410043866835923009935321634969998885642311262877501061009199547608933334083733282626458650232497831508418752766649337270757230133023795509250423759463052169283976706359870431093861776371508311591791514462457522504381162684453227871152185168610764730064236330616287400084011449886964157617461123901147597596924719495342355569031558208789310517399795978515483021010643497357869808182478847358318385218392570592029560327718657747819817498757528498134963108724947054407145679096212507897284021232083956608108761281398924758387001015979145051805554957854960143459270768440288292662269354297057305623258578361653209786667983827637021560987123887167845927831377054667293127776707486573757941938805553881919034501261782185862855791429287798941255600531207161169715787206323269587378184273740828370192623943349722699829790550884485562664049161428889349012108910870771861206026243497588772439466879864077354512968912982674643486715805618877860831751388277765010059672905239790184810635932162772784178793343170757383252653432943676834555903424790294400189777984233426684542245618223301050273153388285607346900457761518847915367166187540506527516431787055137322944376421212504059207642023175129152991600349363432503603093844319414706125674088858431960274298158328711284659592798943034817349314123856916881326502942788743756515907454455645696681721136710389077894436157550190257579184557290845275456941110860204847446842058033809099289482248046725265092689898887227334949801244543187601536831969595683826987955549336057603866810106716518857017766535338557214703001530719299495781645880934626615026010972585742142013930665447746597650255929423336829767886905344735483552963679726686736459493411716407463871465405670394881055243837112854525109311468731850738693665608796473992058304370408506686094970626689563829142863252854947414429091810973778731484021417487506082435904856708961478373729381809992223859720724554190059152043643808714001576217091606491616442660052328213882456074340716538239625432159509117800514412796111389584406212614082792286028450927630516390235030676893610003965065034963560361043728732278547175717334823812313116365982769014666546208710732936701329415283956990283646115159076477894929916182831800572315063166070005004504829845512507579058615909561746403369256930953072652297734247059685206489114574407273568332986698615077319781598458600851300237013284594475034893048212401047716691467087693148928648555530882540988862560868210031421426438803387744486639944148727791867788042426283124337912932164584676337657909274591988586267790070631718457765576577257759125846508760262904206133259369986439445326249552741422429000628997033996833451683752441456810853230520792086883780620250654329336434412393993517790367149043701936686754675356264459000419891720247512106571304408917050590488004417685048680944921624636077433379561637203413987770604588185910129861746645079324779066326905990071415317532784778271024872589033447045049287325009287534998436569107405097623423327092267995097755071308010938543502208929688342434338401822280286840702484040095216692627723853661472258859498060775205724643115302406133187230979436582396107881829479723794736036621407179495876335309055824537290245021005266283764114375375301258762533603426540414417944147901612116642547518685670281273070166554227536396378731864844453993687436809916913222288022204617054873520672486264209161371416259877382110679499542504178118809719203546789156687313671045396034991106982118941041279200331576543679757952202803590855648615039264929237391989731832490242429865218173065836925099867121320281144150869917506423058769567032995219900413307926863815704229381208701845990682299881425321759803906592302134306531730867168655991636573415338037303039361143566066358084270506951099822341987157401160142730664505404907718739329694582749701862551064351127126708990349195478646890605154610123363146778464734525771489969774434282470514302374283790116034992450958414387446462391571081642818993826886469545319715786778248545347702776182965401750081121924635468507005798407802921613951471979646209888614690374707863314798255945494797169175929371477726759074381128574561503740602708468541476044147817324803232156949083737110315831909595491463995656561703456923891552015758633301966757364306589103488663373946665908644598425466236596322121688258619864740071754130513121420961723806514231888292293956616783253572723587265560965216406105998634501753526113658665461368784022561316992415772125598753165367926247574008702501439122117197647266503738989091201973638346365790977847866481322331470055340093742759895571814109537443641020165037678949745574248317133416980198082905643045257819542202564467218565392924987696220641192597214933284297059750024501004749084669595045012064139845724031186787759008922669812519412112344282011790973631441885139759645127405102639529814073281355980732746449821713047776851701114287005574104749421449510210759718331256282133335936023339990516133618875804185769549530077918357568292323765592097839675310264980752119109732641310185128856945193879159384321215999132952593876717201288599171638925944697397509526290029113202297395665183211484863560307507436600743399051597563899898964017913800458499762 := by decide
  have hT : mtTwist 31154845370965025156026709800364495754732059403873654672926872925675230564332642294762263421344872494269156447866062986960677073534642545460751761512676775558595187667364099811792946538175234018284747479093194878474666870644390760828186784292916755344556311839084670970769318925319850046715980609311147778259355595932834202709324182602106016324277883495987019170058220148202887730893753344114698843307941592893408246783349893773462470569730833305983129428524841189357009019428352433171217143173269539333212864400851942455588277026030947178676681816031037925001781111202234202247371458015986657297302005904825580788391030440886550452143506049512893766858184060822413305833137776473114703541490032638979916489820852382211902256640969129779375242407746152989112126526686052205269676562800803648886160824672985890118540607272387329037125052346277800195130213275221804338674591278477123961228791406584066540021591450066388541205658213646889049202963978730313776936991245721412985156663719663457820199940379496848884021695620912755505728646572610956101426140379244425840259371712925689862455411262294656278144339030573574867094643161139322394085767671009180810421890951696673868524416381077482625991760364827697026341428263044824311388178443911541430629127176138251440942951826752798545818877270344401162629578518323525365274517134636996026006026681367877569958747080171794971024080792924814709765029180546167569748510255659528029921509173529583269434410724992969970704282706240612084662690856650544205075582565926485887382743301333923437605109433986599696106995792620546859836694380153632302233006280169064430634374240714124038793167517564468699051840894742965905055802653633808752166302154884217284995112470298517627718757913001832452645015092483954821150043683913089740238475033702316154602854556913121740440321955824976818781860135047507568254420185335012442422780662016781460678375051218976273191775441293037503538303487068347350388487911908843204439436369186288591638560642689057966372451341339235108724994059047358733509164685003490559163740767882315212118331482743327741629935524413322711103156284879961124590455044131138424245594189487578310963541518079026254244604527762107467840361554872206506310019502459824956014854870801025864239301291417722472553112286594068486798250696509066385848754903112688980193026223278058681955222886548139452851806907710489829669619807944101939565475536283811900910761099993597592370160141089971900328462808884899367513265732925213661586164088746968016329099324303016619924960518903370409809683926723623033151225570721533566936663314661556685905617127027878377027565639005321434413337322558381146226065483738083434838891447541270893229182117448718056684266916530908058266431100842302169551772537296800582918789992928321315969567976550524925231276351583128788332726509770201120239246368259111333463277482658553774698631191251713087699891086237885480141466423526900275663973829547681802057894427582607922588507716845748414833210643442973697394561712387154524184383865213718622947191869468651020163477288907174487832002858203698129690082623091708563328954243509748416260174285215389198468407857682115946418988609735664742601331926037238711274994656129254597745192992000053184792465078114811108831048102330513473710887557981401520053932792943150552832794339909775090755011532917964560062377207947160932616047375812619518570798615899262382794909997203087778096748466784636145038259395437563828432300378212297811153984430900499082323222187799944577755693142404156713989663238961495104060121640943365388872811103877953741380764158660203671968047946050677312507841236234444186418678060919669403026604387443149600200451306997654344727724501724858227625014075989834444178072414486496544277986232905515018368706089363441673987752914946497731507879835492080809966886991468120112420546282704209916925791598011755335664329769635901205438457414852247765386854974381584248957201089323514053490971763548129384500066048061726014721831370898079992196302590389879806575965177816300688938172482576102644056114545244139328582811048035280728125938471534337843796352468248717572188009000157083557265476685015042475930302392384887926149462160034282591879522948709427194039860174386699945604920461935124635209634852896907197933094763563112277898963639763233238627230619957517919803110404885112924289618200102293842146984012945559948697155934330603858084087796387416113936330768252364938290244206121586215383342421294935795311876394915412199856841138042138655073710871977068979036900377204349018319556382749896890919552044854580827713936174206995654317357220176481480473476487768539882649515845496916892245429483926954707901627110290589885808370245649421493995474290535669338032506787947627600160369663239258450951896177321964098052807182539334687288104725045112440081859301672287746145341124407826594591872642027793128764907068506478352168088931638117401840833860054474321346465823490072924993541253396696811812166582057279787029283487309075234059499921344698746303206164851297833403354186028681621924279594405162042631097081033022882234376815320867722241745823784025217422244109864695063978982667542083712489370310721900376170925201195593592801499504708608569104473526918070616931045538913088350363404254748097165956504699229104219118318309233535807490011467002077885339799880530044744392070731001254621856843318959114071532032394309209120314862993358044800921782712905365557821951090069943881095953077760213556553452338935769157572067423035029273787221879801071279103878266213284303824470709484778076685187781017210295322654184815283266821481600458533077868066744592842107990592422258904728816133798297964947274845685874581074298329144451427946580591867971999147289475074678854561396786252262507768605759807495339348929814252487035106070187251087443172187352615476385997246151370524644266821824737738355068511883380182197530098094406990241952152262699270117289165522002717748286585336896008389571459288167087001204198445390998687917338859373645827541381793851259213086457966869021760376304938709417984 = 69871992397661271873393375161893882534974510099653583861882304169343374962751716618298066281430372623806268748659612129420939679157050253882299084054189844732326671907511078665571109519917803562575813470135056561457133351032769593250576736790582649429820261769069309500726472317663995482980109798685776501872104960426078857638132828133331319084759762891864804371558406563181248831875169609481990361045117240170334309784221501780040994113609986588866760490152099639805240384683519169970152990856304095158084184222368355521961709544607741179410278850906401990160171727764556883937397558385414851839528173101099632943732131485553135090021699226057857684363103402541807998122278108213050222367879993039895930062472898804724413503417558683827675279321827825290526382298355287294033437433129683776076203331960835612201167010693870813974091299479410043866835923009935321634969998885642311262877501061009199547608933334083733282626458650232497831508418752766649337270757230133023795509250423759463052169283976706359870431093861776371508311591791514462457522504381162684453227871152185168610764730064236330616287400084011449886964157617461123901147597596924719495342355569031558208789310517399795978515483021010643497357869808182478847358318385218392570592029560327718657747819817498757528498134963108724947054407145679096212507897284021232083956608108761281398924758387001015979145051805554957854960143459270768440288292662269354297057305623258578361653209786667983827637021560987123887167845927831377054667293127776707486573757941938805553881919034501261782185862855791429287798941255600531207161169715787206323269587378184273740828370192623943349722699829790550884485562664049161428889349012108910870771861206026243497588772439466879864077354512968912982674643486715805618877860831751388277765010059672905239790184810635932162772784178793343170757383252653432943676834555903424790294400189777984233426684542245618223301050273153388285607346900457761518847915367166187540506527516431787055137322944376421212504059207642023175129152991600349363432503603093844319414706125674088858431960274298158328711284659592798943034817349314123856916881326502942788743756515907454455645696681721136710389077894436157550190257579184557290845275456941110860204847446842058033809099289482248046725265092689898887227334949801244543187601536831969595683826987955549336057603866810106716518857017766535338557214703001530719299495781645880934626615026010972585742142013930665447746597650255929423336829767886905344735483552963679726686736459493411716407463871465405670394881055243837112854525109311468731850738693665608796473992058304370408506686094970626689563829142863252854947414429091810973778731484021417487506082435904856708961478373729381809992223859720724554190059152043643808714001576217091606491616442660052328213882456074340716538239625432159509117800514412796111389584406212614082792286028450927630516390235030676893610003965065034963560361043728732278547175717334823812313116365982769014666546208710732936701329415283956990283646115159076477894929916182831800572315063166070005004504829845512507579058615909561746403369256930953072652297734247059685206489114574407273568332986698615077319781598458600851300237013284594475034893048212401047716691467087693148928648555530882540988862560868210031421426438803387744486639944148727791867788042426283124337912932164584676337657909274591988586267790070631718457765576577257759125846508760262904206133259369986439445326249552741422429000628997033996833451683752441456810853230520792086883780620250654329336434412393993517790367149043701936686754675356264459000419891720247512106571304408917050590488004417685048680944921624636077433379561637203413987770604588185910129861746645079324779066326905990071415317532784778271024872589033447045049287325009287534998436569107405097623423327092267995097755071308010938543502208929688342434338401822280286840702484040095216692627723853661472258859498060775205724643115302406133187230979436582396107881829479723794736036621407179495876335309055824537290245021005266283764114375375301258762533603426540414417944147901612116642547518685670281273070166554227536396378731864844453993687436809916913222288022204617054873520672486264209161371416259877382110679499542504178118809719203546789156687313671045396034991106982118941041279200331576543679757952202803590855648615039264929237391989731832490242429865218173065836925099867121320281144150869917506423058769567032995219900413307926863815704229381208701845990682299881425321759803906592302134306531730867168655991636573415338037303039361143566066358084270506951099822341987157401160142730664505404907718739329694582749701862551064351127126708990349195478646890605154610123363146778464734525771489969774434282470514302374283790116034992450958414387446462391571081642818993826886469545319715786778248545347702776182965401750081121924635468507005798407802921613951471979646209888614690374707863314798255945494797169175929371477726759074381128574561503740602708468541476044147817324803232156949083737110315831909595491463995656561703456923891552015758633301966757364306589103488663373946665908644598425466236596322121688258619864740071754130513121420961723806514231888292293956616783253572723587265560965216406105998634501753526113658665461368784022561316992415772125598753165367926247574008702501439122117197647266503738989091201973638346365790977847866481322331470055340093742759895571814109537443641020165037678949745574248317133416980198082905643045257819542202564467218565392924987696220641192597214933284297059750024501004749084669595045012064139845724031186787759008922669812519412112344282011790973631441885139759645127405102639529814073281355980732746449821713047776851701114287005574104749421449510210759718331256282133335936023339990516133618875804185769549530077918357568292323765592097839675310264980752119109732641310185128856945193879159384321215999132952593876717201288599171638925944697397509526290029113202297395665183211484863560307507436600743399051597563899898964017913800458499762 := by
    unfold mtTwist
    rw [show List.range 624 =
        List.range' 0 156 ++ (List.range' 156 156 ++ (List.range' 312 156 ++ List.range' 468 156))
      from by decide]
    rw [List.foldl_append, hD1, List.foldl_append, hD2, List.foldl_append, hD3, hD4]
  unfold mtSeed
  rw [hkey, hIBA, hT]

set_option maxRecDepth 50000 in
/-- C1 counterexample: with seed 32338, budget 2, black on the initial 4×4
board, `choose_move` returns `(3, 2)`; the two root children `(3, 2)` and
`(2, 3)` are tied at 1 visit each, and the first of them in canonical
row-major move order is `(2, 3)` ≠ `(3, 2)`.  The tie is broken by creation
order, not by row-major order as the claim states. -/
theorem chooseMove_rowMajor_counterexample :
    ((fun res => (res.1,
        res.2.1.root.map fun r => r.children.map fun c => (c.move, c.visits),
        res.2.1.root.map fun r => specRowMajorTieBreak r.children))
      (chooseMove (mtConfig Cell.black 2) ⟨none, mtSeed 32338⟩ (OthelloBoard.init 4))) =
      (some (3, 2), some [(some (3, 2), 1), (some (2, 3), 1)], some (some (2, 3))) ∧
    (some (3, 2) : Option (Nat × Nat)) ≠ some (2, 3) := by
  constructor
  · rw [mtSeed_32338]
    decide
  · decide

set_option maxRecDepth 50000 in
/-- C8 counterexample: from the initial 4×4 board (black to move — the very
first reachable state) the rollout loop with seed 32338 runs for 17 plies
(12 moves and 5 passes by white) before reaching the terminal 16–0 board,
and 17 exceeds size² = 16. -/
theorem rollout_plies_counterexample :
    ((rolloutLoop (mtConfig Cell.black 1) (2 * 4 * 4 + 2) (OthelloBoard.init 4)
        Cell.black (mtSeed 32338)).map fun x => (x.2.2, x.1.isGameOver)) =
      some (17, true) ∧
    (OthelloBoard.init 4).size * (OthelloBoard.init 4).size < 17 := by
  constructor
  · rw [mtSeed_32338]
    decide
  · decide


/-! ### C8: termination and ply bound of the rollout loop -/

theorem getCell_foldl_setCell_cases (color : Cell) :
    ∀ (l : List (Int × Int)) (b0 : OthelloBoard) (r c : Nat),
      (l.foldl (fun acc rc => acc.setCell rc.1.toNat rc.2.toNat color) b0).getCell r c =
          b0.getCell r c ∨
        (l.foldl (fun acc rc => acc.setCell rc.1.toNat rc.2.toNat color) b0).getCell r c =
          color
  | [], _, _, _ => Or.inl rfl
  | a :: t, b0, r, c => by
    rw [List.foldl_cons]
    rcases getCell_foldl_setCell_cases color t (b0.setCell a.1.toNat a.2.toNat color) r c with
      h | h
    · rcases getCell_setCell_cases b0 a.1.toNat a.2.toNat r c color with h' | h'
      · exact Or.inl (h.trans h')
      · exact Or.inr (h.trans h')
    · exact Or.inr h

theorem foldl_setCell_size (color : Cell) :
    ∀ (l : List (Int × Int)) (b0 : OthelloBoard),
      (l.foldl (fun acc rc => acc.setCell rc.1.toNat rc.2.toNat color) b0).size = b0.size
  | [], _ => rfl
  | a :: t, b0 => by
    rw [List.foldl_cons]
    exact foldl_setCell_size color t _

theorem foldl_setCell_wf (color : Cell) :
    ∀ (l : List (Int × Int)) (b0 : OthelloBoard), b0.WF →
      (l.foldl (fun acc rc => acc.setCell rc.1.toNat rc.2.toNat color) b0).WF
  | [], _, h => h
  | a :: t, b0, h => by
    rw [List.foldl_cons]
    exact foldl_setCell_wf color t _ (h.setCell_wf _ _ _)

theorem makeMove_size (b : OthelloBoard) (row col : Nat) (color : Cell) :
    ((b.makeMove row col color).2).size = b.size := by
  simp only [OthelloBoard.makeMove]
  split
  · rfl
  · exact foldl_setCell_size color _ _

theorem makeMove_wf {b : OthelloBoard} (hwf : b.WF) (row col : Nat) (color : Cell) :
    ((b.makeMove row col color).2).WF := by
  simp only [OthelloBoard.makeMove]
  split
  · exact hwf
  · exact foldl_setCell_wf color _ _ (hwf.setCell_wf _ _ _)

theorem countP_lt_of_pointwise {α : Type} (p q : α → Bool) :
    ∀ (l : List α), (∀ x ∈ l, p x = true → q x = true) →
      ∀ a ∈ l, p a = false → q a = true → l.countP p < l.countP q
  | [], _, a, ha, _, _ => absurd ha (List.not_mem_nil a)
  | b :: t, hpt, a, ha, hpa, hqa => by
    have hle : t.countP p ≤ t.countP q :=
      List.countP_mono_left fun x hx => hpt x (List.mem_cons_of_mem _ hx)
    rcases List.mem_cons.mp ha with rfl | hat
    · rw [List.countP_cons, List.countP_cons, if_neg (by simp [hpa]), if_pos hqa]
      omega
    · have hlt := countP_lt_of_pointwise p q t
        (fun x hx => hpt x (List.mem_cons_of_mem _ hx)) a hat hpa hqa
      have hbq : (if p b = true then (1 : Nat) else 0) ≤ if q b = true then 1 else 0 := by
        cases hpb : p b
        · simp
        · simp [hpt b (List.mem_cons_self b t) hpb]
      rw [List.countP_cons, List.countP_cons]
      omega

theorem coordList_length (n : Nat) : (coordList n).length = n * n := by
  unfold coordList
  rw [List.length_flatMap]
  have h : (List.length ∘ fun r : Nat => List.map (fun c => (r, c)) (List.range n)) =
      fun _ : Nat => n := by
    funext r
    simp
  rw [h, List.map_const', List.sum_replicate, List.length_range, smul_eq_mul]

theorem emptyCount_le (b : OthelloBoard) : b.emptyCount ≤ b.size * b.size := by
  unfold OthelloBoard.emptyCount
  exact le_trans (List.countP_le_length _) (le_of_eq (coordList_length b.size))

theorem isGameOver_of_no_moves (b : OthelloBoard) {c : Cell} (hc : c ≠ Cell.empty)
    (h1 : b.getValidMoves c = []) (h2 : b.getValidMoves c.opponent = []) :
    b.isGameOver = true := by
  cases c with
  | empty => exact absurd rfl hc
  | black =>
    simp only [Cell.opponent] at h2
    simp [OthelloBoard.isGameOver, h1, h2]
  | white =>
    simp only [Cell.opponent] at h2
    simp [OthelloBoard.isGameOver, h1, h2]

theorem emptyCount_fold_lt (b : OthelloBoard) (hwf : b.WF) (l : List (Int × Int))
    {row col : Nat} (hrow : row < b.size) (hcol : col < b.size) {color : Cell}
    (hc : color ≠ Cell.empty) (hempty : b.getCell row col = Cell.empty) :
    (l.foldl (fun acc rc => acc.setCell rc.1.toNat rc.2.toNat color)
        (b.setCell row col color)).emptyCount < b.emptyCount := by
  unfold OthelloBoard.emptyCount
  rw [show (l.foldl (fun acc rc => acc.setCell rc.1.toNat rc.2.toNat color)
      (b.setCell row col color)).size = b.size from foldl_setCell_size color l _]
  refine countP_lt_of_pointwise _ _ (coordList b.size) ?_ (row, col)
    (mem_coordList.mpr ⟨hrow, hcol⟩) ?_ ?_
  · intro x hx hpx
    have hfe : (l.foldl (fun acc rc => acc.setCell rc.1.toNat rc.2.toNat color)
        (b.setCell row col color)).getCell x.1 x.2 = Cell.empty := of_decide_eq_true hpx
    refine decide_eq_true ?_
    rcases getCell_foldl_setCell_cases color l (b.setCell row col color) x.1 x.2 with h1 | h1
    · rcases getCell_setCell_cases b row col x.1 x.2 color with h2 | h2
      · rw [← h2, ← h1]
        exact hfe
      · rw [h1, h2] at hfe
        exact absurd hfe hc
    · rw [h1] at hfe
      exact absurd hfe hc
  · refine decide_eq_false ?_
    have hset : (b.setCell row col color).getCell row col = color :=
      getCell_setCell_self b row col color (by rw [hwf.1]; exact hrow)
        (by rw [hwf.row_length hrow]; exact hcol)
    have hfin := getCell_foldl_setCell color l (b.setCell row col color) row col hset
    intro hcontra
    rw [hfin] at hcontra
    exact hc hcontra
  · exact decide_eq_true hempty

theorem emptyCount_makeMove_lt (b : OthelloBoard) (hwf : b.WF) {row col : Nat} {color : Cell}
    (hrow : row < b.size) (hcol : col < b.size) (hc : color ≠ Cell.empty)
    (hv : b.isValidMove row col color = true) :
    ((b.makeMove row col color).2).emptyCount < b.emptyCount := by
  have hflips : b.discsToFlip row col color ≠ [] := by
    intro hnil
    unfold OthelloBoard.isValidMove at hv
    rw [hnil] at hv
    simp at hv
  have hempty : b.getCell row col = Cell.empty := by
    by_contra hne
    exact hflips ((discsToFlip_eq_nil_iff b row col color).mpr (Or.inl hne))
  simp only [OthelloBoard.makeMove]
  rw [if_neg hflips]
  exact emptyCount_fold_lt b hwf _ hrow hcol hc hempty

theorem rolloutLoop_measure {σ : Type} (cfg : MCTSConfig σ) :
    ∀ (fuel : Nat) (board : OthelloBoard) (current : Cell) (s : σ),
      board.WF → current ≠ Cell.empty → rolloutMeasure board current < fuel →
      ∃ bf sf n, rolloutLoop cfg fuel board current s = some (bf, sf, n) ∧
        n ≤ rolloutMeasure board current ∧ bf.isGameOver = true
  | 0, board, current, _, _, _, hlt => absurd hlt (by omega)
  | fuel + 1, board, current, s, hwf, hcur, hlt => by
    by_cases hgo : board.isGameOver = true
    · refine ⟨board, s, 0, ?_, Nat.zero_le _, hgo⟩
      simp only [rolloutLoop]
      rw [if_pos hgo]
    · by_cases hmv : board.getValidMoves current = []
      · by_cases hop : board.getValidMoves current.opponent = []
        · refine ⟨board, s, 1, ?_, ?_, isGameOver_of_no_moves board hcur hmv hop⟩
          · simp only [rolloutLoop]
            rw [if_neg hgo, if_neg (not_not_intro hmv), if_neg (not_not_intro hop)]
          · unfold rolloutMeasure
            rw [if_pos hmv]
            omega
        · have hm2 : rolloutMeasure board current.opponent < fuel := by
            unfold rolloutMeasure at hlt ⊢
            rw [if_pos hmv] at hlt
            rw [if_neg hop]
            omega
          obtain ⟨bf, sf, n, heq, hn, hbf⟩ := rolloutLoop_measure cfg fuel board
            current.opponent s hwf (opponent_ne_empty hcur) hm2
          refine ⟨bf, sf, n + 1, ?_, ?_, hbf⟩
          · simp only [rolloutLoop]
            rw [if_neg hgo, if_neg (not_not_intro hmv), if_pos hop, heq]
          · unfold rolloutMeasure at hn ⊢
            rw [if_pos hmv]
            rw [if_neg hop] at hn
            omega
      · have hlen : 0 < (board.getValidMoves current).length := List.length_pos.mpr hmv
        have hpick : (cfg.rand.choiceIdx s (board.getValidMoves current).length).1 <
            (board.getValidMoves current).length := cfg.rand.choiceIdx_lt _ _ hlen
        have hmem : (board.getValidMoves current).getD
            (cfg.rand.choiceIdx s (board.getValidMoves current).length).1 (0, 0) ∈
              board.getValidMoves current := by
          rw [List.getD_eq_getElem?_getD, List.getElem?_eq_getElem hpick, Option.getD_some]
          exact List.getElem_mem hpick
        obtain ⟨hr, hcb, hvm⟩ := mem_getValidMoves.mp hmem
        have hdec := emptyCount_makeMove_lt board hwf hr hcb hcur hvm
        have hm2 : rolloutMeasure
            ((board.makeMove
                ((board.getValidMoves current).getD
                  (cfg.rand.choiceIdx s (board.getValidMoves current).length).1 (0, 0)).1
                ((board.getValidMoves current).getD
                  (cfg.rand.choiceIdx s (board.getValidMoves current).length).1 (0, 0)).2
                current).2)
            current.opponent < fuel := by
          unfold rolloutMeasure at hlt ⊢
          rw [if_neg hmv] at hlt
          split <;> omega
        obtain ⟨bf, sf, n, heq, hn, hbf⟩ := rolloutLoop_measure cfg fuel _ current.opponent
          (cfg.rand.choiceIdx s (board.getValidMoves current).length).2
          (makeMove_wf hwf _ _ current) (opponent_ne_empty hcur) hm2
        refine ⟨bf, sf, n + 1, ?_, ?_, hbf⟩
        · simp only [rolloutLoop]
          rw [if_neg hgo, if_pos hmv, heq]
        · unfold rolloutMeasure at hn ⊢
          rw [if_neg hmv]
          split at hn <;> omega

/-- C8 (amended): from every well-formed board with a non-empty color to
move, the rollout loop run with the fuel `_rollout` supplies terminates,
returning a final board, an advanced random state and a ply count
`n ≤ 2·size² + 1` (passes included), and the final board is terminal.  The
spec's bound of `size²` plies fails once passes are counted as plies. -/
theorem rolloutLoop_total {σ : Type} (cfg : MCTSConfig σ) (board : OthelloBoard)
    (current : Cell) (s : σ) (hwf : board.WF) (hcur : current ≠ Cell.empty) :
    ∃ bf sf n,
      rolloutLoop cfg (2 * board.size * board.size + 2) board current s = some (bf, sf, n) ∧
        n ≤ 2 * board.size * board.size + 1 ∧ bf.isGameOver = true := by
  have hsq : 2 * board.size * board.size = 2 * (board.size * board.size) := by ring
  have hee := emptyCount_le board
  have hm : rolloutMeasure board current ≤ 2 * board.size * board.size + 1 := by
    unfold rolloutMeasure
    rw [hsq]
    split <;> omega
  obtain ⟨bf, sf, n, heq, hn, hbf⟩ := rolloutLoop_measure cfg
    (2 * board.size * board.size + 2) board current s hwf hcur (by omega)
  exact ⟨bf, sf, n, heq, by omega, hbf⟩

/-- Witness for `rolloutLoop_total`: the initial 4×4 board, black to move. -/
theorem rolloutLoop_total_witness :
    (OthelloBoard.init 4).WF ∧ Cell.black ≠ Cell.empty ∧
      ∃ bf sf n,
        rolloutLoop (mtConfig Cell.black 1)
            (2 * (OthelloBoard.init 4).size * (OthelloBoard.init 4).size + 2)
            (OthelloBoard.init 4) Cell.black (MTState.mk 0 0) = some (bf, sf, n) ∧
          n ≤ 2 * (OthelloBoard.init 4).size * (OthelloBoard.init 4).size + 1 ∧
          bf.isGameOver = true :=
  ⟨by decide, by decide,
    rolloutLoop_total (mtConfig Cell.black 1) (OthelloBoard.init 4) Cell.black
      (MTState.mk 0 0) (by decide) (by decide)⟩

end Othello
